import Mathlib

/-!
# kube-ovn 1.2: the Subnet reconciler

A shallow embedding of `pkg/controller/subnet.go`.  Go values that are mutated
through a pointer are passed and returned explicitly; every call that leaves the
process (declarative store, IPAM, OVN, queues) is recorded in a trace, and its
answer is read from the `Controller` record, so a theorem that quantifies over the
`Controller` quantifies over every answer the collaborators can give.
-/

namespace KubeOvn

/-! ## Errors -/

/-- A Go `error`; `k8serrors.IsNotFound` is the only classification the code makes. -/
inductive Err where
  | notFound (msg : String)
  | failed (msg : String)
deriving DecidableEq, Repr

/-- The `err.Error()` text. -/
def Err.Error : Err → String
  | .notFound m => m
  | .failed m => m

/-- The `k8serrors.IsNotFound(err)` test. -/
def IsNotFound : Err → Bool
  | .notFound _ => true
  | .failed _ => false

/-- A Go `(value, error)` result. -/
inductive Result (α : Type) where
  | ok (a : α)
  | error (e : Err)
deriving DecidableEq, Repr

/-! ## Declarative objects -/

inductive ConditionType where
  | Validated
  | Ready
  | Error
deriving DecidableEq, Repr

structure SubnetCondition where
  CondType : ConditionType
  Status : Bool
  Reason : String
  Message : String
deriving DecidableEq, Repr

/-! ## `float64` on integers -/

/-- The number of low bits that a `float64` drops from a natural number: the least
`shift` with `n / 2^shift < 2^53`, searched for `fuel` steps. -/
def float64Shift : Nat → Nat → Nat
  | 0, _ => 0
  | fuel + 1, n => if n < 2 ^ 53 then 0 else float64Shift fuel (n / 2) + 1

/-- The `float64` nearest to a natural number, ties going to the even mantissa (the
rounding of IEEE 754, which Go uses): a number below `2^53` is exact, a larger one keeps
its 53 leading bits.  The numbers at hand stay far below `2^1024`, where `float64` ends,
so 1024 steps find the shift. -/
def roundFloat64 (n : Nat) : Nat :=
  if n < 2 ^ 53 then n
  else
    let shift := float64Shift 1024 n
    let q := n / 2 ^ shift
    let r := n % 2 ^ shift
    let half := 2 ^ (shift - 1)
    if r > half ∨ (r = half ∧ q % 2 = 1) then (q + 1) * 2 ^ shift else q * 2 ^ shift

/-- The `float64` nearest to an integer: the conversion `float64(n)` of Go, and the
rounding of an exact result. -/
def toFloat64 : Int → Int
  | .ofNat n => (roundFloat64 n : Int)
  | .negSucc n => -(roundFloat64 (n + 1) : Int)

/-- The `a - b` of two `float64` numbers that hold integers: the exact difference,
rounded. -/
def subFloat64 (a b : Int) : Int := toFloat64 (a - b)

/-- The counters are `float64` in the source; they only ever hold integers (a length, or
an address count minus a length) and are kept here as the integers they hold, every
conversion and subtraction rounding as `float64` does. -/
structure SubnetStatus where
  Conditions : List SubnetCondition
  AvailableIPs : Int
  UsingIPs : Int
  ActivateGateway : String
deriving DecidableEq, Repr

/-- The three `[]string` fields are Go slices, and a Go slice is nil or holds elements:
`NamespacesNil`, `ExcludeIpsNil` and `AllowSubnetsNil` say that the slice is nil rather
than empty (they tell nothing of a list with elements, which is never nil).  `len`,
`range` and `append` do not tell a nil slice from an empty one; `reflect.DeepEqual`
does. -/
structure SubnetSpec where
  Default : Bool
  Protocol : String
  Namespaces : List String
  CIDRBlock : String
  Gateway : String
  ExcludeIps : List String
  Provider : String
  GatewayType : String
  GatewayNode : String
  UnderlayGateway : Bool
  Private : Bool
  AllowSubnets : List String
  Vlan : String
  NamespacesNil : Bool := false
  ExcludeIpsNil : Bool := false
  AllowSubnetsNil : Bool := false
deriving DecidableEq, Repr

/-- A Go `[]string` as a value: `none` is the nil slice, `some l` a slice with the
elements `l`. -/
def goSlice (isNil : Bool) (l : List String) : Option (List String) :=
  if isNil = true ∧ l = [] then none else some l

/-- The `reflect.DeepEqual` of Go on two `[]string`: both nil, or both not nil with the
same elements in the same order. -/
def DeepEqual (a b : Option (List String)) : Bool := a == b

/-- `DeletionTimestamp` is a `*metav1.Time`: `none` is the nil pointer, `some t` a
time `t` seconds after the zero instant. -/
structure Subnet where
  Name : String
  DeletionTimestamp : Option Nat
  Finalizers : List String
  Spec : SubnetSpec
  Status : SubnetStatus
deriving DecidableEq, Repr

/-- The `metav1.Time.IsZero` test: nil or the zero instant. -/
def IsZero : Option Nat → Bool
  | none => true
  | some t => t == 0

structure IPSpec where
  PodName : String
  Namespace : String
  Subnet : String
  AttachSubnets : List String
  NodeName : String
  IPAddress : String
  AttachIPs : List String
  MacAddress : String
  AttachMacs : List String
  ContainerID : String
deriving DecidableEq, Repr

/-- The IP object; `Labels` is a Go map, `none` is the nil map. -/
structure IP where
  Name : String
  Labels : Option (List (String × String))
  Spec : IPSpec
deriving DecidableEq, Repr

structure NodeAddress where
  AddrType : String
  Address : String
deriving DecidableEq, Repr

/-- Modelled from the spec: the Node as the reconciler consumes it ("internal IPs,
ready condition, tunnel-endpoint IP annotation").  `Ready` is what `nodeReady`
answers and `TunlIP` what `getNodeTunlIP` answers for the node; both functions live
in files of the controller package that are not part of the sources at hand. -/
structure Node where
  Name : String
  Addresses : List NodeAddress
  Ready : Bool
  TunlIP : Result String
deriving DecidableEq, Repr

structure Namespace where
  Name : String
  Annotations : Option (List (String × String))
deriving DecidableEq, Repr

structure VlanSpec where
  VlanId : Int
  Subnet : String
deriving DecidableEq, Repr

structure Vlan where
  Name : String
  Spec : VlanSpec
deriving DecidableEq, Repr

/-! ## Constants of `pkg/util`, `pkg/ovs` and the API package -/

def OvnProvider : String := "ovn"
def ControllerName : String := "kube-ovn-controller"
def NetworkTypeVlan : String := "vlan"
def GWDistributedType : String := "distributed"
def GWCentralizedType : String := "centralized"
def SubnetNameLabel : String := "ovn.kubernetes.io/subnet"
def LogicalSwitchAnnotation : String := "ovn.kubernetes.io/logical_switch"
def PolicySrcIP : String := "src-ip"
def NodeInternalIP : String := "InternalIP"

/-! ## The trace of outward calls -/

/-- The four work queues of the subnet reconciler. -/
inductive Queue where
  | addOrUpdateSubnet
  | deleteSubnet
  | updateSubnetStatus
  | deleteRoute
deriving DecidableEq, Repr

/-- An item of a work queue (an `interface{}` in the source): a string key, or anything
else, which the `obj.(string)` assertion of the workers rejects. -/
inductive QueueItem where
  | key (s : String)
  | other
deriving DecidableEq, Repr

set_option maxHeartbeats 1600000 in
inductive Call where
  | subnetsUpdate (subnet : Subnet)
  | subnetsPatch (name : String) (status : SubnetStatus)
  | eventf (name : String) (reason : String) (msg : String)
  | ipsList (selector : String)
  | ipamAddOrUpdateSubnet (name cidr : String) (excludeIps : List String)
  | ipamDeleteSubnet (name : String)
  | LogicalSwitchExists (name : String)
  | CreateLogicalSwitch (name protocol cidr gateway : String) (excludeIps : List String)
      (underlayGateway : Bool)
  | SetLogicalSwitchConfig (name protocol cidr gateway : String) (excludeIps : List String)
  | SetPrivateLogicalSwitch (name protocol cidr : String) (allowSubnets : List String)
  | ResetLogicalSwitchAcl (name protocol : String)
  | CleanLogicalSwitchAcl (name : String)
  | DeleteLogicalSwitch (name : String)
  | AddStaticRoute (policy cidr nextHop router : String)
  | DeleteStaticRoute (cidr router : String)
  | addNamespaceQueueAdd (ns : String)
  | updateVlanQueueAdd (vlan : String)
  | addLocalnet (subnet : String)
  | delLocalnet (subnet : String)
  | queueAdd (q : Queue) (key : String)
  | queueAddRateLimited (q : Queue) (key : String)
  | queueForget (q : Queue) (obj : QueueItem)
  | queueDone (q : Queue) (obj : QueueItem)
  | enqueueAddNamespace (ns : String)
  | sleep (seconds : Nat)
  | podsGet (podNamespace podName : String)
  | ipsGet (name : String)
  | ipsCreate (ip : IP)
  | ipsUpdate (ip : IP)
  | ipsDelete (name : String)
  | configureNic (podName podNamespace netns containerID ifName mac ip gateway ingress egress
      vlanID deviceID : String)
  | ovsExec (args : List String)
  | ClearPodBandwidth (podName podNamespace : String)
  | LinkByName (name : String)
  | LinkDel (link : String)
  | LinkAdd (name peerName : String) (mtu : Nat)
  | LinkSetDown (link : String)
  | LinkSetName (link newName : String)
  | LinkSetUp (link : String)
  | LinkSetMTU (link : String) (mtu : Nat)
  | LinkSetTxQLen (link : String) (qlen : Nat)
  | GetNetDevicesFromPci (deviceID : String)
  | GetUplinkRepresentor (deviceID : String)
  | GetVfIndexByPciAddress (deviceID : String)
  | GetVfRepresentor (uplink : String) (vfIndex : Int)
  | CleanDuplicatePort (ifaceID : String)
  | SetPortTag (nicName vlanID : String)
  | SetInterfaceBandwidth (iface ingress egress : String)
  | GetNS (netns : String)
  | configureContainerNic (nicName ifName ipAddr gateway macAddr netns : String) (mtu : Nat)
deriving DecidableEq, Repr

/-- A run of controller code: the outward calls it made, in order, and how it ended. -/
structure Run (α : Type) where
  calls : List Call
  res : Result α
deriving DecidableEq, Repr

namespace Run

/-- Return a value without calling out. -/
def ret {α : Type} (a : α) : Run α := ⟨[], .ok a⟩

/-- Return an error without calling out (`return err`). -/
def fail {α : Type} (e : Err) : Run α := ⟨[], .error e⟩

/-- One outward call and its answer. -/
def call {α : Type} (c : Call) (answer : Result α) : Run α := ⟨[c], answer⟩

/-- An outward call that answers nothing (queue `Add`, event recorder). -/
def emit (c : Call) : Run Unit := ⟨[c], .ok ()⟩

/-- Sequencing: an error ends the run, as every `if err != nil { return err }` does. -/
def bind {α β : Type} (m : Run α) (f : α → Run β) : Run β :=
  match m.res with
  | .error e => ⟨m.calls, .error e⟩
  | .ok a => ⟨m.calls ++ (f a).calls, (f a).res⟩

/-- Run `m` and hand its answer, error included, to `f` (for errors the code inspects
or ignores instead of returning). -/
def andThen {α β : Type} (m : Run α) (f : Result α → Run β) : Run β :=
  ⟨m.calls ++ (f m.res).calls, (f m.res).res⟩

end Run

instance : Monad Run where
  pure := Run.ret
  bind := Run.bind

/-- An `error`-only answer (`nil` is `none`) as a result. -/
def ofErr : Option Err → Result Unit
  | none => .ok ()
  | some e => .error e

/-! ## Go standard library: `strings.Split`, `strings.TrimSpace` -/

/-- Cut a character list at every `sep`; `cur` holds the current piece, reversed. -/
def splitAux (sep : Char) : List Char → List Char → List (List Char)
  | [], cur => [cur.reverse]
  | ch :: rest, cur =>
    if ch = sep then cur.reverse :: splitAux sep rest [] else splitAux sep rest (ch :: cur)

/-- The `strings.Split(s, sep)` of Go for a one-character separator. -/
def Split (s : String) (sep : Char) : List String :=
  (splitAux sep s.data []).map String.mk

/-- The `unicode.IsSpace` of Go. -/
def isSpace (ch : Char) : Bool :=
  let n := ch.toNat
  (9 ≤ n && n ≤ 13) || n == 32 || n == 0x85 || n == 0xA0 || n == 0x1680 ||
  (0x2000 ≤ n && n ≤ 0x200a) || n == 0x2028 || n == 0x2029 || n == 0x202f ||
  n == 0x205f || n == 0x3000

/-- The `strings.TrimSpace` of Go. -/
def TrimSpace (s : String) : String :=
  String.mk ((s.data.dropWhile isSpace).reverse.dropWhile isSpace).reverse

/-- A Go `map[string]string` lookup: the zero value `""` when the key is absent. -/
def mapGet (m : List (String × String)) (k : String) : String :=
  (m.lookup k).getD ""

/-! ## Helpers of `pkg/util` and of the API package that are not in the sources at hand -/

/-- Modelled from the spec: `util.ContainsString`, the membership test behind
"finalizer absent" / "finalizer present". -/
def ContainsString (slice : List String) (s : String) : Bool :=
  slice.contains s

/-- Modelled from the spec: `util.RemoveString`, behind "remove finalizer": every
occurrence of `s` is dropped, the other entries keep their order. -/
def RemoveString (slice : List String) (s : String) : List String :=
  slice.filter (fun item => item != s)

/-- Modelled from the spec: `util.IsStringIn`, the test behind "whose `Spec.Subnet`
(comma list) contains this subnet's name". -/
def IsStringIn (s : String) (slice : List String) : Bool :=
  slice.contains s

/-- Modelled from the spec: `util.UniqString`, the "deduplicate" of the counter
refresh.  Only the length of its result is used. -/
def UniqString (s : List String) : List String :=
  s.dedup

/-- Modelled from the spec: the one mutation behind the condition setters of
`SubnetStatus` ("Condition vocabulary `Validated`, `Ready`, `Error`, with reason
codes"): the condition of that type takes the given status, reason and message, and is
added when the status has none of that type. -/
def SubnetStatus.setCondition (m : SubnetStatus) (t : ConditionType) (status : Bool)
    (reason message : String) : SubnetStatus :=
  if m.Conditions.any (fun c => c.CondType == t) then
    { m with Conditions := m.Conditions.map fun c =>
        if c.CondType = t then ⟨t, status, reason, message⟩ else c }
  else
    { m with Conditions := m.Conditions ++ [⟨t, status, reason, message⟩] }

/-- Modelled from the spec: `SetError`, the `Error` part of "patch `Error/NotValidated/NotReady`". -/
def SubnetStatus.SetError (m : SubnetStatus) (reason message : String) : SubnetStatus :=
  m.setCondition .Error true reason message

/-- Modelled from the spec: `NotValidated`, `Validated=false` with the reason. -/
def SubnetStatus.NotValidated (m : SubnetStatus) (reason message : String) : SubnetStatus :=
  m.setCondition .Validated false reason message

/-- Modelled from the spec: `NotReady`, `Ready=false` with the reason. -/
def SubnetStatus.NotReady (m : SubnetStatus) (reason message : String) : SubnetStatus :=
  m.setCondition .Ready false reason message

/-- Modelled from the spec: `Validated`, `Validated=true` with the reason. -/
def SubnetStatus.Validated (m : SubnetStatus) (reason message : String) : SubnetStatus :=
  m.setCondition .Validated true reason message

/-- Modelled from the spec: `Ready`, `Ready=true` with the reason. -/
def SubnetStatus.Ready (m : SubnetStatus) (reason message : String) : SubnetStatus :=
  m.setCondition .Ready true reason message

/-! ## The controller and its collaborators -/

structure Configuration where
  DefaultLogicalSwitch : String
  NetworkType : String
  DefaultVlanName : String
  ClusterRouter : String
  NodeSwitch : String

/-- The controller: its configuration, and the answer of every collaborator to every
call.  The helpers of `pkg/util` and `pkg/ovs` whose code is not at hand
(`CheckProtocol`, `FirstSubnetIP`, `ExpandExcludeIPs`, `AddressCount`, `ValidateSubnet`,
`CIDRConflict`, `CIDRContainIP`, `EnsureStandardConditions`, `addLocalnet`, the JSON
encoding behind `Status.Bytes`) and `net.ParseCIDR` are fields as well. -/
structure Controller where
  config : Configuration
  /-- The `net.ParseCIDR` of Go followed by `ipNet.String()`: the canonical text of the block. -/
  ParseCIDR : String → Result String
  CheckProtocol : String → String
  FirstSubnetIP : String → Result String
  ExpandExcludeIPs : List String → String → List String
  /-- The `util.AddressCount` of the parsed block, the block given by its canonical text.
  The source gets the count as a `float64`: it is read through `toFloat64`. -/
  AddressCount : String → Int
  ValidateSubnet : Subnet → Option Err
  CIDRConflict : String → String → Bool
  CIDRContainIP : String → String → Bool
  EnsureStandardConditions : SubnetStatus → SubnetStatus
  /-- The error of `json.Marshal` inside `Status.Bytes`, if any. -/
  marshalErr : SubnetStatus → Option Err
  subnetsGet : String → Result Subnet
  subnetsList : Result (List Subnet)
  nodesGet : String → Result Node
  nodesList : Result (List Node)
  namespacesList : Result (List Namespace)
  vlansGet : String → Result Vlan
  vlansList : Result (List Vlan)
  subnetsUpdate : Subnet → Result Subnet
  subnetsPatch : String → SubnetStatus → Result Subnet
  ipsList : String → Result (List IP)
  ipamAddOrUpdateSubnet : String → String → List String → Option Err
  LogicalSwitchExists : String → Result Bool
  CreateLogicalSwitch : String → String → String → String → List String → Bool → Option Err
  SetLogicalSwitchConfig : String → String → String → String → List String → Option Err
  SetPrivateLogicalSwitch : String → String → String → List String → Option Err
  ResetLogicalSwitchAcl : String → String → Option Err
  AddStaticRoute : String → String → String → String → Option Err
  DeleteStaticRoute : String → String → Option Err
  addLocalnet : Subnet → Option Err
  /-- The answer of `c.isLeader()`. -/
  isLeader : Bool := true
  CleanLogicalSwitchAcl : String → Option Err := fun _ => none
  DeleteLogicalSwitch : String → Option Err := fun _ => none
  delLocalnet : String → Option Err := fun _ => none
  /-- The answer of `Get()` on each work queue: the item and the `shutdown` flag. -/
  queueGet : Queue → QueueItem × Bool := fun _ => (.other, true)

/-- Modelled from the spec: `SubnetStatus.Bytes`, the body of the "JSON merge-patch
against the `status` subresource": the document carries the status as it is at the
moment of the call. -/
def Bytes (c : Controller) (m : SubnetStatus) : Result SubnetStatus :=
  match c.marshalErr m with
  | some e => .error e
  | none => .ok m

/-! ## `pkg/controller/subnet.go` -/

/-- Lines 236-239 of `formatSubnet`: the canonical CIDR text. -/
def fmtCIDRBlock (ipNet : String) (p : Subnet × Bool) : Subnet × Bool :=
  if ipNet ≠ p.1.Spec.CIDRBlock then
    ({ p.1 with Spec := { p.1.Spec with CIDRBlock := ipNet } }, true)
  else p

/-- Lines 240-243: the default provider. -/
def fmtProvider (p : Subnet × Bool) : Subnet × Bool :=
  if p.1.Spec.Provider = "" then
    ({ p.1 with Spec := { p.1.Spec with Provider := OvnProvider } }, true)
  else p

/-- Lines 244-247: the protocol follows the CIDR. -/
def fmtProtocol (c : Controller) (p : Subnet × Bool) : Subnet × Bool :=
  if p.1.Spec.Protocol = "" ∨ p.1.Spec.Protocol ≠ c.CheckProtocol p.1.Spec.CIDRBlock then
    ({ p.1 with Spec := { p.1.Spec with Protocol := c.CheckProtocol p.1.Spec.CIDRBlock } }, true)
  else p

/-- Lines 248-251: the default gateway type. -/
def fmtGatewayType (p : Subnet × Bool) : Subnet × Bool :=
  if p.1.Spec.GatewayType = "" then
    ({ p.1 with Spec := { p.1.Spec with GatewayType := GWDistributedType } }, true)
  else p

/-- Lines 252-255: only the configured default switch keeps the default flag. -/
def fmtDefault (c : Controller) (p : Subnet × Bool) : Subnet × Bool :=
  if p.1.Spec.Default = true ∧ p.1.Name ≠ c.config.DefaultLogicalSwitch then
    ({ p.1 with Spec := { p.1.Spec with Default := false } }, true)
  else p

/-- Lines 256-264: an empty gateway becomes the first address of the block. -/
def fmtGateway (c : Controller) (p : Subnet × Bool) : Result (Subnet × Bool) :=
  if p.1.Spec.Gateway = "" then
    match c.FirstSubnetIP p.1.Spec.CIDRBlock with
    | .error err => .error err
    | .ok gw => .ok ({ p.1 with Spec := { p.1.Spec with Gateway := gw } }, true)
  else .ok p

/-- Lines 266-281: the gateway joins the exclude list. -/
def fmtExcludeIps (c : Controller) (p : Subnet × Bool) : Subnet × Bool :=
  if p.1.Spec.ExcludeIps.length = 0 then
    ({ p.1 with Spec := { p.1.Spec with
        ExcludeIps := [p.1.Spec.Gateway], ExcludeIpsNil := false } }, true)
  else
    let gwExists :=
      (c.ExpandExcludeIPs p.1.Spec.ExcludeIps p.1.Spec.CIDRBlock).any
        (fun ip => ip == p.1.Spec.Gateway)
    if !gwExists then
      ({ p.1 with Spec := { p.1.Spec with
          ExcludeIps := p.1.Spec.ExcludeIps ++ [p.1.Spec.Gateway],
          ExcludeIpsNil := false } }, true)
    else p

/-- Lines 283-286: the default vlan on a vlan network. -/
def fmtVlanDefault (c : Controller) (p : Subnet × Bool) : Subnet × Bool :=
  if c.config.NetworkType = NetworkTypeVlan ∧ p.1.Spec.Vlan = "" then
    ({ p.1 with Spec := { p.1.Spec with Vlan := c.config.DefaultVlanName } }, true)
  else p

/-- Lines 288-293: a vlan that cannot be looked up is cleared. -/
def fmtVlanLookup (c : Controller) (p : Subnet × Bool) : Subnet × Bool :=
  if p.1.Spec.Vlan ≠ "" then
    match c.vlansGet p.1.Spec.Vlan with
    | .error _ => ({ p.1 with Spec := { p.1.Spec with Vlan := "" } }, true)
    | .ok _ => p
  else p

/-- The mutations of `formatSubnet` (lines 232-293): the subnet as it stands before
the `Update`, and the `changed` flag. -/
def formatSubnetFields (c : Controller) (subnet : Subnet) : Result (Subnet × Bool) :=
  match c.ParseCIDR subnet.Spec.CIDRBlock with
  | .error _ =>
    .error (.failed ("subnet " ++ subnet.Name ++ " cidr " ++ subnet.Spec.CIDRBlock ++
      " is not a valid cidrblock"))
  | .ok ipNet =>
    match fmtGateway c (fmtDefault c (fmtGatewayType (fmtProtocol c (fmtProvider
        (fmtCIDRBlock ipNet (subnet, false)))))) with
    | .error err => .error err
    | .ok p => .ok (fmtVlanLookup c (fmtVlanDefault c (fmtExcludeIps c p)))

/-- The `formatSubnet` of the source: the mutations, then the `Update` when anything changed. -/
def formatSubnet (c : Controller) (subnet : Subnet) : Run Subnet :=
  match formatSubnetFields c subnet with
  | .error err => Run.fail err
  | .ok p =>
    if p.2 then
      (Run.call (.subnetsUpdate p.1) (c.subnetsUpdate p.1)).bind fun _ => Run.ret p.1
    else Run.ret p.1

/-- The `handleSubnetFinalizer` of the source; the answer is the subnet as mutated and
the `deleted` flag. -/
def handleSubnetFinalizer (c : Controller) (subnet : Subnet) : Run (Subnet × Bool) :=
  if IsZero subnet.DeletionTimestamp && !ContainsString subnet.Finalizers ControllerName then
    let subnet := { subnet with Finalizers := subnet.Finalizers ++ [ControllerName] }
    (Run.call (.subnetsUpdate subnet) (c.subnetsUpdate subnet)).bind fun _ =>
      Run.ret (subnet, false)
  else if !IsZero subnet.DeletionTimestamp && subnet.Status.UsingIPs == 0 then
    let subnet := { subnet with Finalizers := RemoveString subnet.Finalizers ControllerName }
    (Run.call (.subnetsUpdate subnet) (c.subnetsUpdate subnet)).bind fun _ =>
      Run.ret (subnet, true)
  else Run.ret (subnet, false)

/-- The `patchSubnetStatus` of the source: it answers no error; the subnet comes back
with the conditions it set. -/
def patchSubnetStatus (c : Controller) (subnet : Subnet) (reason errStr : String) : Run Subnet :=
  let first : Run Subnet :=
    if errStr ≠ "" then
      let st := ((subnet.Status.SetError reason errStr).NotValidated reason errStr).NotReady
        reason errStr
      (Run.emit (.eventf subnet.Name reason errStr)).bind fun _ =>
        Run.ret { subnet with Status := st }
    else
      let st := subnet.Status.Validated reason ""
      let st :=
        if reason = "SetPrivateLogicalSwitchSuccess" ∨ reason = "ResetLogicalSwitchAclSuccess"
        then st.Ready reason "" else st
      Run.ret { subnet with Status := st }
  first.bind fun subnet =>
    match Bytes c subnet.Status with
    | .error _ => Run.ret subnet
    | .ok bytes =>
      (Run.call (.subnetsPatch subnet.Name bytes) (c.subnetsPatch subnet.Name bytes)).andThen
        fun _ => Run.ret subnet

/-- The `calcSubnetStatusIP` of the source. -/
def calcSubnetStatusIP (c : Controller) (subnet : Subnet) : Run Subnet :=
  match c.ParseCIDR subnet.Spec.CIDRBlock with
  | .error err => Run.fail err
  | .ok cidr =>
    (Run.call (.ipsList (subnet.Name ++ "=")) (c.ipsList (subnet.Name ++ "="))).bind
      fun podUsedIPs =>
    let toSubIPs := c.ExpandExcludeIPs subnet.Spec.ExcludeIps subnet.Spec.CIDRBlock ++
      podUsedIPs.map (fun podUsedIP => podUsedIP.Spec.IPAddress)
    let availableIPs : Int := subFloat64 (toFloat64 (c.AddressCount cidr))
      (toFloat64 ((UniqString toSubIPs).length : Int))
    let usingIPs : Int := toFloat64 (podUsedIPs.length : Int)
    let subnet := { subnet with Status := { subnet.Status with
      AvailableIPs := availableIPs, UsingIPs := usingIPs } }
    match Bytes c subnet.Status with
    | .error err => Run.fail err
    | .ok bytes =>
      (Run.call (.subnetsPatch subnet.Name bytes) (c.subnetsPatch subnet.Name bytes)).bind
        fun _ => Run.ret subnet

/-- The `isOvnSubnet` of the source. -/
def isOvnSubnet (subnet : Subnet) : Bool :=
  if subnet.Spec.Provider = OvnProvider ∨ subnet.Spec.Provider = "" then true else false

/-- A `for` loop over a list whose body may return an error. -/
def forEach {α : Type} (f : α → Run Unit) : List α → Run Unit
  | [] => Run.ret ()
  | x :: xs => (f x).bind fun _ => forEach f xs

/-- The inner loop of `reconcileNamespaces` (lines 586-594): `changed` and
`reservedNamespaces` after walking the namespaces of another subnet. -/
def stripNamespaces (namespaceMap : List String) (namespaces : List String) :
    Bool × List String :=
  namespaces.foldl
    (fun acc ns => if namespaceMap.contains ns then (true, acc.2) else (acc.1, acc.2 ++ [ns]))
    (false, [])

/-- The loop over the listed subnets in `reconcileNamespaces` (lines 581-603).  The
variable `subnet` of the source is assigned the answer of every `Update`, so it is
threaded through the loop and handed back.  `reservedNamespaces` starts as `[]string{}`,
so the slice written to `sub.Spec.Namespaces` is not nil. -/
def unbindNamespaces (c : Controller) (namespaceMap : List String) :
    List Subnet → Subnet → Run Subnet
  | [], subnet => Run.ret subnet
  | sub :: rest, subnet =>
    if sub.Name = subnet.Name ∨ sub.Spec.Namespaces.length = 0 then
      unbindNamespaces c namespaceMap rest subnet
    else
      let r := stripNamespaces namespaceMap sub.Spec.Namespaces
      if r.1 then
        let sub := { sub with Spec := { sub.Spec with
          Namespaces := r.2, NamespacesNil := false } }
        (Run.call (.subnetsUpdate sub) (c.subnetsUpdate sub)).bind fun subnet =>
          unbindNamespaces c namespaceMap rest subnet
      else unbindNamespaces c namespaceMap rest subnet

/-- Steps 2 and 3 of `reconcileNamespaces` (lines 605-623), run on the variable `subnet`
as the loop over the subnets left it. -/
def enqueueNamespaces (c : Controller) (namespaceMap : List String) (subnet : Subnet) :
    Run Unit :=
  (forEach (fun ns => Run.emit (.addNamespaceQueueAdd ns)) subnet.Spec.Namespaces).bind
    fun _ =>
  match c.namespacesList with
  | .error err => Run.fail err
  | .ok namespaces =>
    forEach (fun (ns : Namespace) =>
      match ns.Annotations with
      | none => Run.ret ()
      | some annotations =>
        if mapGet annotations LogicalSwitchAnnotation = subnet.Name ∧
            ¬ namespaceMap.contains ns.Name then
          Run.emit (.addNamespaceQueueAdd ns.Name)
        else Run.ret ()) namespaces

/-- The `reconcileNamespaces` of the source.  The Go map `namespaceMap` is read only
through `namespaceMap[ns]`, which is membership in `subnet.Spec.Namespaces` as it is
on entry. -/
def reconcileNamespaces (c : Controller) (subnet : Subnet) : Run Unit :=
  match c.subnetsList with
  | .error err => Run.fail err
  | .ok subnets =>
    let namespaceMap := subnet.Spec.Namespaces
    (unbindNamespaces c namespaceMap subnets subnet).bind fun subnet =>
    enqueueNamespaces c namespaceMap subnet

/-- Modelled from the spec: `nodeReady`, the "ready condition" of a Node. -/
def nodeReady (node : Node) : Bool := node.Ready

/-- Modelled from the spec: `getNodeTunlIP`, the "tunnel-endpoint IP annotation" of a
Node, already printed as `nextHop.String()` prints it. -/
def getNodeTunlIP (node : Node) : Result String := node.TunlIP

/-- The route loop of the distributed branch of `reconcileGateway` (lines 648-666). -/
def addPodRoutes (c : Controller) : List IP → Run Unit :=
  forEach fun ip =>
    match c.nodesGet ip.Spec.NodeName with
    | .error err => if IsNotFound err then Run.ret () else Run.fail err
    | .ok node =>
      match getNodeTunlIP node with
      | .error err => Run.fail err
      | .ok nextHop =>
        (Run.call (.AddStaticRoute PolicySrcIP ip.Spec.IPAddress nextHop c.config.ClusterRouter)
          (ofErr (c.AddStaticRoute PolicySrcIP ip.Spec.IPAddress nextHop
            c.config.ClusterRouter))).andThen fun r =>
          match r with
          | .error err => Run.fail (.failed ("add static route failed: " ++ err.Error))
          | .ok _ => Run.ret ()

/-- The search for a new gateway node in `reconcileGateway` (lines 686-700): the answer
is `newActivateNode` and the printed `nodeTunlIPAddr`. -/
def findActivateNode (c : Controller) : List String → Result (String × String)
  | [] => .ok ("", "<nil>")
  | gw :: rest =>
    match c.nodesGet (TrimSpace gw) with
    | .ok node =>
      if nodeReady node then
        match getNodeTunlIP node with
        | .error err => .error err
        | .ok nodeTunlIPAddr => .ok (node.Name, nodeTunlIPAddr)
      else findActivateNode c rest
    | .error _ => findActivateNode c rest

/-- The distributed branch of `reconcileGateway` (lines 634-672). -/
def reconcileDistributedGateway (c : Controller) (subnet : Subnet) (ips : List IP) :
    Run Subnet :=
  if subnet.Status.ActivateGateway = "" then Run.ret subnet
  else
    let subnet := { subnet with Status := { subnet.Status with ActivateGateway := "" } }
    match Bytes c subnet.Status with
    | .error err => Run.fail err
    | .ok bytes =>
      (Run.call (.subnetsPatch subnet.Name bytes) (c.subnetsPatch subnet.Name bytes)).bind
        fun _ =>
      (addPodRoutes c ips).bind fun _ =>
      (Run.call (.DeleteStaticRoute subnet.Spec.CIDRBlock c.config.ClusterRouter)
        (ofErr (c.DeleteStaticRoute subnet.Spec.CIDRBlock c.config.ClusterRouter))).bind
        fun _ => Run.ret subnet

/-- The route loop of the centralized branch of `reconcileGateway` (lines 716-721). -/
def deletePodRoutes (c : Controller) : List IP → Run Unit :=
  forEach fun ip =>
    Run.call (.DeleteStaticRoute ip.Spec.IPAddress c.config.ClusterRouter)
      (ofErr (c.DeleteStaticRoute ip.Spec.IPAddress c.config.ClusterRouter))

/-- The centralized part of `reconcileGateway` from the point where a new node is
needed (lines 684-731). -/
def activateNewGateway (c : Controller) (subnet : Subnet) (ips : List IP) : Run Subnet :=
  match findActivateNode c (Split subnet.Spec.GatewayNode ',') with
  | .error err => Run.fail err
  | .ok (newActivateNode, nodeTunlIPAddr) =>
    if newActivateNode = "" then
      let subnet := { subnet with Status :=
        { subnet.Status with ActivateGateway := newActivateNode } }
      let subnet := { subnet with Status := subnet.Status.NotReady "NoReadyGateway" "" }
      match Bytes c subnet.Status with
      | .error err => Run.fail err
      | .ok bytes =>
        (Run.call (.subnetsPatch subnet.Name bytes) (c.subnetsPatch subnet.Name bytes)).bind
          fun _ => Run.ret subnet
    else
      (Run.call (.AddStaticRoute PolicySrcIP subnet.Spec.CIDRBlock nodeTunlIPAddr
          c.config.ClusterRouter)
        (ofErr (c.AddStaticRoute PolicySrcIP subnet.Spec.CIDRBlock nodeTunlIPAddr
          c.config.ClusterRouter))).andThen fun r =>
      match r with
      | .error err => Run.fail (.failed ("add static route failed: " ++ err.Error))
      | .ok _ =>
        (deletePodRoutes c ips).bind fun _ =>
        let subnet := { subnet with Status :=
          { subnet.Status with ActivateGateway := newActivateNode } }
        let bytes := Bytes c subnet.Status
        let ready := subnet.Status.Ready "ReconcileCentralizedGatewaySuccess" ""
        let subnet := { subnet with Status := ready }
        match bytes with
        | .error err => Run.fail err
        | .ok bytes =>
          (Run.call (.subnetsPatch subnet.Name bytes) (c.subnetsPatch subnet.Name bytes)).bind
            fun _ => Run.ret subnet

/-- The `reconcileGateway` of the source; the subnet comes back with the status it
was given. -/
def reconcileGateway (c : Controller) (subnet : Subnet) : Run Subnet :=
  (Run.call (.ipsList (SubnetNameLabel ++ "=" ++ subnet.Name))
    (c.ipsList (SubnetNameLabel ++ "=" ++ subnet.Name))).bind fun ips =>
  if subnet.Spec.GatewayType = GWDistributedType then
    reconcileDistributedGateway c subnet ips
  else
    let keep : Bool :=
      if subnet.Status.ActivateGateway ≠ "" then
        match c.nodesGet subnet.Status.ActivateGateway with
        | .ok node => nodeReady node
        | .error _ => false
      else false
    if keep then Run.ret subnet else activateNewGateway c subnet ips

/-- The `reconcileVlan` of the source. -/
def reconcileVlan (c : Controller) (subnet : Subnet) : Run Unit :=
  if c.config.NetworkType ≠ NetworkTypeVlan then Run.ret ()
  else
    (if subnet.Spec.Vlan ≠ "" then
      (Run.call (.addLocalnet subnet.Name) (ofErr (c.addLocalnet subnet))).bind fun _ =>
        Run.emit (.updateVlanQueueAdd subnet.Spec.Vlan)
     else Run.ret ()).bind fun _ =>
    match c.vlansList with
    | .error err => Run.fail err
    | .ok vlanLists =>
      forEach (fun (vlan : Vlan) =>
        if IsStringIn subnet.Name (Split vlan.Spec.Subnet ',') then
          Run.emit (.updateVlanQueueAdd vlan.Name)
        else Run.ret ()) vlanLists

/-- The `reconcileSubnet` of the source. -/
def reconcileSubnet (c : Controller) (subnet : Subnet) : Run Subnet :=
  (reconcileNamespaces c subnet).bind fun _ =>
  (if subnet.Name ≠ c.config.NodeSwitch then reconcileGateway c subnet
   else Run.ret subnet).bind fun subnet =>
  (reconcileVlan c subnet).bind fun _ => Run.ret subnet

/-- The first listed subnet of another name whose CIDR conflicts (lines 397-404). -/
def conflictSubnet (c : Controller) (subnet : Subnet) (subnetList : List Subnet) :
    Option Subnet :=
  subnetList.find? fun sub =>
    sub.Name != subnet.Name && c.CIDRConflict sub.Spec.CIDRBlock subnet.Spec.CIDRBlock

/-- The first internal address of a listed node that lies in the CIDR (lines 411-420). -/
def conflictNode (c : Controller) (subnet : Subnet) (nodes : List Node) :
    Option (Node × NodeAddress) :=
  nodes.findSome? fun node =>
    (node.Addresses.find? fun addr =>
      addr.AddrType == NodeInternalIP &&
        c.CIDRContainIP subnet.Spec.CIDRBlock addr.Address).map fun addr => (node, addr)

/-- Lines 422-465 of `handleAddOrUpdateSubnet`: the logical switch, the
reconciliation of namespaces, gateway and vlan, and the ACL. -/
def reconcileLogicalSwitch (c : Controller) (subnet : Subnet) : Run Unit :=
  (Run.call (.LogicalSwitchExists subnet.Name) (c.LogicalSwitchExists subnet.Name)).andThen
    fun r =>
  match r with
  | .error err =>
    (patchSubnetStatus c subnet "ListLogicalSwitchFailed" err.Error).bind fun _ => Run.fail err
  | .ok exist =>
    (if !exist then
      let subnet := { subnet with Status := c.EnsureStandardConditions subnet.Status }
      (Run.call (.CreateLogicalSwitch subnet.Name subnet.Spec.Protocol subnet.Spec.CIDRBlock
          subnet.Spec.Gateway subnet.Spec.ExcludeIps subnet.Spec.UnderlayGateway)
        (ofErr (c.CreateLogicalSwitch subnet.Name subnet.Spec.Protocol subnet.Spec.CIDRBlock
          subnet.Spec.Gateway subnet.Spec.ExcludeIps subnet.Spec.UnderlayGateway))).andThen
        fun r =>
        match r with
        | .error err =>
          (patchSubnetStatus c subnet "CreateLogicalSwitchFailed" err.Error).bind fun _ =>
            Run.fail err
        | .ok _ => Run.ret subnet
     else
      (Run.call (.SetLogicalSwitchConfig subnet.Name subnet.Spec.Protocol
          subnet.Spec.CIDRBlock subnet.Spec.Gateway subnet.Spec.ExcludeIps)
        (ofErr (c.SetLogicalSwitchConfig subnet.Name subnet.Spec.Protocol
          subnet.Spec.CIDRBlock subnet.Spec.Gateway subnet.Spec.ExcludeIps))).andThen
        fun r =>
        match r with
        | .error err =>
          (patchSubnetStatus c subnet "SetLogicalSwitchConfigFailed" err.Error).bind fun _ =>
            Run.fail err
        | .ok _ => Run.ret subnet).bind fun subnet =>
    (reconcileSubnet c subnet).bind fun subnet =>
    if subnet.Spec.Private then
      (Run.call (.SetPrivateLogicalSwitch subnet.Name subnet.Spec.Protocol
          subnet.Spec.CIDRBlock subnet.Spec.AllowSubnets)
        (ofErr (c.SetPrivateLogicalSwitch subnet.Name subnet.Spec.Protocol
          subnet.Spec.CIDRBlock subnet.Spec.AllowSubnets))).andThen fun r =>
        match r with
        | .error err =>
          (patchSubnetStatus c subnet "SetPrivateLogicalSwitchFailed" err.Error).bind fun _ =>
            Run.fail err
        | .ok _ =>
          (patchSubnetStatus c subnet "SetPrivateLogicalSwitchSuccess" "").bind fun _ =>
            Run.ret ()
    else
      (Run.call (.ResetLogicalSwitchAcl subnet.Name subnet.Spec.Protocol)
        (ofErr (c.ResetLogicalSwitchAcl subnet.Name subnet.Spec.Protocol))).andThen fun r =>
        match r with
        | .error err =>
          (patchSubnetStatus c subnet "ResetLogicalSwitchAclFailed" err.Error).bind fun _ =>
            Run.fail err
        | .ok _ =>
          (patchSubnetStatus c subnet "ResetLogicalSwitchAclSuccess" "").bind fun _ =>
            Run.ret ()

/-- Lines 384-420 of `handleAddOrUpdateSubnet`, then the rest: static validation and
the two conflict checks. -/
def validateAndReconcile (c : Controller) (subnet : Subnet) : Run Unit :=
  match c.ValidateSubnet subnet with
  | some err =>
    (patchSubnetStatus c subnet "ValidateLogicalSwitchFailed" err.Error).bind fun _ =>
      Run.fail err
  | none =>
    (patchSubnetStatus c subnet "ValidateLogicalSwitchSuccess" "").bind fun subnet =>
    match c.subnetsList with
    | .error err => Run.fail err
    | .ok subnetList =>
      match conflictSubnet c subnet subnetList with
      | some sub =>
        let err := Err.failed ("subnet " ++ subnet.Name ++ " cidr " ++ subnet.Spec.CIDRBlock ++
          " conflict with subnet " ++ sub.Name ++ " cidr " ++ sub.Spec.CIDRBlock)
        (patchSubnetStatus c subnet "ValidateLogicalSwitchFailed" err.Error).bind fun _ =>
          Run.fail err
      | none =>
        match c.nodesList with
        | .error err => Run.fail err
        | .ok nodes =>
          match conflictNode c subnet nodes with
          | some (node, addr) =>
            let err := Err.failed ("subnet " ++ subnet.Name ++ " cidr " ++
              subnet.Spec.CIDRBlock ++ " conflict with node " ++ node.Name ++ " address " ++
              addr.Address)
            (patchSubnetStatus c subnet "ValidateLogicalSwitchFailed" err.Error).bind fun _ =>
              Run.fail err
          | none => reconcileLogicalSwitch c subnet

/-- Lines 367-465 of `handleAddOrUpdateSubnet`: every step that follows the finalizer
step. -/
def afterFinalizer (c : Controller) (subnet : Subnet) : Run Unit :=
  (formatSubnet c subnet).bind fun subnet =>
  (calcSubnetStatusIP c subnet).bind fun subnet =>
  (Run.call (.ipamAddOrUpdateSubnet subnet.Name subnet.Spec.CIDRBlock subnet.Spec.ExcludeIps)
    (ofErr (c.ipamAddOrUpdateSubnet subnet.Name subnet.Spec.CIDRBlock
      subnet.Spec.ExcludeIps))).bind fun _ =>
  if !isOvnSubnet subnet then Run.ret ()
  else validateAndReconcile c subnet

/-- The `handleAddOrUpdateSubnet` of the source. -/
def handleAddOrUpdateSubnet (c : Controller) (key : String) : Run Unit :=
  match c.subnetsGet key with
  | .error err => if IsNotFound err then Run.ret () else Run.fail err
  | .ok subnet =>
    (handleSubnetFinalizer c subnet).bind fun r =>
    if r.2 then Run.ret () else afterFinalizer c r.1

/-! ## A sample cluster -/

/-- A subnet as a user creates it: only the name and the CIDR are given. -/
def sampleSubnet : Subnet :=
  { Name := "s1", DeletionTimestamp := none, Finalizers := [ControllerName],
    Spec := { Default := false, Protocol := "", Namespaces := [], CIDRBlock := "10.16.0.0/16",
              Gateway := "", ExcludeIps := [], Provider := "", GatewayType := "",
              GatewayNode := "", UnderlayGateway := false, Private := false,
              AllowSubnets := [], Vlan := "" },
    Status := { Conditions := [], AvailableIPs := 0, UsingIPs := 0, ActivateGateway := "" } }

/-- A controller over a store that holds `sampleSubnet` only, no node, no namespace,
no vlan and no IP object, with collaborators that accept every call.  The library
functions answer as the real ones do on the few texts the samples use: the block
`10.16.0.0/16` is canonical, IPv4, has `10.16.0.1` as first address and 65534 usable
addresses, and the exclude lists of the samples hold plain addresses, no range. -/
def sampleController : Controller :=
  { config := { DefaultLogicalSwitch := "ovn-default", NetworkType := "geneve",
                DefaultVlanName := "ovn-vlan", ClusterRouter := "ovn-cluster",
                NodeSwitch := "join" },
    ParseCIDR := fun s =>
      if s = "10.16.0.0/16" then .ok "10.16.0.0/16"
      else .error (.failed ("invalid CIDR address: " ++ s)),
    CheckProtocol := fun _ => "IPv4",
    FirstSubnetIP := fun s =>
      if s = "10.16.0.0/16" then .ok "10.16.0.1"
      else .error (.failed (s ++ " is not a valid cidr")),
    ExpandExcludeIPs := fun excludeIPs _ => excludeIPs,
    AddressCount := fun _ => 65534,
    ValidateSubnet := fun _ => none,
    CIDRConflict := fun a b => a == b,
    CIDRContainIP := fun _ _ => false,
    EnsureStandardConditions := fun m => m,
    marshalErr := fun _ => none,
    subnetsGet := fun key =>
      if key = "s1" then .ok sampleSubnet else .error (.notFound (key ++ " not found")),
    subnetsList := .ok [sampleSubnet],
    nodesGet := fun key => .error (.notFound (key ++ " not found")),
    nodesList := .ok [],
    namespacesList := .ok [],
    vlansGet := fun key => .error (.notFound (key ++ " not found")),
    vlansList := .ok [],
    subnetsUpdate := fun subnet => .ok subnet,
    subnetsPatch := fun _ _ => .ok sampleSubnet,
    ipsList := fun _ => .ok [],
    ipamAddOrUpdateSubnet := fun _ _ _ => none,
    LogicalSwitchExists := fun _ => .ok false,
    CreateLogicalSwitch := fun _ _ _ _ _ _ => none,
    SetLogicalSwitchConfig := fun _ _ _ _ _ => none,
    SetPrivateLogicalSwitch := fun _ _ _ _ => none,
    ResetLogicalSwitchAcl := fun _ _ => none,
    AddStaticRoute := fun _ _ _ _ => none,
    DeleteStaticRoute := fun _ _ => none,
    addLocalnet := fun _ => none }


/-! ## Closed forms used in the proofs -/

/-- Whether the vlan lister fails on a name (the test of line 289). -/
def vlanMissing (c : Controller) (name : String) : Bool :=
  match c.vlansGet name with
  | .error _ => true
  | .ok _ => false

/-- The vlan field after lines 283-286. -/
def vlanDefaulted (c : Controller) (vlan : String) : String :=
  if c.config.NetworkType = NetworkTypeVlan ∧ vlan = "" then c.config.DefaultVlanName else vlan

/-- The spec that the mutations of `formatSubnet` leave, written field by field, for
the canonical CIDR text `ipNet` and the gateway `gw` the function settled on. -/
def formattedSpec (c : Controller) (name : String) (spec : SubnetSpec) (ipNet gw : String) :
    SubnetSpec :=
  { spec with
    CIDRBlock := ipNet
    Provider := if spec.Provider = "" then OvnProvider else spec.Provider
    Protocol := c.CheckProtocol ipNet
    GatewayType := if spec.GatewayType = "" then GWDistributedType else spec.GatewayType
    Default := if spec.Default = true ∧ name ≠ c.config.DefaultLogicalSwitch then false
      else spec.Default
    Gateway := gw
    ExcludeIps :=
      if spec.ExcludeIps.length = 0 then [gw]
      else if (c.ExpandExcludeIPs spec.ExcludeIps ipNet).any (fun ip => ip == gw)
        then spec.ExcludeIps
      else spec.ExcludeIps ++ [gw]
    ExcludeIpsNil :=
      if spec.ExcludeIps.length = 0 then false
      else if (c.ExpandExcludeIPs spec.ExcludeIps ipNet).any (fun ip => ip == gw)
        then spec.ExcludeIpsNil
      else false
    Vlan := if vlanDefaulted c spec.Vlan ≠ "" ∧ vlanMissing c (vlanDefaulted c spec.Vlan) = true
      then "" else vlanDefaulted c spec.Vlan }

/-- The sample subnet once `formatSubnet` has run on it. -/
def sampleFormatted : Subnet :=
  { sampleSubnet with Spec := { sampleSubnet.Spec with
      Protocol := "IPv4", Gateway := "10.16.0.1", ExcludeIps := ["10.16.0.1"],
      Provider := "ovn", GatewayType := "distributed" } }

/-- The sample cluster with an expansion that keeps the listed addresses of the block
and drops the others, `util.CIDRContainIP` telling them apart: of the two addresses the
samples use, `10.16.0.1` lies in `10.16.0.0/16` and `192.168.0.1` does not. -/
def filteringController : Controller :=
  { sampleController with
    CIDRContainIP := fun cidr ip => cidr == "10.16.0.0/16" && ip == "10.16.0.1"
    ExpandExcludeIPs := fun excludeIPs cidr =>
      excludeIPs.filter fun ip => cidr == "10.16.0.0/16" && ip == "10.16.0.1" }

/-- A subnet created with a gateway that lies outside its block. -/
def outsideGatewaySubnet : Subnet :=
  { sampleSubnet with Spec := { sampleSubnet.Spec with Gateway := "192.168.0.1" } }

/-- The subnet with the outside gateway once `formatSubnet` has run on it. -/
def outsideGatewayFormatted : Subnet :=
  { sampleSubnet with Spec := { sampleSubnet.Spec with
      Protocol := "IPv4", Gateway := "192.168.0.1", ExcludeIps := ["192.168.0.1"],
      Provider := "ovn", GatewayType := "distributed" } }

/-- The sample cluster on a vlan network: the configured default vlan `ovn-vlan`
exists, no other vlan does. -/
def vlanController : Controller :=
  { sampleController with
    config := { sampleController.config with NetworkType := "vlan" }
    vlansGet := fun key =>
      if key = "ovn-vlan" then .ok { Name := "ovn-vlan", Spec := { VlanId := 1, Subnet := "" } }
      else .error (.notFound (key ++ " not found")) }

/-- A formatted subnet that names a vlan which does not exist. -/
def danglingVlanSubnet : Subnet :=
  { sampleFormatted with Spec := { sampleFormatted.Spec with Vlan := "gone" } }

/-- The status documents sent by the `Patch` calls of a trace, in order. -/
def patchedStatuses (calls : List Call) : List SubnetStatus :=
  calls.filterMap fun k =>
    match k with
    | .subnetsPatch _ status => some status
    | _ => none

/-- Whether a call is one of `LogicalSwitchExists`, `CreateLogicalSwitch`,
`SetLogicalSwitchConfig`. -/
def isLogicalSwitchCall : Call → Bool
  | .LogicalSwitchExists _ => true
  | .CreateLogicalSwitch _ _ _ _ _ _ => true
  | .SetLogicalSwitchConfig _ _ _ _ _ => true
  | _ => false

/-- Whether a call is `AddStaticRoute` or `DeleteStaticRoute`. -/
def isStaticRouteCall : Call → Bool
  | .AddStaticRoute _ _ _ _ => true
  | .DeleteStaticRoute _ _ => true
  | _ => false

/-- The status that `patchSubnetStatus` leaves in the subnet and sends (lines 327-337). -/
def statusAfterPatch (m : SubnetStatus) (reason errStr : String) : SubnetStatus :=
  if errStr ≠ "" then
    ((m.SetError reason errStr).NotValidated reason errStr).NotReady reason errStr
  else if reason = "SetPrivateLogicalSwitchSuccess" ∨ reason = "ResetLogicalSwitchAclSuccess"
    then (m.Validated reason "").Ready reason ""
  else m.Validated reason ""

/-- The status that `calcSubnetStatusIP` computes (lines 779-786) for the parsed block
`cidr` and the listed IP objects. -/
def countedStatus (c : Controller) (subnet : Subnet) (cidr : String) (podUsedIPs : List IP) :
    SubnetStatus :=
  { subnet.Status with
    AvailableIPs := subFloat64 (toFloat64 (c.AddressCount cidr))
      (toFloat64 ((UniqString (c.ExpandExcludeIPs subnet.Spec.ExcludeIps
        subnet.Spec.CIDRBlock ++
          podUsedIPs.map (fun podUsedIP => podUsedIP.Spec.IPAddress))).length : Int))
    UsingIPs := toFloat64 (podUsedIPs.length : Int) }

/-- The sample cluster with the IPv6 block `fd00::/64`, which holds `2^64 - 2` usable
addresses. -/
def wideController : Controller :=
  { sampleController with
    ParseCIDR := fun s =>
      if s = "fd00::/64" then .ok "fd00::/64"
      else .error (.failed ("invalid CIDR address: " ++ s)),
    CheckProtocol := fun _ => "IPv6",
    AddressCount := fun _ => 18446744073709551614 }

/-- A formatted subnet on the block `fd00::/64` with its gateway excluded. -/
def wideSubnet : Subnet :=
  { sampleFormatted with
    Name := "wide"
    Spec := { sampleFormatted.Spec with
      CIDRBlock := "fd00::/64", Protocol := "IPv6", Gateway := "fd00::1",
      ExcludeIps := ["fd00::1"] } }

/-- A subnet as it is first seen by the controller: the sample subnet, no finalizer yet. -/
def newSubnet : Subnet :=
  { sampleSubnet with Finalizers := [] }

/-- The sample cluster with `newSubnet` in place of `sampleSubnet`. -/
def newSubnetController : Controller :=
  { sampleController with
    subnetsGet := fun key =>
      if key = "s1" then .ok newSubnet else .error (.notFound (key ++ " not found"))
    subnetsList := .ok [newSubnet] }

/-- The sample subnet under deletion while one IP object still uses it. -/
def busyDeletedSubnet : Subnet :=
  { sampleFormatted with
    DeletionTimestamp := some 1700000000
    Status := { sampleFormatted.Status with UsingIPs := 1 } }

/-- The calls of one `handleAddOrUpdateSubnet` on `newSubnet` in the sample cluster. -/
def newSubnetTrace : List Call :=
  [.subnetsUpdate sampleSubnet,
   .subnetsUpdate sampleFormatted,
   .ipsList "s1=",
   .subnetsPatch "s1"
     { Conditions := [], AvailableIPs := 65533, UsingIPs := 0, ActivateGateway := "" },
   .ipamAddOrUpdateSubnet "s1" "10.16.0.0/16" ["10.16.0.1"],
   .subnetsPatch "s1"
     { Conditions := [⟨.Validated, true, "ValidateLogicalSwitchSuccess", ""⟩],
       AvailableIPs := 65533, UsingIPs := 0, ActivateGateway := "" },
   .LogicalSwitchExists "s1",
   .CreateLogicalSwitch "s1" "IPv4" "10.16.0.0/16" "10.16.0.1" ["10.16.0.1"] false,
   .ipsList "ovn.kubernetes.io/subnet=s1",
   .ResetLogicalSwitchAcl "s1" "IPv4",
   .subnetsPatch "s1"
     { Conditions := [⟨.Validated, true, "ResetLogicalSwitchAclSuccess", ""⟩,
                      ⟨.Ready, true, "ResetLogicalSwitchAclSuccess", ""⟩],
       AvailableIPs := 65533, UsingIPs := 0, ActivateGateway := "" }]

/-- A status document carries the condition `t` with the given status and reason: it has
a condition of that type, and every condition of that type in it has that status and
that reason. -/
def carries (doc : SubnetStatus) (t : ConditionType) (status : Bool) (reason : String) : Prop :=
  (∃ cond ∈ doc.Conditions, cond.CondType = t) ∧
  ∀ cond ∈ doc.Conditions, cond.CondType = t → cond.Status = status ∧ cond.Reason = reason

instance (doc : SubnetStatus) (t : ConditionType) (status : Bool) (reason : String) :
    Decidable (carries doc t status reason) :=
  inferInstanceAs (Decidable ((∃ cond ∈ doc.Conditions, cond.CondType = t) ∧
    ∀ cond ∈ doc.Conditions, cond.CondType = t → cond.Status = status ∧ cond.Reason = reason))

/-- A second subnet, already normalized, whose block `10.16.128.0/17` lies inside the
block of the sample subnet. -/
def overlappingSubnet : Subnet :=
  { Name := "s2", DeletionTimestamp := none, Finalizers := [ControllerName],
    Spec := { Default := false, Protocol := "IPv4", Namespaces := [],
              CIDRBlock := "10.16.128.0/17", Gateway := "10.16.128.1",
              ExcludeIps := ["10.16.128.1"], Provider := "ovn",
              GatewayType := "distributed", GatewayNode := "", UnderlayGateway := false,
              Private := false, AllowSubnets := [], Vlan := "" },
    Status := { Conditions := [], AvailableIPs := 0, UsingIPs := 0, ActivateGateway := "" } }

/-- The sample cluster with both subnets in the store. -/
def overlapController : Controller :=
  { sampleController with
    ParseCIDR := fun s =>
      if s = "10.16.0.0/16" then .ok "10.16.0.0/16"
      else if s = "10.16.128.0/17" then .ok "10.16.128.0/17"
      else .error (.failed ("invalid CIDR address: " ++ s))
    AddressCount := fun s => if s = "10.16.128.0/17" then 32766 else 65534
    CIDRConflict := fun a b =>
      a == b || (a == "10.16.0.0/16" && b == "10.16.128.0/17") ||
        (a == "10.16.128.0/17" && b == "10.16.0.0/16")
    subnetsGet := fun key =>
      if key = "s1" then .ok sampleFormatted
      else if key = "s2" then .ok overlappingSubnet
      else .error (.notFound (key ++ " not found"))
    subnetsList := .ok [sampleFormatted, overlappingSubnet] }

/-- The node a gateway-node entry resolves to, if it exists and is Ready (the test of
lines 690-691, and of lines 677-678 for the current gateway). -/
def readyNode (c : Controller) (gw : String) : Option Node :=
  match c.nodesGet gw with
  | .ok node => if nodeReady node then some node else none
  | .error _ => none

/-- The selection as the spec words it: the leftmost entry of the comma-separated,
whitespace-trimmed `gatewayNode` list that resolves to an existing Ready node. -/
def leftmostReadyGateway (c : Controller) (gatewayNode : String) : Option Node :=
  ((Split gatewayNode ',').map TrimSpace).findSome? (readyNode c)

/-- The status that `reconcileGateway` leaves and sends when no gateway node is Ready
(lines 703-704). -/
def noGatewayStatus (m : SubnetStatus) : SubnetStatus :=
  ({ m with ActivateGateway := "" } : SubnetStatus).NotReady "NoReadyGateway" ""

/-- A centralized-gateway subnet with the gateway nodes `a` and `b`, none active yet. -/
def centralSubnet : Subnet :=
  { Name := "g", DeletionTimestamp := none, Finalizers := [ControllerName],
    Spec := { Default := false, Protocol := "IPv4", Namespaces := [],
              CIDRBlock := "10.16.0.0/16", Gateway := "10.16.0.1",
              ExcludeIps := ["10.16.0.1"], Provider := "ovn",
              GatewayType := "centralized", GatewayNode := "a, b", UnderlayGateway := false,
              Private := false, AllowSubnets := [], Vlan := "" },
    Status := { Conditions := [], AvailableIPs := 65533, UsingIPs := 0,
                ActivateGateway := "" } }

/-- The node `b` of the sample cluster: Ready, tunnel endpoint `100.64.0.3`. -/
def nodeB : Node :=
  { Name := "b", Addresses := [], Ready := true, TunlIP := .ok "100.64.0.3" }

/-- The sample cluster with two nodes: `a` is not Ready, `b` is. -/
def gatewayController : Controller :=
  { sampleController with
    nodesGet := fun key =>
      if key = "a" then
        .ok { Name := "a", Addresses := [], Ready := false, TunlIP := .ok "100.64.0.2" }
      else if key = "b" then .ok nodeB
      else .error (.notFound (key ++ " not found")) }

/-- The status that `reconcileGateway` serialises once the routes of a new gateway node
are in place (line 723). -/
def activatedStatus (m : SubnetStatus) (newActivateNode : String) : SubnetStatus :=
  { m with ActivateGateway := newActivateNode }

/-- The subnet `centralSubnet` as `reconcileGateway` hands it back in the sample cluster. -/
def centralSubnetActivated : Subnet :=
  { centralSubnet with
    Status := { Conditions := [⟨.Ready, true, "ReconcileCentralizedGatewaySuccess", ""⟩],
                AvailableIPs := 65533, UsingIPs := 0, ActivateGateway := "b" } }

/-- The node `n` of the sample cluster: Ready, tunnel endpoint `100.64.0.4`. -/
def nodeN : Node :=
  { Name := "n", Addresses := [], Ready := true, TunlIP := .ok "100.64.0.4" }

/-- The IP object of a pod `p.ns` that runs on node `n` with address `10.16.0.5` in `s1`. -/
def podIP : IP :=
  { Name := "p.ns",
    Labels := some [(SubnetNameLabel, "s1"), ("s1", "")],
    Spec := { PodName := "p", Namespace := "ns", Subnet := "s1", AttachSubnets := [],
              NodeName := "n", IPAddress := "10.16.0.5", AttachIPs := [],
              MacAddress := "00:00:00:53:6b:b6", AttachMacs := [], ContainerID := "" } }

/-- The sample cluster with node `n` and the one IP object `podIP`. -/
def podController : Controller :=
  { sampleController with
    nodesGet := fun key =>
      if key = "n" then .ok nodeN else .error (.notFound (key ++ " not found"))
    ipsList := fun _ => .ok [podIP] }

/-- The sample subnet, distributed, just switched from a centralized gateway: the status
still names the gateway node `b`. -/
def switchedSubnet : Subnet :=
  { sampleFormatted with Status := { sampleFormatted.Status with ActivateGateway := "b" } }

/-- A subnet `s` that binds the namespace `ns1`. -/
def bindingSubnet : Subnet :=
  { sampleFormatted with
    Name := "s"
    Spec := { sampleFormatted.Spec with Namespaces := ["ns1"] } }

/-- Another subnet `o` that so far holds the namespaces `ns1` and `ns2`. -/
def otherSubnet : Subnet :=
  { overlappingSubnet with
    Name := "o"
    Spec := { overlappingSubnet.Spec with Namespaces := ["ns1", "ns2"] } }

/-- The sample cluster with the subnets `s` and `o` in the store; `Update` answers the
object it was given, as the API server does. -/
def namespaceController : Controller :=
  { sampleController with
    subnetsGet := fun key =>
      if key = "s" then .ok bindingSubnet
      else if key = "o" then .ok otherSubnet
      else .error (.notFound (key ++ " not found"))
    subnetsList := .ok [bindingSubnet, otherSubnet] }

/-! ## `pkg/controller/subnet.go` and `pkg/controller/ip.go`: event intake, workers, deletion -/

/-- The `cache.MetaNamespaceKeyFunc` of client-go on a Subnet: the object is
cluster-scoped, so its key is its name; the function fails only on objects without
metadata. -/
def MetaNamespaceKeyFunc (obj : Subnet) : Result String :=
  .ok obj.Name

/-- The `enqueueAddSubnet` of the source. -/
def enqueueAddSubnet (c : Controller) (obj : Subnet) : Run Unit :=
  if !c.isLeader then Run.ret ()
  else
    match MetaNamespaceKeyFunc obj with
    | .error _ => Run.ret ()
    | .ok key => Run.emit (.queueAdd .addOrUpdateSubnet key)

/-- The `enqueueDeleteSubnet` of the source. -/
def enqueueDeleteSubnet (c : Controller) (obj : Subnet) : Run Unit :=
  if !c.isLeader then Run.ret ()
  else
    match MetaNamespaceKeyFunc obj with
    | .error _ => Run.ret ()
    | .ok key =>
      (Run.emit (.queueAdd .deleteSubnet key)).bind fun _ =>
      if obj.Spec.GatewayType = GWCentralizedType then
        Run.emit (.queueAdd .deleteRoute obj.Spec.CIDRBlock)
      else Run.ret ()

/-- The `enqueueUpdateSubnet` of the source.  The `reflect.DeepEqual` of the two `Vlan`
strings is their equality. -/
def enqueueUpdateSubnet (c : Controller) (oldSubnet newSubnet : Subnet) : Run Unit :=
  if !c.isLeader then Run.ret ()
  else
    match MetaNamespaceKeyFunc newSubnet with
    | .error _ => Run.ret ()
    | .ok key =>
      if !IsZero newSubnet.DeletionTimestamp && newSubnet.Status.UsingIPs == 0 then
        Run.emit (.queueAdd .addOrUpdateSubnet key)
      else if oldSubnet.Spec.Private ≠ newSubnet.Spec.Private ∨
          (!DeepEqual (goSlice oldSubnet.Spec.AllowSubnetsNil oldSubnet.Spec.AllowSubnets)
            (goSlice newSubnet.Spec.AllowSubnetsNil newSubnet.Spec.AllowSubnets)) = true ∨
          (!DeepEqual (goSlice oldSubnet.Spec.NamespacesNil oldSubnet.Spec.Namespaces)
            (goSlice newSubnet.Spec.NamespacesNil newSubnet.Spec.Namespaces)) = true ∨
          oldSubnet.Spec.GatewayType ≠ newSubnet.Spec.GatewayType ∨
          oldSubnet.Spec.GatewayNode ≠ newSubnet.Spec.GatewayNode ∨
          (!DeepEqual (goSlice oldSubnet.Spec.ExcludeIpsNil oldSubnet.Spec.ExcludeIps)
            (goSlice newSubnet.Spec.ExcludeIpsNil newSubnet.Spec.ExcludeIps)) = true ∨
          ¬ (oldSubnet.Spec.Vlan = newSubnet.Spec.Vlan) then
        Run.emit (.queueAdd .addOrUpdateSubnet key)
      else Run.ret ()

/-- The `enqueueAddOrDelIP` of the source (`ip.go`). -/
def enqueueAddOrDelIP (c : Controller) (ipObj : IP) : Run Unit :=
  if !c.isLeader then Run.ret ()
  else
    (Run.emit (.queueAdd .updateSubnetStatus ipObj.Spec.Subnet)).bind fun _ =>
    forEach (fun attached => Run.emit (.queueAdd .updateSubnetStatus attached))
      ipObj.Spec.AttachSubnets

/-- The `enqueueUpdateIP` of the source (`ip.go`); the old object is not read. -/
def enqueueUpdateIP (c : Controller) (_oldObj newObj : IP) : Run Unit :=
  if !c.isLeader then Run.ret ()
  else
    forEach (fun attached => Run.emit (.queueAdd .updateSubnetStatus attached))
      newObj.Spec.AttachSubnets

/-- The closure that the four `processNext…WorkItem` functions run on the item they got:
`defer Done(obj)`, the type assertion, the handler, then `AddRateLimited` or `Forget`.
The four functions of the source differ in the queue and the handler only. -/
def processWorkItem (q : Queue) (handler : String → Run Unit) (obj : QueueItem) : Run Unit :=
  match obj with
  | .other =>
    (Run.emit (.queueForget q obj)).bind fun _ => Run.emit (.queueDone q obj)
  | .key key =>
    (handler key).andThen fun r =>
    match r with
    | .error err =>
      (Run.emit (.queueAddRateLimited q key)).bind fun _ =>
      (Run.emit (.queueDone q obj)).bind fun _ =>
      Run.fail (.failed ("error syncing '" ++ key ++ "': " ++ err.Error ++ ", requeuing"))
    | .ok _ =>
      (Run.emit (.queueForget q obj)).bind fun _ => Run.emit (.queueDone q obj)

/-- The body shared by the four `processNext…WorkItem` functions: `Get`, the shutdown
test, the closure, and `return true` whatever the closure answered. -/
def processNextWorkItem (c : Controller) (q : Queue) (handler : String → Run Unit) :
    Run Bool :=
  if (c.queueGet q).2 then Run.ret false
  else (processWorkItem q handler (c.queueGet q).1).andThen fun _ => Run.ret true

/-- The `handleUpdateSubnetStatus` of the source. -/
def handleUpdateSubnetStatus (c : Controller) (key : String) : Run Unit :=
  match c.subnetsGet key with
  | .error err => if IsNotFound err then Run.ret () else Run.fail err
  | .ok subnet => (calcSubnetStatusIP c subnet).bind fun _ => Run.ret ()

/-- The `handleDeleteRoute` of the source. -/
def handleDeleteRoute (c : Controller) (key : String) : Run Unit :=
  match c.ParseCIDR key with
  | .error _ => Run.ret ()
  | .ok _ =>
    Run.call (.DeleteStaticRoute key c.config.ClusterRouter)
      (ofErr (c.DeleteStaticRoute key c.config.ClusterRouter))

/-- The `handleDeleteSubnet` of the source.  `c.enqueueAddNamespace`, the intake function
of the namespace queue, lives in a file of the package that is not at hand; the call to
it is recorded as such. -/
def handleDeleteSubnet (c : Controller) (key : String) : Run Unit :=
  (Run.emit (.ipamDeleteSubnet key)).bind fun _ =>
  (Run.call (.LogicalSwitchExists key) (c.LogicalSwitchExists key)).bind fun exist =>
  if !exist then Run.ret ()
  else
    (Run.call (.CleanLogicalSwitchAcl key) (ofErr (c.CleanLogicalSwitchAcl key))).bind fun _ =>
    (Run.call (.DeleteLogicalSwitch key) (ofErr (c.DeleteLogicalSwitch key))).bind fun _ =>
    match c.namespacesList with
    | .error err => Run.fail err
    | .ok nss =>
      (forEach (fun (ns : Namespace) =>
        match ns.Annotations with
        | none => Run.ret ()
        | some annotations =>
          if mapGet annotations LogicalSwitchAnnotation = key then
            Run.emit (.enqueueAddNamespace ns.Name)
          else Run.ret ()) nss).bind fun _ =>
      if c.config.NetworkType = NetworkTypeVlan then
        (Run.call (.delLocalnet key) (ofErr (c.delLocalnet key))).bind fun _ =>
        match c.vlansList with
        | .error err => Run.fail err
        | .ok vlans =>
          forEach (fun (vlan : Vlan) =>
            if IsStringIn key (Split vlan.Spec.Subnet ',') then
              Run.emit (.updateVlanQueueAdd vlan.Name)
            else Run.ret ()) vlans
      else Run.ret ()

/-- The `processNextAddSubnetWorkItem` of the source. -/
def processNextAddSubnetWorkItem (c : Controller) : Run Bool :=
  processNextWorkItem c .addOrUpdateSubnet (handleAddOrUpdateSubnet c)

/-- The `processNextDeleteRoutePodWorkItem` of the source. -/
def processNextDeleteRoutePodWorkItem (c : Controller) : Run Bool :=
  processNextWorkItem c .deleteRoute (handleDeleteRoute c)

/-- The `processNextUpdateSubnetStatusWorkItem` of the source. -/
def processNextUpdateSubnetStatusWorkItem (c : Controller) : Run Bool :=
  processNextWorkItem c .updateSubnetStatus (handleUpdateSubnetStatus c)

/-- The `processNextDeleteSubnetWorkItem` of the source. -/
def processNextDeleteSubnetWorkItem (c : Controller) : Run Bool :=
  processNextWorkItem c .deleteSubnet (handleDeleteSubnet c)

/-- The condition under which `enqueueUpdateSubnet` enqueues, as the spec words it:
the new object is under deletion and unused, or one of the seven watched spec fields
differs between the old and the new object (a nil slice and an empty slice are different
values of a slice field). -/
def updateNeedsReconcile (oldSubnet newSubnet : Subnet) : Prop :=
  (IsZero newSubnet.DeletionTimestamp = false ∧ newSubnet.Status.UsingIPs = 0) ∨
  oldSubnet.Spec.Private ≠ newSubnet.Spec.Private ∨
  goSlice oldSubnet.Spec.AllowSubnetsNil oldSubnet.Spec.AllowSubnets ≠
    goSlice newSubnet.Spec.AllowSubnetsNil newSubnet.Spec.AllowSubnets ∨
  goSlice oldSubnet.Spec.NamespacesNil oldSubnet.Spec.Namespaces ≠
    goSlice newSubnet.Spec.NamespacesNil newSubnet.Spec.Namespaces ∨
  oldSubnet.Spec.GatewayType ≠ newSubnet.Spec.GatewayType ∨
  oldSubnet.Spec.GatewayNode ≠ newSubnet.Spec.GatewayNode ∨
  goSlice oldSubnet.Spec.ExcludeIpsNil oldSubnet.Spec.ExcludeIps ≠
    goSlice newSubnet.Spec.ExcludeIpsNil newSubnet.Spec.ExcludeIps ∨
  oldSubnet.Spec.Vlan ≠ newSubnet.Spec.Vlan

instance (oldSubnet newSubnet : Subnet) : Decidable (updateNeedsReconcile oldSubnet newSubnet) :=
  inferInstanceAs (Decidable (
    (IsZero newSubnet.DeletionTimestamp = false ∧ newSubnet.Status.UsingIPs = 0) ∨
    oldSubnet.Spec.Private ≠ newSubnet.Spec.Private ∨
    goSlice oldSubnet.Spec.AllowSubnetsNil oldSubnet.Spec.AllowSubnets ≠
      goSlice newSubnet.Spec.AllowSubnetsNil newSubnet.Spec.AllowSubnets ∨
    goSlice oldSubnet.Spec.NamespacesNil oldSubnet.Spec.Namespaces ≠
      goSlice newSubnet.Spec.NamespacesNil newSubnet.Spec.Namespaces ∨
    oldSubnet.Spec.GatewayType ≠ newSubnet.Spec.GatewayType ∨
    oldSubnet.Spec.GatewayNode ≠ newSubnet.Spec.GatewayNode ∨
    goSlice oldSubnet.Spec.ExcludeIpsNil oldSubnet.Spec.ExcludeIps ≠
      goSlice newSubnet.Spec.ExcludeIpsNil newSubnet.Spec.ExcludeIps ∨
    oldSubnet.Spec.Vlan ≠ newSubnet.Spec.Vlan))

/-- The formatted sample subnet with a nil namespace slice in place of the empty one. -/
def nilNamespacesSubnet : Subnet :=
  { sampleFormatted with Spec := { sampleFormatted.Spec with NamespacesNil := true } }

/-- The sample subnet after a user moved its gateway and CIDR text (fields that are not
watched). -/
def regatewayedSubnet : Subnet :=
  { sampleFormatted with Spec := { sampleFormatted.Spec with
      Gateway := "10.16.0.254", Protocol := "IPv6", CIDRBlock := "10.16.0.0/17" } }

/-- The sample subnet after a user made it private. -/
def privateSubnet : Subnet :=
  { sampleFormatted with Spec := { sampleFormatted.Spec with Private := true } }

/-- An IP object with a primary subnet and two attached subnets. -/
def attachedIP : IP :=
  { podIP with Spec := { podIP.Spec with
      AttachSubnets := ["net1", "net2"], AttachIPs := ["192.168.1.5", "192.168.2.5"],
      AttachMacs := ["00:00:00:00:00:01", "00:00:00:00:00:02"] } }

/-- The sample cluster seen from a replica that is not the leader. -/
def followerController : Controller :=
  { sampleController with isLeader := false }

/-- Whether a call is one of the bookkeeping calls of a work queue: `AddRateLimited`,
`Forget` or `Done`. -/
def isQueueBookkeeping : Call → Bool
  | .queueAddRateLimited _ _ => true
  | .queueForget _ _ => true
  | .queueDone _ _ => true
  | _ => false

/-- A run that makes no bookkeeping call on any work queue. -/
def Quiet {α : Type} (r : Run α) : Prop :=
  ∀ k ∈ r.calls, isQueueBookkeeping k = false

/-- The handler that serves each work queue. -/
def handlerOf (c : Controller) : Queue → String → Run Unit
  | .addOrUpdateSubnet => handleAddOrUpdateSubnet c
  | .deleteSubnet => handleDeleteSubnet c
  | .updateSubnetStatus => handleUpdateSubnetStatus c
  | .deleteRoute => handleDeleteRoute c

/-- The worker step that serves each work queue. -/
def workerOf (c : Controller) : Queue → Run Bool
  | .addOrUpdateSubnet => processNextAddSubnetWorkItem c
  | .deleteSubnet => processNextDeleteSubnetWorkItem c
  | .updateSubnetStatus => processNextUpdateSubnetStatusWorkItem c
  | .deleteRoute => processNextDeleteRoutePodWorkItem c

/-- The sample cluster with the key `s1` waiting in every work queue. -/
def workingController : Controller :=
  { sampleController with queueGet := fun _ => (.key "s1", false) }

/-- Every call of a run satisfies `P`. -/
def Only {α : Type} (P : Call → Prop) (r : Run α) : Prop :=
  ∀ k ∈ r.calls, P k

/-- Another subnet as `reconcileNamespaces` leaves it: the namespaces found in
`namespaceMap` are gone, the others stay in their order (lines 586-596); where a
namespace was found the slice has been written anew and is not nil. -/
def withoutNamespaces (namespaceMap : List String) (sub : Subnet) : Subnet :=
  { sub with Spec := { sub.Spec with
      Namespaces := sub.Spec.Namespaces.filter (fun ns => !namespaceMap.contains ns),
      NamespacesNil := sub.Spec.NamespacesNil &&
        !sub.Spec.Namespaces.any (fun ns => namespaceMap.contains ns) } }

/-- A namespace bound to the subnet `s1` by its `logical_switch` annotation. -/
def boundNamespace : Namespace :=
  { Name := "ns1", Annotations := some [( LogicalSwitchAnnotation, "s1")] }

/-- The sample cluster with the namespace `ns1` bound to `s1`; the logical switch `s1`
does not exist in OVN. -/
def orphanController : Controller :=
  { sampleController with namespacesList := .ok [boundNamespace] }

/-- The same cluster with the logical switch `s1` present in OVN. -/
def liveSwitchController : Controller :=
  { orphanController with LogicalSwitchExists := fun _ => .ok true }

/-! ## `pkg/daemon`: the CNI server -/

structure CniRequest where
  CniVersion : String
  PodName : String
  PodNamespace : String
  ContainerID : String
  NetNs : String
  IfName : String
  Provider : String
  DeviceID : String
deriving DecidableEq, Repr

structure CniResponse where
  Protocol : String
  IpAddress : String
  MacAddress : String
  CIDR : String
  Gateway : String
  Err : String
deriving DecidableEq, Repr

structure Pod where
  Name : String
  Namespace : String
  Annotations : List (String × String)
deriving DecidableEq, Repr

/-- What a handler left on the wire: a status code with a body, or nothing because the
handler panicked before it wrote a response. -/
inductive Reply where
  | wrote (code : Nat) (body : CniResponse)
  | header (code : Nat)
  | panicked
deriving DecidableEq, Repr

/-- How a Go function that answers an `error` ends when it does not answer one: it
returned `nil`, or it panicked. -/
inductive Completion where
  | returned
  | panicked
deriving DecidableEq, Repr

/-- The answer of `netlink.LinkByName`: the link, a `LinkNotFoundError`, or another error. -/
inductive LinkLookup where
  | found (link : String)
  | linkNotFound (msg : String)
  | failed (e : Err)
deriving DecidableEq, Repr

/-- The CNI server handler: the node configuration, and the answer of every collaborator
(API server, OVS, netlink, sriovnet) to every call.  `podsGet` takes the number of the
poll, so that the pod may change between polls.  The field `configureNic` is the answer
of the interface configurator of `ovs.go` (lines 115-165) as `handleAdd` sees it; the
configurator itself is embedded further down, over the netlink, sriovnet and OVS answers
of this record, on which every call succeeds unless a handler says otherwise.  A link is
known by its name; `OperUp` tells whether its state is `netlink.OperUp`.
`ValidatePodNetwork`, `CheckProtocol` and `GetIpWithoutMask` are helpers of `pkg/util`;
`configureContainerNic` (lines 223-296) works inside the network namespace of the pod and
is known by its answer only. -/
structure cniServerHandler where
  NodeName : String
  MTU : Nat
  podsGet : Nat → String → String → Result Pod
  ValidatePodNetwork : List (String × String) → Option Err
  CheckProtocol : String → String
  ipsGet : String → Result IP
  ipsCreate : IP → Result IP
  ipsUpdate : IP → Result IP
  ipsDelete : String → Option Err
  configureNic : String → String → String → String → String → String → String → String →
    String → String → String → String → Option Err
  ovsExec : List String → String × Option Err
  ClearPodBandwidth : String → String → Option Err
  LinkByName : String → LinkLookup
  LinkDel : String → Option Err
  LinkAdd : String → String → Nat → Option Err := fun _ _ _ => none
  LinkSetDown : String → Option Err := fun _ => none
  LinkSetName : String → String → Option Err := fun _ _ => none
  LinkSetUp : String → Option Err := fun _ => none
  LinkSetMTU : String → Nat → Option Err := fun _ _ => none
  LinkSetTxQLen : String → Nat → Option Err := fun _ _ => none
  OperUp : String → Bool := fun _ => true
  GetNetDevicesFromPci : String → Result (List String) := fun _ => .ok []
  GetUplinkRepresentor : String → Result String := fun _ => .ok ""
  GetVfIndexByPciAddress : String → Result Int := fun _ => .ok 0
  GetVfRepresentor : String → Int → Result String := fun _ _ => .ok ""
  GetIpWithoutMask : String → String := fun ip => ip
  /-- The `net.ParseMAC` of Go, the hardware address printed back. -/
  ParseMAC : String → Result String := fun mac => .ok mac
  SetPortTag : String → String → Option Err := fun _ _ => none
  SetInterfaceBandwidth : String → String → String → Option Err := fun _ _ _ => none
  /-- The `ns.GetNS` of the CNI plugins library: the namespace, known by its path. -/
  GetNS : String → Result String := fun netns => .ok netns
  configureContainerNic : String → String → String → String → String → String → Nat →
    Option Err := fun _ _ _ _ _ _ _ => none

/-- Modelled from the spec: the annotation `<provider>.kubernetes.io/allocated`
(`util.AllocatedAnnotationTemplate` filled in by `fmt.Sprintf`). -/
def AllocatedAnnotationTemplate (provider : String) : String :=
  provider ++ ".kubernetes.io/allocated"

/-- Modelled from the spec: the annotation `<provider>.kubernetes.io/mac_address`. -/
def MacAddressAnnotationTemplate (provider : String) : String :=
  provider ++ ".kubernetes.io/mac_address"

/-- Modelled from the spec: the annotation `<provider>.kubernetes.io/ip_address`. -/
def IpAddressAnnotationTemplate (provider : String) : String :=
  provider ++ ".kubernetes.io/ip_address"

/-- Modelled from the spec: the annotation `<provider>.kubernetes.io/cidr`. -/
def CidrAnnotationTemplate (provider : String) : String := provider ++ ".kubernetes.io/cidr"

/-- Modelled from the spec: the annotation `<provider>.kubernetes.io/gateway`. -/
def GatewayAnnotationTemplate (provider : String) : String := provider ++ ".kubernetes.io/gateway"

/-- Modelled from the spec: the annotation `<provider>.kubernetes.io/logical_switch`. -/
def LogicalSwitchAnnotationTemplate (provider : String) : String :=
  provider ++ ".kubernetes.io/logical_switch"

def IngressRateAnnotation : String := "ovn.kubernetes.io/ingress_rate"
def EgressRateAnnotation : String := "ovn.kubernetes.io/egress_rate"
def VlanIdAnnotation : String := "ovn.kubernetes.io/vlan_id"
def IfExists : String := "--if-exists"

/-- A Go `m[k] = v` on a `map[string]string`: the entry of `k` is replaced, or added. -/
def mapSet : List (String × String) → String → String → List (String × String)
  | [], k, v => [(k, v)]
  | e :: m, k, v => if e.1 = k then (k, v) :: m else e :: mapSet m k v

/-- The first `n` bytes of a character list in UTF-8, when they end on a character
boundary; `none` when the list is shorter than `n` bytes (Go panics on the slice) or the
cut falls inside a character (the Go result is not a text). -/
def takeBytes : List Char → Nat → Option (List Char)
  | _, 0 => some []
  | [], _ + 1 => none
  | ch :: rest, n + 1 =>
    if ch.utf8Size ≤ n + 1 then (takeBytes rest (n + 1 - ch.utf8Size)).map (fun l => ch :: l)
    else none

/-- The `generateNicName` of the source (`ovs.go`, lines 195-197): `containerID[0:12]`
with `_h` and `_c` appended.  It has no answer (`none`) where the slice expression panics
(fewer than 12 bytes); container IDs are hexadecimal, and a cut inside a multi-byte
character is left without an answer as well. -/
def generateNicName (containerID : String) : Option (String × String) :=
  (takeBytes containerID.data 12).map fun p => (String.mk p ++ "_h", String.mk p ++ "_c")

/-- The local variables that the poll loop of `handleAdd` fills in. -/
structure PodNetwork where
  macAddr : String := ""
  ip : String := ""
  ipAddr : String := ""
  cidr : String := ""
  gw : String := ""
  subnet : String := ""
  ingress : String := ""
  egress : String := ""
  vlanID : String := ""
deriving DecidableEq, Repr

/-- How the poll loop of `handleAdd` ends: a response was written and the handler
returned; the handler panicked (`strings.Split(cidr, "/")[1]` out of range); or the loop
was left, by `break` or after the last poll, with the pod last read and the variables. -/
inductive PollEnd where
  | responded (code : Nat) (body : CniResponse)
  | panicked
  | left (pod : Option Pod) (vars : PodNetwork)
deriving DecidableEq, Repr

/-- An error body of a CNI response. -/
def errBody (msg : String) : CniResponse :=
  { Protocol := "", IpAddress := "", MacAddress := "", CIDR := "", Gateway := "", Err := msg }

/-- The poll loop of `handleAdd` (lines 46-80): `fuel` polls are left, `i` is the number
of the next poll, `pod` is the pod read by the previous poll. -/
def pollPod (csh : cniServerHandler) (podRequest : CniRequest) :
    Nat → Nat → Option Pod → Run PollEnd
  | 0, _, pod => Run.ret (.left pod {})
  | fuel + 1, i, _ =>
    (Run.call (.podsGet podRequest.PodNamespace podRequest.PodName)
      (csh.podsGet i podRequest.PodNamespace podRequest.PodName)).andThen fun r =>
    match r with
    | .error err =>
      Run.ret (.responded 500 (errBody ("get pod " ++ podRequest.PodNamespace ++ "/" ++
        podRequest.PodName ++ " failed " ++ err.Error)))
    | .ok pod =>
      if mapGet pod.Annotations (AllocatedAnnotationTemplate podRequest.Provider) ≠ "true" then
        (Run.emit (.sleep 1)).bind fun _ => pollPod csh podRequest fuel (i + 1) (some pod)
      else
        match csh.ValidatePodNetwork pod.Annotations with
        | some _ =>
          (Run.emit (.sleep 1)).bind fun _ => pollPod csh podRequest fuel (i + 1) (some pod)
        | none =>
          let ip := mapGet pod.Annotations (IpAddressAnnotationTemplate podRequest.Provider)
          let cidr := mapGet pod.Annotations (CidrAnnotationTemplate podRequest.Provider)
          match (Split cidr '/')[1]? with
          | none => Run.ret .panicked
          | some mask =>
            Run.ret (.left (some pod)
              { macAddr :=
                  mapGet pod.Annotations (MacAddressAnnotationTemplate podRequest.Provider),
                ip := ip,
                ipAddr := ip ++ "/" ++ mask,
                cidr := cidr,
                gw := mapGet pod.Annotations (GatewayAnnotationTemplate podRequest.Provider),
                subnet :=
                  mapGet pod.Annotations (LogicalSwitchAnnotationTemplate podRequest.Provider),
                ingress := mapGet pod.Annotations IngressRateAnnotation,
                egress := mapGet pod.Annotations EgressRateAnnotation,
                vlanID := mapGet pod.Annotations VlanIdAnnotation })

/-- The `createOrUpdateIPCr` of the source (`handler.go`, lines 105-149).  The assignment
`ipCr.Labels[subnet] = ""` panics on a nil label map. -/
def createOrUpdateIPCr (csh : cniServerHandler) (podRequest : CniRequest)
    (subnet ip macAddr : String) : Run Completion :=
  (Run.call (.ipsGet (podRequest.PodName ++ "." ++ podRequest.PodNamespace))
    (csh.ipsGet (podRequest.PodName ++ "." ++ podRequest.PodNamespace))).andThen fun r =>
  match r with
  | .error err =>
    if IsNotFound err then
      let created : IP :=
        { Name := podRequest.PodName ++ "." ++ podRequest.PodNamespace,
          Labels := some (mapSet (mapSet [] SubnetNameLabel subnet) subnet ""),
          Spec := { PodName := podRequest.PodName, Namespace := podRequest.PodNamespace,
                    Subnet := subnet, AttachSubnets := [], NodeName := csh.NodeName,
                    IPAddress := ip, AttachIPs := [], MacAddress := macAddr,
                    AttachMacs := [], ContainerID := podRequest.ContainerID } }
      (Run.call (.ipsCreate created) (csh.ipsCreate created)).andThen fun r =>
      match r with
      | .error err =>
        Run.fail (.failed ("failed to create ip crd for " ++ ip ++ ", " ++ err.Error))
      | .ok _ => Run.ret .returned
    else Run.fail (.failed ("failed to get ip crd for " ++ ip ++ ", " ++ err.Error))
  | .ok ipCr =>
    match ipCr.Labels with
    | none => Run.ret .panicked
    | some labels =>
      let ipCr := { ipCr with Labels := some (mapSet labels subnet "") }
      let ipCr := { ipCr with Spec := { ipCr.Spec with
        AttachSubnets := ipCr.Spec.AttachSubnets ++ [subnet] } }
      let ipCr := { ipCr with Spec := { ipCr.Spec with
        AttachIPs := ipCr.Spec.AttachIPs ++ [ip] } }
      let ipCr := { ipCr with Spec := { ipCr.Spec with
        AttachMacs := ipCr.Spec.AttachMacs ++ [macAddr] } }
      (Run.call (.ipsUpdate ipCr) (csh.ipsUpdate ipCr)).andThen fun r =>
      match r with
      | .error err =>
        Run.fail (.failed ("failed to update ip crd for " ++ ip ++ ", " ++ err.Error))
      | .ok _ => Run.ret .returned

/-- The `handleAdd` of the source; `entity` is the answer of `req.ReadEntity`. -/
def handleAdd (csh : cniServerHandler) (entity : Result CniRequest) : Run Reply :=
  match entity with
  | .error err =>
    Run.ret (.wrote 400 (errBody ("parse add request failed " ++ err.Error)))
  | .ok podRequest =>
    (pollPod csh podRequest 15 0 none).bind fun polled =>
    match polled with
    | .responded code body => Run.ret (.wrote code body)
    | .panicked => Run.ret .panicked
    | .left none _ => Run.ret .panicked
    | .left (some pod) v =>
      if mapGet pod.Annotations (AllocatedAnnotationTemplate podRequest.Provider) ≠ "true" then
        Run.ret (.wrote 500 (errBody ("no address allocated to pod " ++ pod.Name ++ "/" ++
          pod.Name ++ ", please see kube-ovn-controller logs to find errors")))
      else
        (createOrUpdateIPCr csh podRequest v.subnet v.ip v.macAddr).andThen fun r =>
        match r with
        | .error err => Run.ret (.wrote 500 (errBody err.Error))
        | .ok .panicked => Run.ret .panicked
        | .ok .returned =>
          (if podRequest.Provider = OvnProvider then
            Run.call (.configureNic podRequest.PodName podRequest.PodNamespace
                podRequest.NetNs podRequest.ContainerID podRequest.IfName v.macAddr v.ipAddr
                v.gw v.ingress v.egress v.vlanID podRequest.DeviceID)
              (ofErr (csh.configureNic podRequest.PodName podRequest.PodNamespace
                podRequest.NetNs podRequest.ContainerID podRequest.IfName v.macAddr v.ipAddr
                v.gw v.ingress v.egress v.vlanID podRequest.DeviceID))
           else Run.ret ()).andThen fun r =>
          match r with
          | .error err =>
            Run.ret (.wrote 500 (errBody ("configure nic failed " ++ err.Error)))
          | .ok _ =>
            Run.ret (.wrote 200
              { Protocol := csh.CheckProtocol v.ipAddr,
                IpAddress := (Split v.ipAddr '/').headD "",
                MacAddress := v.macAddr, CIDR := v.cidr, Gateway := v.gw, Err := "" })

/-- The `deleteNic` of the source (`ovs.go`, lines 167-193); where `generateNicName` has
no answer the run ends as the panic of `containerID[0:12]`. -/
def deleteNic (csh : cniServerHandler) (podName podNamespace containerID deviceID : String) :
    Run Completion :=
  match generateNicName containerID with
  | none => Run.ret .panicked
  | some (hostNicName, _) =>
      (Run.call (.ovsExec [IfExists, "--with-iface", "del-port", "br-int", hostNicName])
        (ofErr (csh.ovsExec [IfExists, "--with-iface", "del-port", "br-int",
          hostNicName]).2)).andThen fun r =>
      match r with
      | .error err =>
        Run.fail (.failed ("failed to delete ovs port " ++ err.Error ++ ", " ++
          (csh.ovsExec [IfExists, "--with-iface", "del-port", "br-int", hostNicName]).1))
      | .ok _ =>
        (Run.call (.ClearPodBandwidth podName podNamespace)
          (ofErr (csh.ClearPodBandwidth podName podNamespace))).bind fun _ =>
        if deviceID = "" then
          (Run.emit (.LinkByName hostNicName)).bind fun _ =>
          match csh.LinkByName hostNicName with
          | .linkNotFound _ => Run.ret .returned
          | .failed err =>
            Run.fail (.failed ("find host link " ++ hostNicName ++ " failed " ++ err.Error))
          | .found hostLink =>
            (Run.call (.LinkDel hostLink) (ofErr (csh.LinkDel hostLink))).andThen fun r =>
            match r with
            | .error err =>
              Run.fail (.failed ("delete host link " ++ hostLink ++ " failed " ++ err.Error))
            | .ok _ => Run.ret .returned
        else Run.ret .returned

/-- The `handleDel` of the source; `entity` is the answer of `req.ReadEntity`. -/
def handleDel (csh : cniServerHandler) (entity : Result CniRequest) : Run Reply :=
  match entity with
  | .error err =>
    Run.ret (.wrote 400 (errBody ("parse del request failed " ++ err.Error)))
  | .ok podRequest =>
    let deleteIP : Run Reply :=
      (Run.call (.ipsDelete (podRequest.PodName ++ "." ++ podRequest.PodNamespace))
        (ofErr (csh.ipsDelete (podRequest.PodName ++ "." ++ podRequest.PodNamespace)))).andThen
        fun r =>
      match r with
      | .error err =>
        if IsNotFound err then Run.ret (.header 204)
        else
          Run.ret (.wrote 500 (errBody ("del ipcrd for " ++ podRequest.PodName ++ "." ++
            podRequest.PodNamespace ++ " failed " ++ err.Error)))
      | .ok _ => Run.ret (.header 204)
    if podRequest.Provider = OvnProvider then
      (deleteNic csh podRequest.PodName podRequest.PodNamespace podRequest.ContainerID
        podRequest.DeviceID).andThen fun r =>
      match r with
      | .error err => Run.ret (.wrote 500 (errBody ("del nic failed " ++ err.Error)))
      | .ok .panicked => Run.ret .panicked
      | .ok .returned => deleteIP
    else deleteIP

/-! ### Sample CNI requests and handlers -/

/-- An ADD/DEL request of the provider `ovn` for the pod `default/web`. -/
def sampleRequest : CniRequest :=
  { CniVersion := "0.3.1", PodName := "web", PodNamespace := "default",
    ContainerID := "0123456789abcdef", NetNs := "/proc/7/ns/net", IfName := "eth0",
    Provider := "ovn", DeviceID := "" }

/-- The same request for the provider `net1` of an attached network. -/
def attachRequest : CniRequest := { sampleRequest with Provider := "net1" }

/-- A pod whose address the controller has allocated for both providers, with no other
annotation. -/
def allocatedPod : Pod :=
  { Name := "web", Namespace := "default",
    Annotations := [("ovn.kubernetes.io/allocated", "true"),
                    ("net1.kubernetes.io/allocated", "true")] }

/-- A node on which every collaborator succeeds, the pod is `allocatedPod` at every poll,
`ValidatePodNetwork` rejects its annotations at every poll, and there is no IP object and
no host link yet. -/
def unvalidatedHandler : cniServerHandler :=
  { NodeName := "node1", MTU := 1400,
    podsGet := fun _ _ _ => .ok allocatedPod,
    ValidatePodNetwork := fun _ => some (.failed "ip is not valid"),
    CheckProtocol := fun _ => "",
    ipsGet := fun name => .error (.notFound name),
    ipsCreate := fun ip => .ok ip,
    ipsUpdate := fun ip => .ok ip,
    ipsDelete := fun name => some (.notFound name),
    configureNic := fun _ _ _ _ _ _ _ _ _ _ _ _ => none,
    ovsExec := fun _ => ("", none),
    ClearPodBandwidth := fun _ _ => none,
    LinkByName := fun name => .linkNotFound name,
    LinkDel := fun _ => none }

/-- The IP object of the pod `default/web` on the subnet `s1`. -/
def webIP : IP :=
  { Name := "web.default",
    Labels := some [(SubnetNameLabel, "s1"), ("s1", "")],
    Spec := { PodName := "web", Namespace := "default", Subnet := "s1", AttachSubnets := [],
              NodeName := "node1", IPAddress := "10.16.0.5", AttachIPs := [],
              MacAddress := "00:00:00:aa:bb:01", AttachMacs := [],
              ContainerID := "0123456789abcdef" } }

/-- The node of `unvalidatedHandler` once the IP object `webIP` exists, its host link
`0123456789ab_h` is up and the store deletes the object. -/
def attachedHandler : cniServerHandler :=
  { unvalidatedHandler with
    ipsGet := fun _ => .ok webIP,
    ipsDelete := fun _ => none,
    LinkByName := fun name => .found name }

/-- The IP object that `createOrUpdateIPCr` creates for a request. -/
def createdIP (csh : cniServerHandler) (podRequest : CniRequest) (subnet ip macAddr : String) :
    IP :=
  { Name := podRequest.PodName ++ "." ++ podRequest.PodNamespace,
    Labels := some (mapSet (mapSet [] SubnetNameLabel subnet) subnet ""),
    Spec := { PodName := podRequest.PodName, Namespace := podRequest.PodNamespace,
              Subnet := subnet, AttachSubnets := [], NodeName := csh.NodeName,
              IPAddress := ip, AttachIPs := [], MacAddress := macAddr, AttachMacs := [],
              ContainerID := podRequest.ContainerID } }

/-- The attachments of an IP object: position `i` of the three attach lists, taken
together. -/
def attachments (ip : IP) : List (String × String × String) :=
  ip.Spec.AttachSubnets.zip (ip.Spec.AttachIPs.zip ip.Spec.AttachMacs)

/-- The name of the IP object of a request. -/
def ipName (podRequest : CniRequest) : String :=
  podRequest.PodName ++ "." ++ podRequest.PodNamespace

/-- Whether a call writes an IP object or configures an interface. -/
def isAddEffect : Call → Bool
  | .ipsCreate _ => true
  | .ipsUpdate _ => true
  | .configureNic _ _ _ _ _ _ _ _ _ _ _ _ => true
  | _ => false

/-- The IP object that `createOrUpdateIPCr` sends to `Update` for the existing object
`ipCr` with the label map `labels`. -/
def updatedIP (ipCr : IP) (labels : List (String × String)) (subnet ip macAddr : String) : IP :=
  { Name := ipCr.Name,
    Labels := some (mapSet labels subnet ""),
    Spec := { PodName := ipCr.Spec.PodName, Namespace := ipCr.Spec.Namespace,
              Subnet := ipCr.Spec.Subnet,
              AttachSubnets := ipCr.Spec.AttachSubnets ++ [subnet],
              NodeName := ipCr.Spec.NodeName, IPAddress := ipCr.Spec.IPAddress,
              AttachIPs := ipCr.Spec.AttachIPs ++ [ip],
              MacAddress := ipCr.Spec.MacAddress,
              AttachMacs := ipCr.Spec.AttachMacs ++ [macAddr],
              ContainerID := ipCr.Spec.ContainerID } }

/-- The calls of `n` polls of `handleAdd` that each end in the one-second sleep. -/
def idlePolls (podRequest : CniRequest) : Nat → List Call
  | 0 => []
  | n + 1 =>
    .podsGet podRequest.PodNamespace podRequest.PodName :: .sleep 1 :: idlePolls podRequest n

/-- The sample cluster on a vlan network on which the configured default vlan `ovn-vlan`
does not exist (no vlan does). -/
def vlanlessController : Controller :=
  { sampleController with config := { sampleController.config with NetworkType := "vlan" } }

/-- The store of `namespaceController` listed in the other order: `o` before `s`. -/
def reorderedController : Controller :=
  { namespaceController with subnetsList := .ok [otherSubnet, bindingSubnet] }

/-- The sample cluster on which every status `Patch` fails. -/
def patchFailController : Controller :=
  { sampleController with subnetsPatch := fun _ _ => .error (.failed "patch failed") }

/-- The sample cluster on which a status `Patch` fails exactly when the document carries
a condition: for the sample subnet, which has no condition yet, the counter patch
succeeds and every condition patch fails. -/
def conditionPatchFailController : Controller :=
  { sampleController with
    subnetsPatch := fun _ doc =>
      if doc.Conditions = [] then .ok sampleSubnet else .error (.failed "patch failed") }

/-! ### `pkg/daemon/ovs.go`: the interface configurator -/

def MayExist : String := "--may-exist"

/-- The answer of `netlink.LinkByName` as a Go `(link, err)` pair. -/
def LinkLookup.result : LinkLookup → Result String
  | .found link => .ok link
  | .linkNotFound msg => .error (.failed msg)
  | .failed e => .error e

/-- The `setupVethPair` of the source (lines 21-37): the names of the host end and of the
container end, `none` when `generateNicName` has no answer. -/
def setupVethPair (csh : cniServerHandler) (containerID : String) (mtu : Nat) :
    Run (Option (String × String)) :=
  match generateNicName containerID with
  | none => Run.ret none
  | some (hostNicName, containerNicName) =>
    (Run.call (.LinkAdd hostNicName containerNicName mtu)
      (ofErr (csh.LinkAdd hostNicName containerNicName mtu))).andThen fun r =>
    match r with
    | .error err =>
      (Run.call (.LinkDel hostNicName) (ofErr (csh.LinkDel hostNicName))).bind fun _ =>
        Run.fail (.failed ("failed to crate veth for " ++ err.Error))
    | .ok _ => Run.ret (some (hostNicName, containerNicName))

/-- The `renameLink` of the source (lines 94-113). -/
def renameLink (csh : cniServerHandler) (curName newName : String) : Run Unit :=
  (Run.call (.LinkByName curName) (csh.LinkByName curName).result).bind fun link =>
  (Run.call (.LinkSetDown link) (ofErr (csh.LinkSetDown link))).bind fun _ =>
  (Run.call (.LinkSetName link newName) (ofErr (csh.LinkSetName link newName))).bind fun _ =>
  Run.call (.LinkSetUp link) (ofErr (csh.LinkSetUp link))

/-- The `setupSriovInterface` of the source (lines 41-92): the name of the host
representor and the VF net device, `none` when `generateNicName` has no answer. -/
def setupSriovInterface (csh : cniServerHandler) (containerID deviceID : String) (mtu : Nat) :
    Run (Option (String × String)) :=
  (Run.call (.GetNetDevicesFromPci deviceID) (csh.GetNetDevicesFromPci deviceID)).bind
    fun vfNetdevices =>
  match vfNetdevices with
  | [vfNetdevice] =>
    (Run.call (.GetUplinkRepresentor deviceID) (csh.GetUplinkRepresentor deviceID)).bind
      fun uplink =>
    (Run.call (.GetVfIndexByPciAddress deviceID) (csh.GetVfIndexByPciAddress deviceID)).bind
      fun vfIndex =>
    (Run.call (.GetVfRepresentor uplink vfIndex) (csh.GetVfRepresentor uplink vfIndex)).bind
      fun rep =>
    let oldHostRepName := rep
    match generateNicName containerID with
    | none => Run.ret none
    | some (hostNicName, _) =>
      (renameLink csh oldHostRepName hostNicName).andThen fun r =>
      match r with
      | .error err =>
        Run.fail (.failed ("failed to rename " ++ oldHostRepName ++ " to " ++ hostNicName ++
          ": " ++ err.Error))
      | .ok _ =>
        (Run.call (.LinkByName hostNicName) (csh.LinkByName hostNicName).result).bind
          fun link =>
        (Run.call (.LinkSetMTU link mtu) (ofErr (csh.LinkSetMTU link mtu))).andThen fun r =>
        match r with
        | .error err =>
          Run.fail (.failed ("failed to set MTU on " ++ hostNicName ++ ": " ++ err.Error))
        | .ok _ => Run.ret (some (hostNicName, vfNetdevice))
  | _ =>
    Run.fail (.failed ("failed to get one netdevice interface per " ++ deviceID))

/-- The `configureHostNic` of the source (lines 199-221). -/
def configureHostNic (csh : cniServerHandler) (nicName vlanID : String) : Run Unit :=
  (Run.call (.LinkByName nicName) (csh.LinkByName nicName).result).andThen fun r =>
  match r with
  | .error err =>
    Run.fail (.failed ("can not find host nic " ++ nicName ++ " " ++ err.Error))
  | .ok hostLink =>
    (if csh.OperUp hostLink then Run.ret ()
     else
      (Run.call (.LinkSetUp hostLink) (ofErr (csh.LinkSetUp hostLink))).andThen fun r =>
      match r with
      | .error err =>
        Run.fail (.failed ("can not set host nic " ++ nicName ++ " up " ++ err.Error))
      | .ok _ => Run.ret ()).bind fun _ =>
    (Run.call (.LinkSetTxQLen hostLink 1000) (ofErr (csh.LinkSetTxQLen hostLink 1000))).andThen
      fun r =>
    match r with
    | .error err =>
      Run.fail (.failed ("can not set host nic " ++ nicName ++ " qlen " ++ err.Error))
    | .ok _ =>
      if vlanID ≠ "" ∧ vlanID ≠ "0" then
        (Run.call (.SetPortTag nicName vlanID) (ofErr (csh.SetPortTag nicName vlanID))).andThen
          fun r =>
        match r with
        | .error err => Run.fail (.failed ("failed to add vlan tag, " ++ err.Error))
        | .ok _ => Run.ret ()
      else Run.ret ()

/-- The arguments of the `ovs.Exec` call of `configureNic` (lines 136-140). -/
def addPortArgs (hostNicName ifaceID podName podNamespace ipStr : String) : List String :=
  [MayExist, "add-port", "br-int", hostNicName, "--", "set", "interface", hostNicName,
   "external_ids:iface-id=" ++ ifaceID, "external_ids:pod_name=" ++ podName,
   "external_ids:pod_namespace=" ++ podNamespace, "external_ids:ip=" ++ ipStr]

/-- The `configureNic` of the source (lines 115-165); the run ends as a panic where
`generateNicName` has no answer. -/
def configureNic (csh : cniServerHandler) (podName podNamespace netns containerID ifName mac
    ip gateway ingress egress vlanID DeviceID : String) : Run Completion :=
  (if DeviceID = "" then setupVethPair csh containerID csh.MTU
   else setupSriovInterface csh containerID DeviceID csh.MTU).bind fun names =>
  match names with
  | none => Run.ret .panicked
  | some (hostNicName, containerNicName) =>
    let ipStr := csh.GetIpWithoutMask ip
    let ifaceID := podName ++ "." ++ podNamespace
    (Run.emit (.CleanDuplicatePort ifaceID)).bind fun _ =>
    (Run.call (.ovsExec (addPortArgs hostNicName ifaceID podName podNamespace ipStr))
      (ofErr (csh.ovsExec
        (addPortArgs hostNicName ifaceID podName podNamespace ipStr)).2)).andThen fun r =>
    match r with
    | .error err =>
      Run.fail (.failed ("add nic to ovs failed " ++ err.Error ++ ": " ++
        (csh.ovsExec (addPortArgs hostNicName ifaceID podName podNamespace ipStr)).1))
    | .ok _ =>
      match csh.ParseMAC mac with
      | .error err => Run.fail (.failed ("failed to parse mac  " ++ err.Error))
      | .ok macAddr =>
        (configureHostNic csh hostNicName vlanID).bind fun _ =>
        (Run.call (.SetInterfaceBandwidth (podName ++ "." ++ podNamespace) ingress egress)
          (ofErr (csh.SetInterfaceBandwidth (podName ++ "." ++ podNamespace) ingress
            egress))).bind fun _ =>
        (Run.call (.GetNS netns) (csh.GetNS netns)).andThen fun r =>
        match r with
        | .error err =>
          Run.fail (.failed ("failed to open netns " ++ netns ++ ": " ++ err.Error))
        | .ok podNS =>
          (Run.call (.configureContainerNic containerNicName ifName ip gateway macAddr podNS
              csh.MTU)
            (ofErr (csh.configureContainerNic containerNicName ifName ip gateway macAddr podNS
              csh.MTU))).bind fun _ => Run.ret .returned

/-- Whether a call runs `ovs-vsctl` through `ovs.Exec`. -/
def isOvsExec : Call → Bool
  | .ovsExec _ => true
  | _ => false

/-- A node on which a VF with one net device `vf0` and the representor `rep0` stands
behind every PCI address, and every other collaborator answers as on
`attachedHandler`. -/
def sriovHandler : cniServerHandler :=
  { attachedHandler with
    GetNetDevicesFromPci := fun _ => .ok ["vf0"],
    GetUplinkRepresentor := fun _ => .ok "uplink0",
    GetVfRepresentor := fun _ _ => .ok "rep0" }

/-- A run that returns the error of each status `Patch` call of its trace that the
server fails. -/
def ReturnsPatchError {α : Type} (c : Controller) (r : Run α) : Prop :=
  ∀ name doc e, Call.subnetsPatch name doc ∈ r.calls → c.subnetsPatch name doc = .error e →
    r.res = .error e

/-- The sample cluster with the store holding `centralSubnet` only: none of its gateway
nodes exists. -/
def nodelessController : Controller :=
  { sampleController with
    subnetsGet := fun key =>
      if key = "g" then .ok centralSubnet else .error (.notFound (key ++ " not found"))
    subnetsList := .ok [centralSubnet] }

/-- The cluster of `nodelessController` on which a status `Patch` fails exactly when the
document carries a condition. -/
def nodelessPatchFailController : Controller :=
  { nodelessController with
    subnetsPatch := fun _ doc =>
      if doc.Conditions = [] then .ok centralSubnet else .error (.failed "patch failed") }

/-- The formatted sample subnet once `calcSubnetStatusIP` has counted: the gateway is
the one excluded address. -/
def countedSample : Subnet :=
  { sampleFormatted with
    Status := { Conditions := [], AvailableIPs := 65533, UsingIPs := 0,
                ActivateGateway := "" } }

/-! # Proofs -/

/-! ## Runs -/

@[simp] theorem Run.ret_calls {α : Type} (a : α) : (Run.ret a).calls = [] := rfl
@[simp] theorem Run.ret_res {α : Type} (a : α) : (Run.ret a).res = .ok a := rfl
@[simp] theorem Run.fail_calls {α : Type} (e : Err) : (Run.fail e : Run α).calls = [] := rfl
@[simp] theorem Run.fail_res {α : Type} (e : Err) : (Run.fail e : Run α).res = .error e := rfl
@[simp] theorem Run.call_calls {α : Type} (k : Call) (r : Result α) :
    (Run.call k r).calls = [k] := rfl
@[simp] theorem Run.call_res {α : Type} (k : Call) (r : Result α) : (Run.call k r).res = r := rfl
@[simp] theorem Run.emit_calls (k : Call) : (Run.emit k).calls = [k] := rfl
@[simp] theorem Run.emit_res (k : Call) : (Run.emit k).res = .ok () := rfl

theorem Run.bind_ok {α β : Type} (m : Run α) (f : α → Run β) (a : α) (h : m.res = .ok a) :
    m.bind f = ⟨m.calls ++ (f a).calls, (f a).res⟩ := by
  simp [Run.bind, h]

theorem Run.bind_error {α β : Type} (m : Run α) (f : α → Run β) (e : Err)
    (h : m.res = .error e) : m.bind f = ⟨m.calls, .error e⟩ := by
  simp [Run.bind, h]

@[simp] theorem Run.andThen_calls {α β : Type} (m : Run α) (f : Result α → Run β) :
    (m.andThen f).calls = m.calls ++ (f m.res).calls := rfl
@[simp] theorem Run.andThen_res {α β : Type} (m : Run α) (f : Result α → Run β) :
    (m.andThen f).res = (f m.res).res := rfl

/-! ## `formatSubnet` -/

theorem fmtCIDRBlock_fst (ipNet : String) (p : Subnet × Bool) :
    (fmtCIDRBlock ipNet p).1 = { p.1 with Spec := { p.1.Spec with CIDRBlock := ipNet } } := by
  unfold fmtCIDRBlock
  split
  · rfl
  · rename_i h
    have h2 : ipNet = p.1.Spec.CIDRBlock := not_not.mp h
    rw [h2]

theorem fmtProvider_fst (p : Subnet × Bool) :
    (fmtProvider p).1 = { p.1 with Spec := { p.1.Spec with
      Provider := if p.1.Spec.Provider = "" then OvnProvider else p.1.Spec.Provider } } := by
  unfold fmtProvider
  split <;> simp_all

theorem fmtProtocol_fst (c : Controller) (p : Subnet × Bool) :
    (fmtProtocol c p).1 = { p.1 with Spec := { p.1.Spec with
      Protocol := c.CheckProtocol p.1.Spec.CIDRBlock } } := by
  unfold fmtProtocol
  split
  · rfl
  · rename_i h
    have h2 : p.1.Spec.Protocol = c.CheckProtocol p.1.Spec.CIDRBlock := by
      by_contra hne
      exact h (Or.inr hne)
    rw [← h2]

theorem fmtGatewayType_fst (p : Subnet × Bool) :
    (fmtGatewayType p).1 = { p.1 with Spec := { p.1.Spec with
      GatewayType := if p.1.Spec.GatewayType = "" then GWDistributedType
        else p.1.Spec.GatewayType } } := by
  unfold fmtGatewayType
  split <;> simp_all

theorem fmtDefault_fst (c : Controller) (p : Subnet × Bool) :
    (fmtDefault c p).1 = { p.1 with Spec := { p.1.Spec with
      Default := if p.1.Spec.Default = true ∧ p.1.Name ≠ c.config.DefaultLogicalSwitch
        then false else p.1.Spec.Default } } := by
  unfold fmtDefault
  split <;> simp_all

theorem fmtGateway_ok (c : Controller) (p q : Subnet × Bool) (h : fmtGateway c p = .ok q) :
    ∃ gw, q.1 = { p.1 with Spec := { p.1.Spec with Gateway := gw } } ∧
      ((p.1.Spec.Gateway = "" ∧ c.FirstSubnetIP p.1.Spec.CIDRBlock = .ok gw) ∨
       (p.1.Spec.Gateway ≠ "" ∧ gw = p.1.Spec.Gateway)) := by
  unfold fmtGateway at h
  split at h
  · rename_i hg
    split at h
    · cases h
    · rename_i gw hf
      cases h
      exact ⟨gw, rfl, Or.inl ⟨hg, hf⟩⟩
  · rename_i hg
    cases h
    exact ⟨p.1.Spec.Gateway, rfl, Or.inr ⟨hg, rfl⟩⟩

theorem fmtExcludeIps_fst (c : Controller) (p : Subnet × Bool) :
    (fmtExcludeIps c p).1 = { p.1 with Spec := { p.1.Spec with
      ExcludeIps :=
        if p.1.Spec.ExcludeIps.length = 0 then [p.1.Spec.Gateway]
        else if (c.ExpandExcludeIPs p.1.Spec.ExcludeIps p.1.Spec.CIDRBlock).any
            (fun ip => ip == p.1.Spec.Gateway)
          then p.1.Spec.ExcludeIps
        else p.1.Spec.ExcludeIps ++ [p.1.Spec.Gateway],
      ExcludeIpsNil :=
        if p.1.Spec.ExcludeIps.length = 0 then false
        else if (c.ExpandExcludeIPs p.1.Spec.ExcludeIps p.1.Spec.CIDRBlock).any
            (fun ip => ip == p.1.Spec.Gateway)
          then p.1.Spec.ExcludeIpsNil
        else false } } := by
  unfold fmtExcludeIps
  split
  · rename_i h0
    simp [h0]
  · simp only []
    split
    · rename_i h
      simp only [Bool.not_eq_true'] at h
      simp [h]
    · rename_i h
      simp only [Bool.not_eq_true', Bool.not_eq_false] at h
      simp [h]

theorem fmtVlanDefault_fst (c : Controller) (p : Subnet × Bool) :
    (fmtVlanDefault c p).1 = { p.1 with Spec := { p.1.Spec with
      Vlan := vlanDefaulted c p.1.Spec.Vlan } } := by
  unfold fmtVlanDefault vlanDefaulted
  split <;> simp_all

theorem fmtVlanLookup_fst (c : Controller) (p : Subnet × Bool) :
    (fmtVlanLookup c p).1 = { p.1 with Spec := { p.1.Spec with
      Vlan := if p.1.Spec.Vlan ≠ "" ∧ vlanMissing c p.1.Spec.Vlan = true then ""
        else p.1.Spec.Vlan } } := by
  unfold fmtVlanLookup vlanMissing
  split
  · split <;> simp_all
  · rename_i h
    rw [if_neg (fun hh => h hh.1)]

/-- The mutations of `formatSubnet` in closed form. -/
theorem formatSubnetFields_ok (c : Controller) (subnet : Subnet) (p : Subnet × Bool)
    (h : formatSubnetFields c subnet = .ok p) :
    ∃ ipNet gw, c.ParseCIDR subnet.Spec.CIDRBlock = .ok ipNet ∧
      ((subnet.Spec.Gateway = "" ∧ c.FirstSubnetIP ipNet = .ok gw) ∨
       (subnet.Spec.Gateway ≠ "" ∧ gw = subnet.Spec.Gateway)) ∧
      p.1 = { subnet with Spec := formattedSpec c subnet.Name subnet.Spec ipNet gw } := by
  unfold formatSubnetFields at h
  split at h
  · cases h
  · rename_i ipNet hparse
    split at h
    · cases h
    · rename_i q hq
      cases h
      obtain ⟨gw, hq1, hgw⟩ := fmtGateway_ok c _ q hq
      refine ⟨ipNet, gw, hparse, ?_, ?_⟩
      · simpa [fmtDefault_fst, fmtGatewayType_fst, fmtProtocol_fst, fmtProvider_fst,
          fmtCIDRBlock_fst] using hgw
      · rw [fmtVlanLookup_fst, fmtVlanDefault_fst, fmtExcludeIps_fst, hq1]
        simp [fmtDefault_fst, fmtGatewayType_fst, fmtProtocol_fst, fmtProvider_fst,
          fmtCIDRBlock_fst, formattedSpec]

theorem formatSubnet_res_ok (c : Controller) (subnet out : Subnet)
    (h : (formatSubnet c subnet).res = .ok out) :
    ∃ changed, formatSubnetFields c subnet = .ok (out, changed) := by
  unfold formatSubnet at h
  split at h
  · simp at h
  · rename_i p hp
    split at h
    · cases hu : c.subnetsUpdate p.1 with
      | error e => simp [Run.bind, hu] at h
      | ok a =>
        simp [Run.bind, hu] at h
        exact ⟨p.2, by rw [hp, ← h]⟩
    · simp at h
      exact ⟨p.2, by rw [hp, ← h]⟩

theorem formatSubnet_of_fields (c : Controller) (subnet : Subnet) (p : Subnet × Bool)
    (h : formatSubnetFields c subnet = .ok p) :
    (formatSubnet c subnet).res = .ok p.1 ∨
      ∃ e, c.subnetsUpdate p.1 = .error e ∧ (formatSubnet c subnet).res = .error e := by
  unfold formatSubnet
  rw [h]
  simp only []
  split
  · cases hu : c.subnetsUpdate p.1 with
    | error e => exact Or.inr ⟨e, rfl, by simp [Run.bind, hu]⟩
    | ok a => exact Or.inl (by simp [Run.bind, hu])
  · exact Or.inl rfl

theorem formatSubnetFields_isOk (c : Controller) (subnet : Subnet) (ipNet : String)
    (hparse : c.ParseCIDR subnet.Spec.CIDRBlock = .ok ipNet)
    (hgw : subnet.Spec.Gateway = "" → ∃ gw, c.FirstSubnetIP ipNet = .ok gw) :
    ∃ p, formatSubnetFields c subnet = .ok p := by
  unfold formatSubnetFields
  rw [hparse]
  simp only []
  have hq : ∃ q, fmtGateway c (fmtDefault c (fmtGatewayType (fmtProtocol c (fmtProvider
        (fmtCIDRBlock ipNet (subnet, false)))))) = .ok q := by
    unfold fmtGateway
    simp only [fmtDefault_fst, fmtGatewayType_fst, fmtProtocol_fst, fmtProvider_fst,
      fmtCIDRBlock_fst]
    split
    · rename_i h0
      obtain ⟨gw, hg⟩ := hgw h0
      rw [hg]
      exact ⟨_, rfl⟩
    · exact ⟨_, rfl⟩
  obtain ⟨q, hq⟩ := hq
  rw [hq]
  exact ⟨_, rfl⟩

theorem any_beq_of_mem (l : List String) (a : String) (h : a ∈ l) :
    l.any (fun ip => ip == a) = true := by
  rw [List.any_eq_true]
  exact ⟨a, h, by simp⟩

theorem mem_of_any_beq (l : List String) (a : String)
    (h : l.any (fun ip => ip == a) = true) : a ∈ l := by
  rw [List.any_eq_true] at h
  obtain ⟨x, hx, hxa⟩ := h
  have : x = a := by simpa using hxa
  exact this ▸ hx

/-- The exclude list of the closed form holds the gateway in its expansion as soon as
the expansion keeps a gateway that stands last in the list. -/
theorem formattedSpec_gateway_mem (c : Controller) (name : String) (spec : SubnetSpec)
    (ipNet gw : String)
    (hkeep : ∀ xs, gw ∈ c.ExpandExcludeIPs (xs ++ [gw]) ipNet) :
    gw ∈ c.ExpandExcludeIPs (formattedSpec c name spec ipNet gw).ExcludeIps ipNet := by
  simp only [formattedSpec]
  split
  · exact hkeep []
  · split
    · rename_i h
      exact mem_of_any_beq _ _ h
    · exact hkeep _

theorem SubnetSpec.eq_of_fields (a b : SubnetSpec) (h1 : a.Default = b.Default)
    (h2 : a.Protocol = b.Protocol) (h3 : a.Namespaces = b.Namespaces)
    (h4 : a.CIDRBlock = b.CIDRBlock) (h5 : a.Gateway = b.Gateway)
    (h6 : a.ExcludeIps = b.ExcludeIps) (h7 : a.Provider = b.Provider)
    (h8 : a.GatewayType = b.GatewayType) (h9 : a.GatewayNode = b.GatewayNode)
    (h10 : a.UnderlayGateway = b.UnderlayGateway) (h11 : a.Private = b.Private)
    (h12 : a.AllowSubnets = b.AllowSubnets) (h13 : a.Vlan = b.Vlan)
    (h14 : a.NamespacesNil = b.NamespacesNil) (h15 : a.ExcludeIpsNil = b.ExcludeIpsNil)
    (h16 : a.AllowSubnetsNil = b.AllowSubnetsNil) : a = b := by
  cases a
  cases b
  simp_all

theorem vlanDefaulted_of_ne (c : Controller) (vlan : String) (h : vlan ≠ "") :
    vlanDefaulted c vlan = vlan := by
  unfold vlanDefaulted
  rw [if_neg (fun hh => h hh.2)]

/-- The vlan field of the closed form is stable, unless it is empty on a vlan network
whose default vlan resolves. -/
theorem formattedVlan_idem (c : Controller) (vlan out : String)
    (hout : out = if vlanDefaulted c vlan ≠ "" ∧ vlanMissing c (vlanDefaulted c vlan) = true
      then "" else vlanDefaulted c vlan)
    (hvlan : c.config.NetworkType = NetworkTypeVlan → out = "" →
      c.config.DefaultVlanName ≠ "" → vlanMissing c c.config.DefaultVlanName = true) :
    (if vlanDefaulted c out ≠ "" ∧ vlanMissing c (vlanDefaulted c out) = true
      then "" else vlanDefaulted c out) = out := by
  by_cases ho : out = ""
  · by_cases hn : c.config.NetworkType = NetworkTypeVlan
    · have hd : vlanDefaulted c out = c.config.DefaultVlanName := by
        unfold vlanDefaulted
        rw [if_pos ⟨hn, ho⟩]
      rw [hd]
      by_cases hdn : c.config.DefaultVlanName = ""
      · rw [if_neg (fun hh => hh.1 hdn), hdn, ho]
      · rw [if_pos ⟨hdn, hvlan hn ho hdn⟩, ho]
    · have hd : vlanDefaulted c out = out := by
        unfold vlanDefaulted
        rw [if_neg (fun hh => hn hh.1)]
      rw [hd, if_neg (fun hh => hh.1 ho)]
  · rw [vlanDefaulted_of_ne c out ho]
    have hmiss : ¬ (out ≠ "" ∧ vlanMissing c out = true) := by
      intro hh
      by_cases hc : vlanDefaulted c vlan ≠ "" ∧ vlanMissing c (vlanDefaulted c vlan) = true
      · rw [if_pos hc] at hout
        exact ho hout
      · rw [if_neg hc] at hout
        rw [← hout] at hc
        exact hc hh
    rw [if_neg hmiss]

/-- The closed form is a fixed point of itself, under the two conditions of the
idempotence theorem. -/
theorem formattedSpec_idem (c : Controller) (name : String) (spec : SubnetSpec)
    (ipNet gw : String)
    (hkeep : ∀ xs, gw ∈ c.ExpandExcludeIPs (xs ++ [gw]) ipNet)
    (hvlan : c.config.NetworkType = NetworkTypeVlan →
      (formattedSpec c name spec ipNet gw).Vlan = "" → c.config.DefaultVlanName ≠ "" →
      vlanMissing c c.config.DefaultVlanName = true) :
    formattedSpec c name (formattedSpec c name spec ipNet gw) ipNet gw =
      formattedSpec c name spec ipNet gw := by
  have hmem := formattedSpec_gateway_mem c name spec ipNet gw hkeep
  have hany := any_beq_of_mem _ _ hmem
  have hne : (formattedSpec c name spec ipNet gw).ExcludeIps.length ≠ 0 := by
    simp only [formattedSpec]
    split
    · simp
    · split
      · assumption
      · simp
  have hex : (formattedSpec c name (formattedSpec c name spec ipNet gw) ipNet gw).ExcludeIps =
      (formattedSpec c name spec ipNet gw).ExcludeIps := by
    conv_lhs => simp only [formattedSpec]
    rw [if_neg (by simpa [formattedSpec] using hne)]
    rw [if_pos (by simpa [formattedSpec] using hany)]
    simp only [formattedSpec]
  have hvl : (formattedSpec c name (formattedSpec c name spec ipNet gw) ipNet gw).Vlan =
      (formattedSpec c name spec ipNet gw).Vlan :=
    formattedVlan_idem c spec.Vlan (formattedSpec c name spec ipNet gw).Vlan rfl hvlan
  apply SubnetSpec.eq_of_fields
  · simp only [formattedSpec]
    split_ifs <;> simp_all
  · rfl
  · rfl
  · rfl
  · rfl
  · exact hex
  · simp only [formattedSpec]
    split_ifs <;> simp_all [OvnProvider]
  · simp only [formattedSpec]
    split_ifs <;> simp_all [GWDistributedType]
  · rfl
  · rfl
  · rfl
  · rfl
  · exact hvl
  · rfl
  · conv_lhs => simp only [formattedSpec]
    rw [if_neg (by simpa [formattedSpec] using hne)]
    rw [if_pos (by simpa [formattedSpec] using hany)]
    simp only [formattedSpec]
  · rfl

/-- C1, as the code has it: when `formatSubnet` returns without error, the exclude
list it leaves is `[gateway]` if the list was empty, and otherwise the old list, with the
gateway appended exactly when the expansion of the old list did not hold it; and where
the gateway lies in the resulting block (`util.CIDRContainIP`), the gateway is in the
expansion of the list it leaves, `ExpandExcludeIPs` (whose code is not at hand) keeping
every listed address of the block. -/
theorem formatSubnet_gateway_in_excludeIps (c : Controller) (subnet out : Subnet)
    (h : (formatSubnet c subnet).res = .ok out) :
    ((∀ xs ip, ip ∈ xs → c.CIDRContainIP out.Spec.CIDRBlock ip = true →
        ip ∈ c.ExpandExcludeIPs xs out.Spec.CIDRBlock) →
      c.CIDRContainIP out.Spec.CIDRBlock out.Spec.Gateway = true →
      out.Spec.Gateway ∈ c.ExpandExcludeIPs out.Spec.ExcludeIps out.Spec.CIDRBlock) ∧
    (subnet.Spec.ExcludeIps = [] → out.Spec.ExcludeIps = [out.Spec.Gateway]) ∧
    (subnet.Spec.ExcludeIps ≠ [] →
      (out.Spec.Gateway ∈ c.ExpandExcludeIPs subnet.Spec.ExcludeIps out.Spec.CIDRBlock →
        out.Spec.ExcludeIps = subnet.Spec.ExcludeIps) ∧
      (out.Spec.Gateway ∉ c.ExpandExcludeIPs subnet.Spec.ExcludeIps out.Spec.CIDRBlock →
        out.Spec.ExcludeIps = subnet.Spec.ExcludeIps ++ [out.Spec.Gateway])) := by
  obtain ⟨changed, hf⟩ := formatSubnet_res_ok c subnet out h
  obtain ⟨ipNet, gw, -, -, hout⟩ := formatSubnetFields_ok c subnet _ hf
  simp only at hout
  subst hout
  refine ⟨?_, ?_, ?_⟩
  · intro hexp hin
    exact formattedSpec_gateway_mem c subnet.Name subnet.Spec ipNet gw
      (fun xs => hexp (xs ++ [gw]) gw (by simp) hin)
  · intro he
    simp [formattedSpec, he]
  · intro he
    have hlen : ¬ subnet.Spec.ExcludeIps.length = 0 := by
      simpa [List.length_eq_zero] using he
    constructor
    · intro hm
      have := any_beq_of_mem _ _ hm
      simp only [formattedSpec] at this ⊢
      rw [if_neg hlen, if_pos this]
    · intro hm
      have hany : ¬ (c.ExpandExcludeIPs subnet.Spec.ExcludeIps ipNet).any
          (fun ip => ip == gw) = true := fun ha => hm (mem_of_any_beq _ _ ha)
      simp only [formattedSpec]
      rw [if_neg hlen, if_neg hany]

/-- The sample subnet under the expansion that drops the addresses outside the block:
created with an empty exclude list and no gateway, it ends with `[10.16.0.1]`, the first
address of the block, which the expansion keeps. -/
theorem formatSubnet_gateway_in_excludeIps_witness :
    (formatSubnet filteringController sampleSubnet).res = .ok sampleFormatted ∧
    sampleFormatted.Spec.Gateway ∈ filteringController.ExpandExcludeIPs
      sampleFormatted.Spec.ExcludeIps sampleFormatted.Spec.CIDRBlock ∧
    sampleFormatted.Spec.ExcludeIps = [sampleFormatted.Spec.Gateway] :=
  ⟨by decide,
   (formatSubnet_gateway_in_excludeIps filteringController sampleSubnet sampleFormatted
      (by decide)).1
      (fun xs ip hm hc => by
        simp only [filteringController, List.mem_filter]
        exact ⟨hm, hc⟩)
      (by decide),
   (formatSubnet_gateway_in_excludeIps filteringController sampleSubnet sampleFormatted
      (by decide)).2.1 (by decide)⟩

/-- C1 as stated fails: a subnet created with the gateway `192.168.0.1` on the block
`10.16.0.0/16` passes `formatSubnet`, which checks no gateway against the block; the
exclude list becomes `[192.168.0.1]`, and an expansion that keeps only the addresses of
the block leaves nothing of it, so the gateway is not in the expansion. -/
theorem formatSubnet_gateway_outside_block :
    (formatSubnet filteringController outsideGatewaySubnet).res = .ok outsideGatewayFormatted ∧
    outsideGatewayFormatted.Spec.Gateway = "192.168.0.1" ∧
    outsideGatewayFormatted.Spec.ExcludeIps = ["192.168.0.1"] ∧
    filteringController.ExpandExcludeIPs outsideGatewayFormatted.Spec.ExcludeIps
      outsideGatewayFormatted.Spec.CIDRBlock = [] ∧
    outsideGatewayFormatted.Spec.Gateway ∉ filteringController.ExpandExcludeIPs
      outsideGatewayFormatted.Spec.ExcludeIps outsideGatewayFormatted.Spec.CIDRBlock := by
  decide

/-- C2, as the code has it: applying `formatSubnet` to its own output leaves the
subnet, every spec field included, as the first application left it (and fails only if
the second `Update` fails), provided the canonical CIDR text parses to itself, the
expansion of the exclude list keeps the gateway when it stands last, and the first
application did not end with an empty vlan on a vlan network whose configured default
vlan resolves. -/
theorem formatSubnet_idempotent (c : Controller) (subnet once : Subnet)
    (h : (formatSubnet c subnet).res = .ok once)
    (hcanon : c.ParseCIDR once.Spec.CIDRBlock = .ok once.Spec.CIDRBlock)
    (hkeep : ∀ xs, once.Spec.Gateway ∈
      c.ExpandExcludeIPs (xs ++ [once.Spec.Gateway]) once.Spec.CIDRBlock)
    (hvlan : c.config.NetworkType = NetworkTypeVlan → once.Spec.Vlan = "" →
      c.config.DefaultVlanName ≠ "" → ∀ v, c.vlansGet c.config.DefaultVlanName ≠ .ok v) :
    (∃ changed, formatSubnetFields c once = .ok (once, changed)) ∧
    (∀ twice, (formatSubnet c once).res = .ok twice → twice = once) ∧
    ((formatSubnet c once).res = .ok once ∨
      ∃ e, c.subnetsUpdate once = .error e ∧ (formatSubnet c once).res = .error e) := by
  obtain ⟨changed, hf⟩ := formatSubnet_res_ok c subnet once h
  obtain ⟨ipNet, gw, hparse, hgw, hout⟩ := formatSubnetFields_ok c subnet _ hf
  simp only at hout
  have hc : once.Spec.CIDRBlock = ipNet := by rw [hout]; rfl
  have hg : once.Spec.Gateway = gw := by rw [hout]; rfl
  have hname : once.Name = subnet.Name := by rw [hout]
  have hspec : once.Spec = formattedSpec c subnet.Name subnet.Spec ipNet gw := by rw [hout]
  -- the second application succeeds on the fields
  have hfirst : once.Spec.Gateway = "" → ∃ g, c.FirstSubnetIP once.Spec.CIDRBlock = .ok g := by
    intro h0
    rcases hgw with ⟨-, hF⟩ | ⟨hne, hgeq⟩
    · exact ⟨gw, hc ▸ hF⟩
    · exact absurd (hgeq ▸ hg ▸ h0) hne
  obtain ⟨p2, hp2⟩ := formatSubnetFields_isOk c once once.Spec.CIDRBlock hcanon hfirst
  obtain ⟨ipNet2, gw2, hparse2, hgw2, hout2⟩ := formatSubnetFields_ok c once _ hp2
  have hi : ipNet2 = ipNet := by
    rw [hcanon] at hparse2
    cases hparse2
    exact hc
  have hg2 : gw2 = gw := by
    rcases hgw2 with ⟨h0, hF2⟩ | ⟨-, hgeq2⟩
    · rcases hgw with ⟨-, hF⟩ | ⟨hne, hgeq⟩
      · rw [hi, hF] at hF2
        cases hF2
        rfl
      · exact absurd (hgeq ▸ hg ▸ h0) hne
    · rw [hgeq2, hg]
  have hmiss : c.config.NetworkType = NetworkTypeVlan →
      (formattedSpec c subnet.Name subnet.Spec ipNet gw).Vlan = "" →
      c.config.DefaultVlanName ≠ "" → vlanMissing c c.config.DefaultVlanName = true := by
    intro hn hv hd
    have := hvlan hn (hspec ▸ hv) hd
    unfold vlanMissing
    split
    · rfl
    · rename_i v hv2
      exact absurd hv2 (this v)
  have hidem := formattedSpec_idem c subnet.Name subnet.Spec ipNet gw
    (fun xs => by have := hkeep xs; rw [hg, hc] at this; exact this) hmiss
  have hp2eq : p2.1 = once := by
    rw [hout2, hi, hg2, hname, hspec, hidem, hout]
  have hfields : formatSubnetFields c once = .ok (once, p2.2) := by
    rw [hp2, ← hp2eq]
  refine ⟨⟨p2.2, hfields⟩, ?_, ?_⟩
  · intro twice ht
    obtain ⟨ch, hf2⟩ := formatSubnet_res_ok c once twice ht
    rw [hfields] at hf2
    cases hf2
    rfl
  · exact formatSubnet_of_fields c once (once, p2.2) hfields

/-- The sample subnet: a second `formatSubnet` hands back what the first one left. -/
theorem formatSubnet_idempotent_witness :
    (formatSubnet sampleController sampleSubnet).res = .ok sampleFormatted ∧
    (formatSubnet sampleController sampleFormatted).res = .ok sampleFormatted :=
  ⟨by decide,
   ((formatSubnet_idempotent sampleController sampleSubnet sampleFormatted (by decide)
      (by decide) (fun xs => by simp [sampleController])
      (fun hn => absurd hn (by decide))).2.2).elim id
        (fun ⟨_, hu, _⟩ => by simp [sampleController] at hu)⟩

/-- C2 fails as stated: on a vlan network whose default vlan `ovn-vlan` exists, a subnet
that names the missing vlan `gone` has its vlan cleared by the first application and set
to `ovn-vlan` by the second. -/
theorem formatSubnet_not_idempotent :
    (formatSubnet vlanController danglingVlanSubnet).res =
      .ok { danglingVlanSubnet with Spec := { danglingVlanSubnet.Spec with Vlan := "" } } ∧
    (formatSubnet vlanController
        { danglingVlanSubnet with Spec := { danglingVlanSubnet.Spec with Vlan := "" } }).res =
      .ok { danglingVlanSubnet with Spec := { danglingVlanSubnet.Spec with Vlan := "ovn-vlan" } } := by
  decide

/-! ## `calcSubnetStatusIP` -/

/-- The run of `calcSubnetStatusIP` once the CIDR has parsed and the IP objects are listed. -/
theorem calcSubnetStatusIP_eq (c : Controller) (subnet : Subnet) (cidr : String) (L : List IP)
    (hparse : c.ParseCIDR subnet.Spec.CIDRBlock = .ok cidr)
    (hlist : c.ipsList (subnet.Name ++ "=") = .ok L) :
    calcSubnetStatusIP c subnet =
      match c.marshalErr (countedStatus c subnet cidr L) with
      | some e => ⟨[.ipsList (subnet.Name ++ "=")], .error e⟩
      | none =>
        ⟨[.ipsList (subnet.Name ++ "="),
          .subnetsPatch subnet.Name (countedStatus c subnet cidr L)],
         match c.subnetsPatch subnet.Name (countedStatus c subnet cidr L) with
         | .error e => .error e
         | .ok _ => .ok { subnet with Status := countedStatus c subnet cidr L }⟩ := by
  unfold calcSubnetStatusIP
  rw [hparse]
  cases hm : c.marshalErr (countedStatus c subnet cidr L) with
  | some e =>
    simp only [countedStatus] at hm
    simp [Run.bind, hlist, Bytes, hm]
  | none =>
    cases hp : c.subnetsPatch subnet.Name (countedStatus c subnet cidr L) with
    | error e =>
      simp only [countedStatus] at hm hp
      simp [Run.bind, hlist, Bytes, hm, hp, countedStatus]
    | ok a =>
      simp only [countedStatus] at hm hp
      simp [Run.bind, hlist, Bytes, hm, hp, countedStatus]

theorem roundFloat64_of_le (n : Nat) (h : n ≤ 2 ^ 53) : roundFloat64 n = n := by
  by_cases hlt : n < 2 ^ 53
  · unfold roundFloat64
    rw [if_pos hlt]
  · have hn : n = 2 ^ 53 := by omega
    subst hn
    decide

/-- An integer of absolute value at most `2^53` is a `float64`. -/
theorem toFloat64_of_le (x : Int) (h : x.natAbs ≤ 2 ^ 53) : toFloat64 x = x := by
  cases x with
  | ofNat n =>
    have hn : n ≤ 2 ^ 53 := by simpa using h
    simp only [toFloat64, roundFloat64_of_le n hn]
    rfl
  | negSucc n =>
    have hn : n + 1 ≤ 2 ^ 53 := by simpa [Int.natAbs] using h
    simp only [toFloat64, roundFloat64_of_le (n + 1) hn]
    rfl

theorem countedStatus_available (c : Controller) (subnet : Subnet) (cidr : String)
    (L : List IP)
    (hcount : (c.AddressCount cidr).natAbs ≤ 2 ^ 53)
    (hdistinct : (c.ExpandExcludeIPs subnet.Spec.ExcludeIps subnet.Spec.CIDRBlock ++
        L.map (fun ip => ip.Spec.IPAddress)).toFinset.card ≤ 2 ^ 53)
    (hdiff : (c.AddressCount cidr -
        (((c.ExpandExcludeIPs subnet.Spec.ExcludeIps subnet.Spec.CIDRBlock ++
          L.map (fun ip => ip.Spec.IPAddress)).toFinset.card : Nat) : Int)).natAbs ≤ 2 ^ 53) :
    (countedStatus c subnet cidr L).AvailableIPs +
      (((c.ExpandExcludeIPs subnet.Spec.ExcludeIps subnet.Spec.CIDRBlock ++
        L.map (fun ip => ip.Spec.IPAddress)).toFinset.card : Nat) : Int) =
      c.AddressCount cidr := by
  rw [List.card_toFinset] at hdistinct hdiff ⊢
  have hlen : (UniqString (c.ExpandExcludeIPs subnet.Spec.ExcludeIps subnet.Spec.CIDRBlock ++
      L.map (fun ip => ip.Spec.IPAddress))).length =
      (c.ExpandExcludeIPs subnet.Spec.ExcludeIps subnet.Spec.CIDRBlock ++
        L.map (fun ip => ip.Spec.IPAddress)).dedup.length := by
    simp [UniqString]
  simp only [countedStatus, subFloat64, hlen]
  rw [toFloat64_of_le _ hcount, toFloat64_of_le (((_ : Nat) : Int)) (by simpa using hdistinct),
    toFloat64_of_le _ hdiff]
  omega

/-- C3, as the code has it: with a CIDR that parses and a list `L` of IP objects returned
for the subnet, and with `AddressCount(CIDR)`, the number of distinct addresses, their
difference and `|L|` all at most `2^53` in absolute value (where `float64` is exact),
every status document that `calcSubnetStatusIP` patches satisfies
`availableIPs + |distinct(ExpandExcludeIPs(excludeIps, CIDR) ++ addresses of L)| =
AddressCount(CIDR)` and `usingIPs = |L|`; the subnet carries the same counters afterwards;
and the patch is sent whenever the status serialises. -/
theorem calcSubnetStatusIP_counters (c : Controller) (subnet : Subnet) (cidr : String)
    (L : List IP)
    (hparse : c.ParseCIDR subnet.Spec.CIDRBlock = .ok cidr)
    (hlist : c.ipsList (subnet.Name ++ "=") = .ok L)
    (hcount : (c.AddressCount cidr).natAbs ≤ 2 ^ 53)
    (hdistinct : (c.ExpandExcludeIPs subnet.Spec.ExcludeIps subnet.Spec.CIDRBlock ++
        L.map (fun ip => ip.Spec.IPAddress)).toFinset.card ≤ 2 ^ 53)
    (hdiff : (c.AddressCount cidr -
        (((c.ExpandExcludeIPs subnet.Spec.ExcludeIps subnet.Spec.CIDRBlock ++
          L.map (fun ip => ip.Spec.IPAddress)).toFinset.card : Nat) : Int)).natAbs ≤ 2 ^ 53)
    (husing : L.length ≤ 2 ^ 53) :
    (∀ name doc, Call.subnetsPatch name doc ∈ (calcSubnetStatusIP c subnet).calls →
      name = subnet.Name ∧
      doc.AvailableIPs +
        (((c.ExpandExcludeIPs subnet.Spec.ExcludeIps subnet.Spec.CIDRBlock ++
          L.map (fun ip => ip.Spec.IPAddress)).toFinset.card : Nat) : Int) =
        c.AddressCount cidr ∧
      doc.UsingIPs = (L.length : Int)) ∧
    (∀ out, (calcSubnetStatusIP c subnet).res = .ok out →
      out.Status.AvailableIPs +
        (((c.ExpandExcludeIPs subnet.Spec.ExcludeIps subnet.Spec.CIDRBlock ++
          L.map (fun ip => ip.Spec.IPAddress)).toFinset.card : Nat) : Int) =
        c.AddressCount cidr ∧
      out.Status.UsingIPs = (L.length : Int) ∧
      out.Spec = subnet.Spec ∧ out.Name = subnet.Name) ∧
    ((∀ m, c.marshalErr m = none) →
      ∃ doc, (calcSubnetStatusIP c subnet).calls =
        [.ipsList (subnet.Name ++ "="), .subnetsPatch subnet.Name doc]) := by
  rw [calcSubnetStatusIP_eq c subnet cidr L hparse hlist]
  have hav := countedStatus_available c subnet cidr L hcount hdistinct hdiff
  have hus : (countedStatus c subnet cidr L).UsingIPs = (L.length : Int) := by
    simp only [countedStatus]
    exact toFloat64_of_le _ (by simpa using husing)
  refine ⟨?_, ?_, ?_⟩
  · intro name doc hmem
    cases hm : c.marshalErr (countedStatus c subnet cidr L) with
    | some e => simp [hm] at hmem
    | none =>
      simp [hm] at hmem
      obtain ⟨rfl, rfl⟩ := hmem
      exact ⟨rfl, hav, hus⟩
  · intro out hout
    cases hm : c.marshalErr (countedStatus c subnet cidr L) with
    | some e => simp [hm] at hout
    | none =>
      simp only [hm] at hout
      cases hp : c.subnetsPatch subnet.Name (countedStatus c subnet cidr L) with
      | error e => simp [hp] at hout
      | ok a =>
        simp [hp] at hout
        subst hout
        exact ⟨hav, hus, rfl, rfl⟩
  · intro hm
    simp only [hm]
    exact ⟨_, rfl⟩

/-- The sample subnet: 65534 addresses, the gateway excluded, no IP object: 65533 available,
0 in use. -/
theorem calcSubnetStatusIP_counters_witness :
    (calcSubnetStatusIP sampleController sampleFormatted).calls =
      [.ipsList "s1=", .subnetsPatch "s1"
        { Conditions := [], AvailableIPs := 65533, UsingIPs := 0, ActivateGateway := "" }] ∧
    ((65533 : Int) + ((["10.16.0.1"] : List String).toFinset.card : Nat) = 65534 ∧
      (0 : Int) = (([] : List IP).length : Int)) :=
  ⟨by decide,
   by
    have h := (calcSubnetStatusIP_counters sampleController sampleFormatted "10.16.0.0/16" []
      (by decide) (by decide) (by decide) (by decide) (by decide) (by decide)).1 "s1"
      { Conditions := [], AvailableIPs := 65533, UsingIPs := 0, ActivateGateway := "" }
      (by decide)
    exact ⟨h.2.1, h.2.2⟩⟩

/-- C3 fails as stated: on an IPv6 block of prefix /64, whose address count `2^64 - 2` is
the `float64` `2^64`, with the one excluded address `fd00::1` and no IP object,
`calcSubnetStatusIP` patches `availableIPs = 2^64` (the difference `2^64 - 1` is not a
`float64` and rounds to `2^64`), so `availableIPs + 1` is not the address count. -/
theorem calcSubnetStatusIP_rounds :
    wideController.ParseCIDR wideSubnet.Spec.CIDRBlock = .ok "fd00::/64" ∧
    wideController.ipsList "wide=" = .ok [] ∧
    wideController.AddressCount "fd00::/64" = 18446744073709551614 ∧
    (wideController.ExpandExcludeIPs wideSubnet.Spec.ExcludeIps
        wideSubnet.Spec.CIDRBlock).toFinset.card = 1 ∧
    (calcSubnetStatusIP wideController wideSubnet).calls =
      [.ipsList "wide=", .subnetsPatch "wide"
        { Conditions := [], AvailableIPs := 18446744073709551616, UsingIPs := 0,
          ActivateGateway := "" }] ∧
    (18446744073709551616 : Int) + 1 ≠ 18446744073709551614 ∧
    (18446744073709551616 : Int) + 1 ≠ toFloat64 18446744073709551614 := by
  decide

/-! ## `handleSubnetFinalizer` -/

theorem ContainsString_iff (slice : List String) (s : String) :
    ContainsString slice s = true ↔ s ∈ slice := by
  simp [ContainsString]

theorem not_mem_RemoveString (slice : List String) (s : String) :
    s ∉ RemoveString slice s := by
  simp [RemoveString]

/-- The three branches of `handleSubnetFinalizer`. -/
theorem handleSubnetFinalizer_eq (c : Controller) (subnet : Subnet) :
    handleSubnetFinalizer c subnet =
      if IsZero subnet.DeletionTimestamp = true ∧ ControllerName ∉ subnet.Finalizers then
        ⟨[.subnetsUpdate { subnet with Finalizers := subnet.Finalizers ++ [ControllerName] }],
         match c.subnetsUpdate
            { subnet with Finalizers := subnet.Finalizers ++ [ControllerName] } with
         | .error e => .error e
         | .ok _ =>
           .ok ({ subnet with Finalizers := subnet.Finalizers ++ [ControllerName] }, false)⟩
      else if IsZero subnet.DeletionTimestamp = false ∧ subnet.Status.UsingIPs = 0 then
        ⟨[.subnetsUpdate
            { subnet with Finalizers := RemoveString subnet.Finalizers ControllerName }],
         match c.subnetsUpdate
            { subnet with Finalizers := RemoveString subnet.Finalizers ControllerName } with
         | .error e => .error e
         | .ok _ =>
           .ok ({ subnet with Finalizers := RemoveString subnet.Finalizers ControllerName },
             true)⟩
      else ⟨[], .ok (subnet, false)⟩ := by
  unfold handleSubnetFinalizer
  by_cases h1 : IsZero subnet.DeletionTimestamp = true ∧ ControllerName ∉ subnet.Finalizers
  · rw [if_pos h1, if_pos (by simp [h1.1, ContainsString, h1.2])]
    cases hu : c.subnetsUpdate
        { subnet with Finalizers := subnet.Finalizers ++ [ControllerName] } with
    | error e => simp [Run.bind, hu]
    | ok a => simp [Run.bind, hu]
  · rw [if_neg h1, if_neg (by simpa [ContainsString, not_and] using h1)]
    by_cases h2 : IsZero subnet.DeletionTimestamp = false ∧ subnet.Status.UsingIPs = 0
    · rw [if_pos h2, if_pos (by simp [h2.1, h2.2])]
      cases hu : c.subnetsUpdate
          { subnet with Finalizers := RemoveString subnet.Finalizers ControllerName } with
      | error e => simp [Run.bind, hu]
      | ok a => simp [Run.bind, hu]
    · rw [if_neg h2, if_neg (by simpa [not_and] using h2)]
      rfl

/-- C6: when `handleSubnetFinalizer` returns without error, then with a zero deletion
timestamp the finalizer list afterwards holds the controller finalizer and the answer is
`deleted = false`; with a deletion timestamp set and `usingIPs = 0` the controller
finalizer is gone from the list (the other entries stay, in order) and the answer is
`deleted = true`; with a deletion timestamp set and `usingIPs ≠ 0` the finalizer list is
unchanged, no call at all (so no `Update`) is made and the answer is `deleted = false`.
Nothing but the finalizer list of the subnet changes. -/
theorem handleSubnetFinalizer_cases (c : Controller) (subnet out : Subnet) (deleted : Bool)
    (h : (handleSubnetFinalizer c subnet).res = .ok (out, deleted)) :
    (IsZero subnet.DeletionTimestamp = true →
      ControllerName ∈ out.Finalizers ∧ deleted = false) ∧
    (IsZero subnet.DeletionTimestamp = false → subnet.Status.UsingIPs = 0 →
      ControllerName ∉ out.Finalizers ∧
      out.Finalizers = subnet.Finalizers.filter (fun item => item != ControllerName) ∧
      deleted = true) ∧
    (IsZero subnet.DeletionTimestamp = false → subnet.Status.UsingIPs ≠ 0 →
      out.Finalizers = subnet.Finalizers ∧ (handleSubnetFinalizer c subnet).calls = [] ∧
      deleted = false) ∧
    out = { subnet with Finalizers := out.Finalizers } := by
  rw [handleSubnetFinalizer_eq] at h ⊢
  by_cases h1 : IsZero subnet.DeletionTimestamp = true ∧ ControllerName ∉ subnet.Finalizers
  · rw [if_pos h1] at h ⊢
    cases hu : c.subnetsUpdate
        { subnet with Finalizers := subnet.Finalizers ++ [ControllerName] } with
    | error e => simp [hu] at h
    | ok a =>
      simp only [hu, Result.ok.injEq, Prod.mk.injEq] at h
      obtain ⟨rfl, rfl⟩ := h
      refine ⟨fun _ => ⟨by simp, rfl⟩, fun hz => ?_, fun hz => ?_, rfl⟩
      · simp [h1.1] at hz
      · simp [h1.1] at hz
  · rw [if_neg h1] at h ⊢
    by_cases h2 : IsZero subnet.DeletionTimestamp = false ∧ subnet.Status.UsingIPs = 0
    · rw [if_pos h2] at h ⊢
      cases hu : c.subnetsUpdate
          { subnet with Finalizers := RemoveString subnet.Finalizers ControllerName } with
      | error e => simp [hu] at h
      | ok a =>
        simp only [hu, Result.ok.injEq, Prod.mk.injEq] at h
        obtain ⟨rfl, rfl⟩ := h
        refine ⟨fun hz => ?_, fun _ _ => ⟨not_mem_RemoveString _ _, rfl, rfl⟩,
          fun _ hu0 => absurd h2.2 hu0, rfl⟩
        simp [h2.1] at hz
    · rw [if_neg h2] at h ⊢
      simp only [Result.ok.injEq, Prod.mk.injEq] at h
      obtain ⟨rfl, rfl⟩ := h
      refine ⟨fun hz => ⟨?_, rfl⟩, fun hz hu0 => absurd ⟨hz, hu0⟩ h2,
        fun _ _ => ⟨rfl, rfl, rfl⟩, rfl⟩
      by_contra hnot
      exact h1 ⟨hz, hnot⟩

/-- A new subnet gains the finalizer; a subnet under deletion that is still in use is left
alone and nothing is called. -/
theorem handleSubnetFinalizer_cases_witness :
    (handleSubnetFinalizer sampleController newSubnet).res =
      .ok ({ newSubnet with Finalizers := [ControllerName] }, false) ∧
    ControllerName ∈ ({ newSubnet with Finalizers := [ControllerName] } : Subnet).Finalizers ∧
    (handleSubnetFinalizer sampleController busyDeletedSubnet).res =
      .ok (busyDeletedSubnet, false) ∧
    (handleSubnetFinalizer sampleController busyDeletedSubnet).calls = [] :=
  ⟨by decide,
   ((handleSubnetFinalizer_cases sampleController newSubnet
      { newSubnet with Finalizers := [ControllerName] } false (by decide)).1 (by decide)).1,
   by decide,
   ((handleSubnetFinalizer_cases sampleController busyDeletedSubnet busyDeletedSubnet false
      (by decide)).2.2.1 (by decide) (by decide)).2.1⟩

/-! ## `handleAddOrUpdateSubnet`: the finalizer step -/

/-- C5, as the code has it: for a subnet with a zero deletion timestamp and no controller
finalizer, one invocation of `handleAddOrUpdateSubnet` first sends the `Update` that
carries the appended finalizer; if that `Update` fails the invocation returns its error
and nothing else is called; if it succeeds the same invocation goes on with all the
later steps (`formatSubnet`, the counter patch, IPAM, validation, OVN), run on the subnet
that now carries the finalizer. -/
theorem handleAddOrUpdateSubnet_finalizer_absent (c : Controller) (key : String)
    (subnet : Subnet) (hget : c.subnetsGet key = .ok subnet)
    (hz : IsZero subnet.DeletionTimestamp = true)
    (hf : ControllerName ∉ subnet.Finalizers) :
    (∀ e, c.subnetsUpdate { subnet with Finalizers := subnet.Finalizers ++ [ControllerName] }
        = .error e →
      handleAddOrUpdateSubnet c key =
        ⟨[.subnetsUpdate { subnet with Finalizers := subnet.Finalizers ++ [ControllerName] }],
         .error e⟩) ∧
    (∀ u, c.subnetsUpdate { subnet with Finalizers := subnet.Finalizers ++ [ControllerName] }
        = .ok u →
      handleAddOrUpdateSubnet c key =
        ⟨.subnetsUpdate { subnet with Finalizers := subnet.Finalizers ++ [ControllerName] } ::
          (afterFinalizer c
            { subnet with Finalizers := subnet.Finalizers ++ [ControllerName] }).calls,
         (afterFinalizer c
            { subnet with Finalizers := subnet.Finalizers ++ [ControllerName] }).res⟩) := by
  unfold handleAddOrUpdateSubnet
  rw [hget]
  simp only [handleSubnetFinalizer_eq, if_pos (And.intro hz hf)]
  constructor
  · intro e he
    simp [Run.bind, he]
  · intro u hu
    simp [Run.bind, hu]

/-- The new subnet of the sample cluster: the finalizer `Update` succeeds and the later
steps follow in the same run. -/
theorem handleAddOrUpdateSubnet_finalizer_absent_witness :
    handleAddOrUpdateSubnet newSubnetController "s1" =
      ⟨.subnetsUpdate sampleSubnet :: (afterFinalizer newSubnetController sampleSubnet).calls,
       (afterFinalizer newSubnetController sampleSubnet).res⟩ :=
  (handleAddOrUpdateSubnet_finalizer_absent newSubnetController "s1" newSubnet
    (by decide) (by decide) (by decide)).2 sampleSubnet (by decide)

/-- C5 fails as stated: in the sample cluster, one invocation on a subnet that has no
finalizer yet sends the finalizer `Update` and then, in the same invocation, normalizes
the spec, patches the counters, updates IPAM and programs OVN. -/
theorem handleAddOrUpdateSubnet_continues_after_finalizer :
    IsZero newSubnet.DeletionTimestamp = true ∧
    ControllerName ∉ newSubnet.Finalizers ∧
    handleAddOrUpdateSubnet newSubnetController "s1" = ⟨newSubnetTrace, .ok ()⟩ := by
  decide

/-! ## Conditions -/

theorem setCondition_eq_of_type (m : SubnetStatus) (t : ConditionType) (status : Bool)
    (reason message : String) (cond : SubnetCondition)
    (hmem : cond ∈ (m.setCondition t status reason message).Conditions)
    (ht : cond.CondType = t) : cond = ⟨t, status, reason, message⟩ := by
  unfold SubnetStatus.setCondition at hmem
  split at hmem
  · simp only [List.mem_map] at hmem
    obtain ⟨c0, -, hc0⟩ := hmem
    by_cases h0 : c0.CondType = t
    · rw [if_pos h0] at hc0
      exact hc0.symm
    · rw [if_neg h0] at hc0
      exact absurd (hc0 ▸ ht) h0
  · rename_i hany
    simp only [List.mem_append, List.mem_singleton] at hmem
    rcases hmem with hm | hm
    · exfalso
      apply hany
      rw [List.any_eq_true]
      exact ⟨cond, hm, by simp [ht]⟩
    · exact hm

theorem setCondition_mem (m : SubnetStatus) (t : ConditionType) (status : Bool)
    (reason message : String) :
    (⟨t, status, reason, message⟩ : SubnetCondition) ∈
      (m.setCondition t status reason message).Conditions := by
  unfold SubnetStatus.setCondition
  split
  · rename_i hany
    rw [List.any_eq_true] at hany
    obtain ⟨c0, hc0, ht⟩ := hany
    simp only [List.mem_map]
    refine ⟨c0, hc0, ?_⟩
    have : c0.CondType = t := by simpa using ht
    rw [if_pos this]
  · simp

theorem setCondition_other (m : SubnetStatus) (t : ConditionType) (status : Bool)
    (reason message : String) (cond : SubnetCondition) (ht : cond.CondType ≠ t) :
    cond ∈ (m.setCondition t status reason message).Conditions ↔ cond ∈ m.Conditions := by
  unfold SubnetStatus.setCondition
  split
  · simp only [List.mem_map]
    constructor
    · rintro ⟨c0, hc0, hc⟩
      by_cases h0 : c0.CondType = t
      · rw [if_pos h0] at hc
        exact absurd (by rw [← hc]) ht
      · rw [if_neg h0] at hc
        exact hc ▸ hc0
    · intro hc
      exact ⟨cond, hc, by rw [if_neg ht]⟩
  · simp only [List.mem_append, List.mem_singleton]
    constructor
    · rintro (hc | hc)
      · exact hc
      · exact absurd (by rw [hc]) ht
    · intro hc
      exact Or.inl hc

theorem setCondition_carries (m : SubnetStatus) (t : ConditionType) (status : Bool)
    (reason message : String) :
    carries (m.setCondition t status reason message) t status reason := by
  refine ⟨⟨_, setCondition_mem m t status reason message, rfl⟩, ?_⟩
  intro cond hmem ht
  rw [setCondition_eq_of_type m t status reason message cond hmem ht]
  exact ⟨rfl, rfl⟩

theorem carries_setCondition_other (m : SubnetStatus) (t t2 : ConditionType)
    (status status2 : Bool) (reason reason2 message2 : String) (ht : t ≠ t2)
    (h : carries m t status reason) :
    carries (m.setCondition t2 status2 reason2 message2) t status reason := by
  obtain ⟨⟨cond, hmem, hct⟩, hall⟩ := h
  refine ⟨⟨cond, ?_, hct⟩, ?_⟩
  · exact (setCondition_other m t2 status2 reason2 message2 cond (hct ▸ ht)).mpr hmem
  · intro c2 hmem2 hct2
    exact hall c2 ((setCondition_other m t2 status2 reason2 message2 c2 (hct2 ▸ ht)).mp hmem2)
      hct2

/-- A failure patch leaves `Validated=false` with the reason it was given. -/
theorem statusAfterPatch_failed (m : SubnetStatus) (reason errStr : String)
    (h : errStr ≠ "") :
    carries (statusAfterPatch m reason errStr) .Validated false reason := by
  unfold statusAfterPatch
  rw [if_pos h]
  unfold SubnetStatus.NotReady
  apply carries_setCondition_other _ _ _ _ _ _ _ _ (by decide)
  unfold SubnetStatus.NotValidated
  exact setCondition_carries _ _ _ _ _

/-! ## `patchSubnetStatus` -/

/-- The run of `patchSubnetStatus` when the status serialises: an event on failure, then
one `Patch` that carries the status the subnet is left with. -/
theorem patchSubnetStatus_eq (c : Controller) (subnet : Subnet) (reason errStr : String)
    (hm : ∀ m, c.marshalErr m = none) :
    patchSubnetStatus c subnet reason errStr =
      ⟨(if errStr ≠ "" then [.eventf subnet.Name reason errStr] else []) ++
        [.subnetsPatch subnet.Name (statusAfterPatch subnet.Status reason errStr)],
       .ok { subnet with Status := statusAfterPatch subnet.Status reason errStr }⟩ := by
  unfold patchSubnetStatus statusAfterPatch
  by_cases he : errStr ≠ ""
  · simp [Run.bind, Run.andThen, Bytes, hm, he]
  · by_cases hr : reason = "SetPrivateLogicalSwitchSuccess" ∨
        reason = "ResetLogicalSwitchAclSuccess"
    · simp [Run.bind, Run.andThen, Bytes, hm, he, hr]
    · simp [Run.bind, Run.andThen, Bytes, hm, he, hr]

/-! ## `handleAddOrUpdateSubnet`: the conflict checks -/

theorem append_ne_empty (a b : String) (h : a ≠ "") : a ++ b ≠ "" := by
  intro h2
  apply h
  have h3 := congrArg String.data h2
  simp only [String.data_append, List.append_eq_nil] at h3
  exact String.ext h3.1

theorem handleSubnetFinalizer_calls (c : Controller) (subnet : Subnet) :
    ∀ k ∈ (handleSubnetFinalizer c subnet).calls,
      isLogicalSwitchCall k = false ∧ patchedStatuses [k] = [] := by
  rw [handleSubnetFinalizer_eq]
  intro k hk
  split at hk
  · simp only [List.mem_singleton] at hk
    subst hk
    exact ⟨rfl, rfl⟩
  · split at hk
    · simp only [List.mem_singleton] at hk
      subst hk
      exact ⟨rfl, rfl⟩
    · simp at hk

theorem formatSubnet_calls (c : Controller) (subnet : Subnet) :
    ∀ k ∈ (formatSubnet c subnet).calls, isLogicalSwitchCall k = false := by
  intro k hk
  unfold formatSubnet at hk
  split at hk
  · simp at hk
  · rename_i p hp
    split at hk
    · cases hu : c.subnetsUpdate p.1 with
      | error e =>
        simp [Run.bind, hu] at hk
        subst hk
        rfl
      | ok a =>
        simp [Run.bind, hu] at hk
        subst hk
        rfl
    · simp at hk

theorem calcSubnetStatusIP_calls (c : Controller) (subnet : Subnet) :
    ∀ k ∈ (calcSubnetStatusIP c subnet).calls, isLogicalSwitchCall k = false := by
  intro k hk
  cases hparse : c.ParseCIDR subnet.Spec.CIDRBlock with
  | error e =>
    unfold calcSubnetStatusIP at hk
    rw [hparse] at hk
    simp at hk
  | ok cidr =>
    cases hlist : c.ipsList (subnet.Name ++ "=") with
    | error e =>
      unfold calcSubnetStatusIP at hk
      rw [hparse] at hk
      simp [Run.bind, hlist] at hk
      subst hk
      rfl
    | ok L =>
      rw [calcSubnetStatusIP_eq c subnet cidr L hparse hlist] at hk
      split at hk
      · simp only [List.mem_singleton] at hk
        subst hk
        rfl
      · simp only [List.mem_cons, List.mem_singleton, List.not_mem_nil, or_false] at hk
        rcases hk with rfl | rfl <;> rfl

/-- The steps between the finalizer step and validation, once each has passed. -/
theorem afterFinalizer_eq (c : Controller) (s1 s2 s3 : Subnet)
    (hfmt : (formatSubnet c s1).res = .ok s2)
    (hcalc : (calcSubnetStatusIP c s2).res = .ok s3)
    (hipam : c.ipamAddOrUpdateSubnet s3.Name s3.Spec.CIDRBlock s3.Spec.ExcludeIps = none)
    (hovn : isOvnSubnet s3 = true) :
    afterFinalizer c s1 =
      ⟨(formatSubnet c s1).calls ++ ((calcSubnetStatusIP c s2).calls ++
        (.ipamAddOrUpdateSubnet s3.Name s3.Spec.CIDRBlock s3.Spec.ExcludeIps ::
          (validateAndReconcile c s3).calls)),
       (validateAndReconcile c s3).res⟩ := by
  unfold afterFinalizer
  rw [Run.bind_ok _ _ s2 hfmt]
  simp only [Run.bind_ok _ _ s3 hcalc]
  simp [Run.bind, hipam, ofErr, hovn]

/-- What validation and the conflict checks do when a conflict is found. -/
theorem validateAndReconcile_conflict (c : Controller) (subnet : Subnet)
    (subs : List Subnet) (nodes : List Node)
    (hval : c.ValidateSubnet subnet = none)
    (hm : ∀ m, c.marshalErr m = none)
    (hsubs : c.subnetsList = .ok subs)
    (hconf : (∃ sub ∈ subs, sub.Name ≠ subnet.Name ∧
        c.CIDRConflict sub.Spec.CIDRBlock subnet.Spec.CIDRBlock = true) ∨
      (c.nodesList = .ok nodes ∧ ∃ node ∈ nodes, ∃ addr ∈ node.Addresses,
        addr.AddrType = NodeInternalIP ∧
        c.CIDRContainIP subnet.Spec.CIDRBlock addr.Address = true)) :
    ∃ msg, msg ≠ "" ∧
      validateAndReconcile c subnet =
        ⟨[.subnetsPatch subnet.Name
            (statusAfterPatch subnet.Status "ValidateLogicalSwitchSuccess" ""),
          .eventf subnet.Name "ValidateLogicalSwitchFailed" msg,
          .subnetsPatch subnet.Name
            (statusAfterPatch (statusAfterPatch subnet.Status "ValidateLogicalSwitchSuccess" "")
              "ValidateLogicalSwitchFailed" msg)],
         .error (.failed msg)⟩ := by
  unfold validateAndReconcile
  rw [hval]
  simp only [patchSubnetStatus_eq c _ _ _ hm, Run.bind, hsubs]
  cases hcs : conflictSubnet c
      { subnet with Status := statusAfterPatch subnet.Status "ValidateLogicalSwitchSuccess" "" }
      subs with
  | some sub =>
    have hne : "subnet " ++ subnet.Name ++ " cidr " ++ subnet.Spec.CIDRBlock ++
        " conflict with subnet " ++ sub.Name ++ " cidr " ++ sub.Spec.CIDRBlock ≠ "" := by
      repeat apply append_ne_empty
      decide
    exact ⟨_, hne, by simp [Err.Error, hne]⟩
  | none =>
    have hno : ∀ sub ∈ subs, ¬ (sub.Name ≠ subnet.Name ∧
        c.CIDRConflict sub.Spec.CIDRBlock subnet.Spec.CIDRBlock = true) := by
      intro sub hsub
      have := (List.find?_eq_none.mp hcs) sub hsub
      simpa using this
    rcases hconf with ⟨sub, hsub, hc⟩ | ⟨hnodes, node, hnode, addr, haddr, hty, hin⟩
    · exact absurd hc (hno sub hsub)
    · simp only [hnodes]
      cases hcn : conflictNode c
          { subnet with Status :=
              statusAfterPatch subnet.Status "ValidateLogicalSwitchSuccess" "" } nodes with
      | none =>
        exfalso
        have h1 := (List.findSome?_eq_none_iff.mp hcn) node hnode
        simp only [Option.map_eq_none', List.find?_eq_none] at h1
        exact h1 addr haddr (by simp [hty, hin])
      | some na =>
        have hne : "subnet " ++ subnet.Name ++ " cidr " ++ subnet.Spec.CIDRBlock ++
            " conflict with node " ++ na.1.Name ++ " address " ++ na.2.Address ≠ "" := by
          repeat apply append_ne_empty
          decide
        exact ⟨_, hne, by simp [Err.Error, hne]⟩

theorem patchedStatuses_append (a b : List Call) :
    patchedStatuses (a ++ b) = patchedStatuses a ++ patchedStatuses b := by
  simp [patchedStatuses]

/-- C4: for an OVN-managed subnet that passes the finalizer step, normalization, the
counter refresh, the IPAM update and static validation, if another listed subnet (of a
different name) has a CIDR that `CIDRConflict` reports against the subnet's CIDR, or a
listed node has an `InternalIP` address that `CIDRContainIP` reports inside it, then
`handleAddOrUpdateSubnet` returns an error, the last status document it patches carries
`Validated=false` with reason `ValidateLogicalSwitchFailed`, and the trace holds no
`LogicalSwitchExists`, `CreateLogicalSwitch` or `SetLogicalSwitchConfig` call.  The
status is assumed to serialise (`Status.Bytes` answers no error). -/
theorem handleAddOrUpdateSubnet_conflict (c : Controller) (key : String)
    (s0 s1 s2 s3 : Subnet) (subs : List Subnet) (nodes : List Node)
    (hget : c.subnetsGet key = .ok s0)
    (hfin : (handleSubnetFinalizer c s0).res = .ok (s1, false))
    (hfmt : (formatSubnet c s1).res = .ok s2)
    (hcalc : (calcSubnetStatusIP c s2).res = .ok s3)
    (hipam : c.ipamAddOrUpdateSubnet s3.Name s3.Spec.CIDRBlock s3.Spec.ExcludeIps = none)
    (hovn : isOvnSubnet s3 = true)
    (hval : c.ValidateSubnet s3 = none)
    (hm : ∀ m, c.marshalErr m = none)
    (hsubs : c.subnetsList = .ok subs)
    (hconf : (∃ sub ∈ subs, sub.Name ≠ s3.Name ∧
        c.CIDRConflict sub.Spec.CIDRBlock s3.Spec.CIDRBlock = true) ∨
      (c.nodesList = .ok nodes ∧ ∃ node ∈ nodes, ∃ addr ∈ node.Addresses,
        addr.AddrType = NodeInternalIP ∧
        c.CIDRContainIP s3.Spec.CIDRBlock addr.Address = true)) :
    (∃ e, (handleAddOrUpdateSubnet c key).res = .error e) ∧
    (∃ doc, (patchedStatuses (handleAddOrUpdateSubnet c key).calls).getLast? = some doc ∧
      carries doc .Validated false "ValidateLogicalSwitchFailed") ∧
    (∀ k ∈ (handleAddOrUpdateSubnet c key).calls, isLogicalSwitchCall k = false) := by
  obtain ⟨msg, hmsg, hv⟩ := validateAndReconcile_conflict c s3 subs nodes hval hm hsubs hconf
  have hrun : handleAddOrUpdateSubnet c key =
      ⟨(handleSubnetFinalizer c s0).calls ++ ((formatSubnet c s1).calls ++
        ((calcSubnetStatusIP c s2).calls ++
          (.ipamAddOrUpdateSubnet s3.Name s3.Spec.CIDRBlock s3.Spec.ExcludeIps ::
            (validateAndReconcile c s3).calls))),
       (validateAndReconcile c s3).res⟩ := by
    unfold handleAddOrUpdateSubnet
    rw [hget]
    simp only [Run.bind_ok _ _ (s1, false) hfin]
    simp [afterFinalizer_eq c s1 s2 s3 hfmt hcalc hipam hovn]
  rw [hrun, hv]
  refine ⟨⟨_, rfl⟩,
    ⟨statusAfterPatch (statusAfterPatch s3.Status "ValidateLogicalSwitchSuccess" "")
      "ValidateLogicalSwitchFailed" msg, ?_, statusAfterPatch_failed _ _ msg hmsg⟩, ?_⟩
  · simp only [patchedStatuses_append]
    rw [show ∀ (a : Call) (l : List Call), a :: l = [a] ++ l from fun _ _ => rfl,
      patchedStatuses_append]
    simp [patchedStatuses]
  · intro k hk
    simp only [List.mem_append, List.mem_cons, List.mem_singleton, List.not_mem_nil,
      or_false] at hk
    rcases hk with hk | hk | hk | hk | hk | hk | hk
    · exact (handleSubnetFinalizer_calls c s0 k hk).1
    · exact formatSubnet_calls c s1 k hk
    · exact calcSubnetStatusIP_calls c s2 k hk
    · subst hk; rfl
    · subst hk; rfl
    · subst hk; rfl
    · subst hk; rfl

/-- The subnet `s2` with block `10.16.128.0/17` next to `s1` with block `10.16.0.0/16`. -/
theorem handleAddOrUpdateSubnet_conflict_witness :
    (∃ e, (handleAddOrUpdateSubnet overlapController "s2").res = .error e) ∧
    (∃ doc, (patchedStatuses (handleAddOrUpdateSubnet overlapController "s2").calls).getLast?
        = some doc ∧ carries doc .Validated false "ValidateLogicalSwitchFailed") ∧
    (∀ k ∈ (handleAddOrUpdateSubnet overlapController "s2").calls,
      isLogicalSwitchCall k = false) :=
  handleAddOrUpdateSubnet_conflict overlapController "s2" overlappingSubnet overlappingSubnet
    overlappingSubnet
    { overlappingSubnet with Status := { overlappingSubnet.Status with AvailableIPs := 32765 } }
    [sampleFormatted, overlappingSubnet] []
    (by decide) (by decide) (by decide) (by decide) (by decide) (by decide) (by decide)
    (fun _ => rfl) (by decide)
    (Or.inl ⟨sampleFormatted, by decide, by decide, by decide⟩)

/-! ## `reconcileGateway`: the centralized gateway -/

@[simp] theorem setCondition_ActivateGateway (m : SubnetStatus) (t : ConditionType)
    (status : Bool) (reason message : String) :
    (m.setCondition t status reason message).ActivateGateway = m.ActivateGateway := by
  unfold SubnetStatus.setCondition
  split <;> rfl

/-- The search loop of the source picks what the spec words describe. -/
theorem findActivateNode_eq (c : Controller) (gws : List String) :
    findActivateNode c gws =
      match (gws.map TrimSpace).findSome? (readyNode c) with
      | none => .ok ("", "<nil>")
      | some node =>
        match getNodeTunlIP node with
        | .error err => .error err
        | .ok nodeTunlIPAddr => .ok (node.Name, nodeTunlIPAddr) := by
  induction gws with
  | nil => rfl
  | cons gw rest ih =>
    simp only [findActivateNode, List.map_cons, List.findSome?_cons, readyNode]
    cases hg : c.nodesGet (TrimSpace gw) with
    | error e => simpa using ih
    | ok node =>
      by_cases hr : nodeReady node = true
      · simp [hr]
      · simp only [hr]
        simpa using ih

theorem deletePodRoutes_calls (c : Controller) (ips : List IP) :
    ∀ k ∈ (deletePodRoutes c ips).calls, ∃ m r, k = .DeleteStaticRoute m r := by
  induction ips with
  | nil => intro k hk; simp [deletePodRoutes, forEach] at hk
  | cons ip rest ih =>
    intro k hk
    simp only [deletePodRoutes, forEach, Run.bind] at hk
    split at hk
    · simp at hk
      exact ⟨_, _, hk⟩
    · simp at hk
      rcases hk with hk | hk
      · exact ⟨_, _, hk⟩
      · exact ih k hk

theorem deletePodRoutes_patched (c : Controller) (ips : List IP) :
    patchedStatuses (deletePodRoutes c ips).calls = [] := by
  unfold patchedStatuses
  rw [List.filterMap_eq_nil_iff]
  intro k hk
  obtain ⟨m, r, hk2⟩ := deletePodRoutes_calls c ips k hk
  subst hk2
  rfl

/-- The run of `activateNewGateway` when the search ends without a node. -/
theorem activateNewGateway_none (c : Controller) (subnet : Subnet) (ips : List IP)
    (x : String)
    (h : findActivateNode c (Split subnet.Spec.GatewayNode ',') = .ok ("", x)) :
    activateNewGateway c subnet ips =
      match c.marshalErr (noGatewayStatus subnet.Status) with
      | some e => ⟨[], .error e⟩
      | none =>
        ⟨[.subnetsPatch subnet.Name (noGatewayStatus subnet.Status)],
         match c.subnetsPatch subnet.Name (noGatewayStatus subnet.Status) with
         | .error e => .error e
         | .ok _ => .ok { subnet with Status := noGatewayStatus subnet.Status }⟩ := by
  unfold activateNewGateway
  rw [h]
  cases hm : c.marshalErr (noGatewayStatus subnet.Status) with
  | some e =>
    simp only [noGatewayStatus] at hm
    simp [Bytes, hm, Run.fail]
  | none =>
    cases hp : c.subnetsPatch subnet.Name (noGatewayStatus subnet.Status) with
    | error e =>
      simp only [noGatewayStatus] at hm hp
      simp [Bytes, hm, hp, Run.bind, noGatewayStatus]
    | ok a =>
      simp only [noGatewayStatus] at hm hp
      simp [Bytes, hm, hp, Run.bind, noGatewayStatus]

/-- The run of `activateNewGateway` when the search ends with a node. -/
theorem activateNewGateway_some (c : Controller) (subnet : Subnet) (ips : List IP)
    (name hop : String) (hname : name ≠ "")
    (h : findActivateNode c (Split subnet.Spec.GatewayNode ',') = .ok (name, hop)) :
    activateNewGateway c subnet ips =
      match c.AddStaticRoute PolicySrcIP subnet.Spec.CIDRBlock hop c.config.ClusterRouter with
      | some err =>
        ⟨[.AddStaticRoute PolicySrcIP subnet.Spec.CIDRBlock hop c.config.ClusterRouter],
         .error (.failed ("add static route failed: " ++ err.Error))⟩
      | none =>
        match (deletePodRoutes c ips).res with
        | .error e =>
          ⟨.AddStaticRoute PolicySrcIP subnet.Spec.CIDRBlock hop c.config.ClusterRouter ::
            (deletePodRoutes c ips).calls, .error e⟩
        | .ok _ =>
          match c.marshalErr (activatedStatus subnet.Status name) with
          | some e =>
            ⟨.AddStaticRoute PolicySrcIP subnet.Spec.CIDRBlock hop c.config.ClusterRouter ::
              (deletePodRoutes c ips).calls, .error e⟩
          | none =>
            ⟨.AddStaticRoute PolicySrcIP subnet.Spec.CIDRBlock hop c.config.ClusterRouter ::
              ((deletePodRoutes c ips).calls ++
                [.subnetsPatch subnet.Name (activatedStatus subnet.Status name)]),
             match c.subnetsPatch subnet.Name (activatedStatus subnet.Status name) with
             | .error e => .error e
             | .ok _ =>
               .ok { subnet with
                 Status := (activatedStatus subnet.Status name).Ready
                   "ReconcileCentralizedGatewaySuccess" "" }⟩ := by
  unfold activateNewGateway
  rw [h]
  simp only [if_neg hname]
  cases ha : c.AddStaticRoute PolicySrcIP subnet.Spec.CIDRBlock hop c.config.ClusterRouter with
  | some e => simp [Run.andThen, ofErr]
  | none =>
    cases hf : (deletePodRoutes c ips).res with
    | error e => simp [Run.andThen, ofErr, Run.bind, hf]
    | ok u =>
      cases hm : c.marshalErr (activatedStatus subnet.Status name) with
      | some e =>
        simp only [activatedStatus] at hm
        simp [Run.andThen, ofErr, Run.bind, hf, Bytes, hm]
      | none =>
        cases hp : c.subnetsPatch subnet.Name (activatedStatus subnet.Status name) with
        | error e =>
          simp only [activatedStatus] at hm hp
          simp [Run.andThen, ofErr, Run.bind, hf, Bytes, hm, hp, activatedStatus]
        | ok a =>
          simp only [activatedStatus] at hm hp
          simp [Run.andThen, ofErr, Run.bind, hf, Bytes, hm, hp, activatedStatus]

/-- The centralized branch of `reconcileGateway` once the IP objects are listed. -/
theorem reconcileGateway_central_eq (c : Controller) (subnet : Subnet) (ips : List IP)
    (hcentral : subnet.Spec.GatewayType ≠ GWDistributedType)
    (hips : c.ipsList (SubnetNameLabel ++ "=" ++ subnet.Name) = .ok ips) :
    reconcileGateway c subnet =
      if subnet.Status.ActivateGateway ≠ "" ∧
          (readyNode c subnet.Status.ActivateGateway).isSome = true then
        ⟨[.ipsList (SubnetNameLabel ++ "=" ++ subnet.Name)], .ok subnet⟩
      else
        ⟨.ipsList (SubnetNameLabel ++ "=" ++ subnet.Name) ::
          (activateNewGateway c subnet ips).calls, (activateNewGateway c subnet ips).res⟩ := by
  unfold reconcileGateway
  simp only [Run.bind, Run.call_res, hips, Run.call_calls, if_neg hcentral, readyNode]
  by_cases hag : subnet.Status.ActivateGateway = ""
  · simp [hag]
  · obtain ⟨got, hg⟩ : ∃ got, c.nodesGet subnet.Status.ActivateGateway = got := ⟨_, rfl⟩
    cases got with
    | error e => simp [hag, hg]
    | ok node =>
      by_cases hr : nodeReady node = true
      · simp [hag, hg, hr]
      · simp [hag, hg, hr]

/-- With a current gateway that names an existing Ready node, `reconcileGateway` only
lists the IP objects. -/
theorem reconcileGateway_keep (c : Controller) (subnet : Subnet) (node : Node)
    (hcentral : subnet.Spec.GatewayType ≠ GWDistributedType)
    (hag : subnet.Status.ActivateGateway ≠ "")
    (hget : c.nodesGet subnet.Status.ActivateGateway = .ok node)
    (hready : nodeReady node = true) :
    (reconcileGateway c subnet).calls = [.ipsList (SubnetNameLabel ++ "=" ++ subnet.Name)] ∧
    ∀ out, (reconcileGateway c subnet).res = .ok out → out = subnet := by
  cases hips : c.ipsList (SubnetNameLabel ++ "=" ++ subnet.Name) with
  | error e =>
    unfold reconcileGateway
    simp [Run.bind, hips]
  | ok ips =>
    rw [reconcileGateway_central_eq c subnet ips hcentral hips]
    rw [if_pos ⟨hag, by simp [readyNode, hget, hready]⟩]
    exact ⟨rfl, fun out h => by cases h; rfl⟩

theorem noGatewayStatus_carries (m : SubnetStatus) :
    (noGatewayStatus m).ActivateGateway = "" ∧
    carries (noGatewayStatus m) .Ready false "NoReadyGateway" := by
  unfold noGatewayStatus SubnetStatus.NotReady
  exact ⟨by simp, setCondition_carries _ _ _ _ _⟩

/-- C7: for a centralized-gateway subnet, (1) when the current `activateGateway` names an
existing Ready node, `reconcileGateway` makes no call but the listing of the IP objects
(no route call, no patch) and hands the subnet back unchanged; (2) otherwise the search
of the source picks the leftmost entry of the comma-separated, whitespace-trimmed
`gatewayNode` list that resolves to an existing Ready node: every `AddStaticRoute` of the
run goes to that node's tunnel IP for the subnet's CIDR, and on success `activateGateway`
is that node's name, in the subnet and in the one document patched; (3) if no entry
resolves to an existing Ready node, no `AddStaticRoute` or `DeleteStaticRoute` is issued,
and the status left (and patched, whenever it serialises) has `activateGateway` empty and
`Ready=false` with reason `NoReadyGateway`. -/
theorem reconcileGateway_centralized (c : Controller) (subnet : Subnet)
    (hcentral : subnet.Spec.GatewayType ≠ GWDistributedType) :
    (∀ node, subnet.Status.ActivateGateway ≠ "" →
      c.nodesGet subnet.Status.ActivateGateway = .ok node → nodeReady node = true →
      (reconcileGateway c subnet).calls =
        [.ipsList (SubnetNameLabel ++ "=" ++ subnet.Name)] ∧
      ∀ out, (reconcileGateway c subnet).res = .ok out → out = subnet) ∧
    (∀ ips, c.ipsList (SubnetNameLabel ++ "=" ++ subnet.Name) = .ok ips →
      (subnet.Status.ActivateGateway = "" ∨
        readyNode c subnet.Status.ActivateGateway = none) →
      (∀ node, leftmostReadyGateway c subnet.Spec.GatewayNode = some node →
        node.Name ≠ "" →
        (∀ p m h r, Call.AddStaticRoute p m h r ∈ (reconcileGateway c subnet).calls →
          getNodeTunlIP node = .ok h ∧ m = subnet.Spec.CIDRBlock) ∧
        (∀ out, (reconcileGateway c subnet).res = .ok out →
          out.Status.ActivateGateway = node.Name ∧
          (∃ hop, getNodeTunlIP node = .ok hop ∧
            Call.AddStaticRoute PolicySrcIP subnet.Spec.CIDRBlock hop c.config.ClusterRouter ∈
              (reconcileGateway c subnet).calls) ∧
          patchedStatuses (reconcileGateway c subnet).calls =
            [activatedStatus subnet.Status node.Name])) ∧
      (leftmostReadyGateway c subnet.Spec.GatewayNode = none →
        (noGatewayStatus subnet.Status).ActivateGateway = "" ∧
        carries (noGatewayStatus subnet.Status) .Ready false "NoReadyGateway" ∧
        (∀ k ∈ (reconcileGateway c subnet).calls, isStaticRouteCall k = false) ∧
        (∀ out, (reconcileGateway c subnet).res = .ok out →
          out.Status = noGatewayStatus subnet.Status) ∧
        (c.marshalErr (noGatewayStatus subnet.Status) = none →
          patchedStatuses (reconcileGateway c subnet).calls =
            [noGatewayStatus subnet.Status]))) := by
  refine ⟨fun node hag hget hready =>
    reconcileGateway_keep c subnet node hcentral hag hget hready, ?_⟩
  intro ips hips hnokeep
  have hrun : reconcileGateway c subnet =
      ⟨.ipsList (SubnetNameLabel ++ "=" ++ subnet.Name) ::
        (activateNewGateway c subnet ips).calls, (activateNewGateway c subnet ips).res⟩ := by
    rw [reconcileGateway_central_eq c subnet ips hcentral hips]
    rw [if_neg]
    rintro ⟨h1, h2⟩
    rcases hnokeep with h | h
    · exact h1 h
    · simp [h] at h2
  have hfind := findActivateNode_eq c (Split subnet.Spec.GatewayNode ',')
  rw [hrun]
  constructor
  · intro node hleft hname
    unfold leftmostReadyGateway at hleft
    rw [hleft] at hfind
    simp only at hfind
    cases htun : getNodeTunlIP node with
    | error e =>
      rw [htun] at hfind
      have hfail : activateNewGateway c subnet ips = Run.fail e := by
        unfold activateNewGateway
        rw [hfind]
      rw [hfail]
      exact ⟨fun p m h r hmem => by simp at hmem, fun out hout => by simp at hout⟩
    | ok hop =>
      rw [htun] at hfind
      rw [activateNewGateway_some c subnet ips node.Name hop hname hfind]
      have hdel := deletePodRoutes_calls c ips
      have hpat := deletePodRoutes_patched c ips
      cases ha : c.AddStaticRoute PolicySrcIP subnet.Spec.CIDRBlock hop
          c.config.ClusterRouter with
      | some e =>
        refine ⟨fun p m h r hmem => ?_, fun out hout => by simp at hout⟩
        simp at hmem
        obtain ⟨-, rfl, rfl, -⟩ := hmem
        exact ⟨rfl, rfl⟩
      | none =>
        cases hf : (deletePodRoutes c ips).res with
        | error e =>
          refine ⟨fun p m h r hmem => ?_, fun out hout => by simp at hout⟩
          simp at hmem
          rcases hmem with ⟨-, rfl, rfl, -⟩ | hmem
          · exact ⟨rfl, rfl⟩
          · obtain ⟨m2, r2, hk⟩ := hdel _ hmem
            cases hk
        | ok u =>
          cases hm : c.marshalErr (activatedStatus subnet.Status node.Name) with
          | some e =>
            refine ⟨fun p m h r hmem => ?_, fun out hout => by simp at hout⟩
            simp at hmem
            rcases hmem with ⟨-, rfl, rfl, -⟩ | hmem
            · exact ⟨rfl, rfl⟩
            · obtain ⟨m2, r2, hk⟩ := hdel _ hmem
              cases hk
          | none =>
            refine ⟨fun p m h r hmem => ?_, fun out hout => ?_⟩
            · simp at hmem
              rcases hmem with ⟨-, rfl, rfl, -⟩ | hmem
              · exact ⟨rfl, rfl⟩
              · obtain ⟨m2, r2, hk⟩ := hdel _ hmem
                cases hk
            · simp only at hout
              cases hp : c.subnetsPatch subnet.Name
                  (activatedStatus subnet.Status node.Name) with
              | error e => simp [hp] at hout
              | ok a =>
                simp only [hp, Result.ok.injEq] at hout
                subst hout
                refine ⟨by simp [SubnetStatus.Ready, activatedStatus], ⟨hop, rfl, by simp⟩, ?_⟩
                unfold patchedStatuses at hpat
                simp [patchedStatuses, hpat]
  · intro hleft
    unfold leftmostReadyGateway at hleft
    rw [hleft] at hfind
    simp only at hfind
    rw [activateNewGateway_none c subnet ips _ hfind]
    refine ⟨(noGatewayStatus_carries _).1, (noGatewayStatus_carries _).2, ?_, ?_, ?_⟩
    · intro k hk
      cases hm : c.marshalErr (noGatewayStatus subnet.Status) with
      | some e =>
        simp [hm] at hk
        subst hk
        rfl
      | none =>
        simp [hm] at hk
        rcases hk with rfl | rfl <;> rfl
    · intro out hout
      cases hm : c.marshalErr (noGatewayStatus subnet.Status) with
      | some e => simp [hm] at hout
      | none =>
        simp only [hm] at hout
        cases hp : c.subnetsPatch subnet.Name (noGatewayStatus subnet.Status) with
        | error e => simp [hp] at hout
        | ok a =>
          simp only [hp, Result.ok.injEq] at hout
          subst hout
          rfl
    · intro hm
      simp only [hm]
      rfl

/-- Gateway nodes `a, b` with `a` not Ready and `b` Ready: `b` becomes the active gateway. -/
theorem reconcileGateway_centralized_witness :
    leftmostReadyGateway gatewayController centralSubnet.Spec.GatewayNode = some nodeB ∧
    (reconcileGateway gatewayController centralSubnet).res = .ok centralSubnetActivated ∧
    centralSubnetActivated.Status.ActivateGateway = nodeB.Name :=
  ⟨by decide, by decide,
   ((((reconcileGateway_centralized gatewayController centralSubnet (by decide)).2 []
      (by decide) (Or.inl (by decide))).1 nodeB (by decide) (by decide)).2
        centralSubnetActivated (by decide)).1⟩

/-- C8 fails on the code: in the sample cluster `reconcileGateway` picks node `b` for
`centralSubnet`, all route calls succeed, and the one status document it patches holds
`activateGateway = "b"` but no `Ready` condition at all: the document is serialised
(line 724) before `Status.Ready(...)` is called (line 725), so the condition reaches the
subnet in memory only. -/
theorem reconcileGateway_patch_without_ready :
    reconcileGateway gatewayController centralSubnet =
      ⟨[.ipsList "ovn.kubernetes.io/subnet=g",
        .AddStaticRoute "src-ip" "10.16.0.0/16" "100.64.0.3" "ovn-cluster",
        .subnetsPatch "g"
          { Conditions := [], AvailableIPs := 65533, UsingIPs := 0, ActivateGateway := "b" }],
       .ok centralSubnetActivated⟩ ∧
    ¬ carries { Conditions := [], AvailableIPs := 65533, UsingIPs := 0, ActivateGateway := "b" }
      .Ready true "ReconcileCentralizedGatewaySuccess" ∧
    carries centralSubnetActivated.Status .Ready true "ReconcileCentralizedGatewaySuccess" := by
  decide

/-! ## `reconcileGateway`: the distributed gateway -/

theorem addPodRoutes_cons (c : Controller) (ip : IP) (rest : List IP) :
    addPodRoutes c (ip :: rest) = (addPodRoutes c [ip]).bind fun _ => addPodRoutes c rest := by
  simp only [addPodRoutes, forEach, Run.bind]
  split <;> simp

/-- When the route loop of the distributed branch ends without error, every IP object
whose node exists has had its route added. -/
theorem addPodRoutes_ok (c : Controller) (ips : List IP)
    (h : (addPodRoutes c ips).res = .ok ()) :
    ∀ ip ∈ ips, ∀ node, c.nodesGet ip.Spec.NodeName = .ok node →
      ∃ hop, getNodeTunlIP node = .ok hop ∧
        Call.AddStaticRoute PolicySrcIP ip.Spec.IPAddress hop c.config.ClusterRouter ∈
          (addPodRoutes c ips).calls := by
  induction ips with
  | nil => intro ip hip; simp at hip
  | cons ip0 rest ih =>
    rw [addPodRoutes_cons] at h ⊢
    cases h0 : (addPodRoutes c [ip0]).res with
    | error e => simp [Run.bind, h0] at h
    | ok u =>
      simp only [Run.bind, h0] at h ⊢
      intro ip hip node hnode
      rcases List.mem_cons.mp hip with rfl | hrest
      · simp only [addPodRoutes, forEach, hnode, Run.bind] at h0 ⊢
        cases htun : getNodeTunlIP node with
        | error e => simp [htun] at h0
        | ok hop =>
          refine ⟨hop, rfl, ?_⟩
          simp only [htun] at h0 ⊢
          cases ha : c.AddStaticRoute PolicySrcIP ip.Spec.IPAddress hop
              c.config.ClusterRouter with
          | some e => simp [Run.andThen, ofErr, ha] at h0
          | none => simp [Run.andThen, ofErr, ha]
      · obtain ⟨hop, hh, hmem⟩ := ih h ip hrest node hnode
        exact ⟨hop, hh, List.mem_append_right _ hmem⟩

/-- C9, as the code has it: for a distributed-gateway subnet on which `reconcileGateway`
returns success, (1) if `status.activateGateway` was non-empty, it has been cleared and
patched, `AddStaticRoute(src-ip, ip.Spec.IPAddress, tunlIP(node), clusterRouter)` has
been issued for every listed IP object whose node exists, and
`DeleteStaticRoute(CIDR, clusterRouter)` has been issued; (2) if `status.activateGateway`
was empty, the run only lists the IP objects: no route call, no patch, the subnet is
handed back unchanged. -/
theorem reconcileGateway_distributed (c : Controller) (subnet out : Subnet)
    (hdist : subnet.Spec.GatewayType = GWDistributedType)
    (hres : (reconcileGateway c subnet).res = .ok out) :
    (subnet.Status.ActivateGateway ≠ "" →
      ∃ ips, c.ipsList (SubnetNameLabel ++ "=" ++ subnet.Name) = .ok ips ∧
        (∀ ip ∈ ips, ∀ node, c.nodesGet ip.Spec.NodeName = .ok node →
          ∃ hop, getNodeTunlIP node = .ok hop ∧
            Call.AddStaticRoute PolicySrcIP ip.Spec.IPAddress hop c.config.ClusterRouter ∈
              (reconcileGateway c subnet).calls) ∧
        Call.DeleteStaticRoute subnet.Spec.CIDRBlock c.config.ClusterRouter ∈
          (reconcileGateway c subnet).calls ∧
        out.Status = activatedStatus subnet.Status "" ∧
        Call.subnetsPatch subnet.Name (activatedStatus subnet.Status "") ∈
          (reconcileGateway c subnet).calls) ∧
    (subnet.Status.ActivateGateway = "" →
      (reconcileGateway c subnet).calls =
        [.ipsList (SubnetNameLabel ++ "=" ++ subnet.Name)] ∧ out = subnet) := by
  unfold reconcileGateway at hres ⊢
  cases hips : c.ipsList (SubnetNameLabel ++ "=" ++ subnet.Name) with
  | error e => simp [Run.bind, hips] at hres
  | ok ips =>
    simp only [Run.bind, Run.call_res, hips, Run.call_calls, if_pos hdist] at hres ⊢
    unfold reconcileDistributedGateway at hres ⊢
    constructor
    · intro hag
      simp only [if_neg hag] at hres ⊢
      refine ⟨ips, rfl, ?_⟩
      cases hm : c.marshalErr (activatedStatus subnet.Status "") with
      | some e =>
        simp only [activatedStatus] at hm
        simp [Bytes, hm] at hres
      | none =>
        cases hp : c.subnetsPatch subnet.Name (activatedStatus subnet.Status "") with
        | error e =>
          simp only [activatedStatus] at hm hp
          simp [Bytes, hm, hp, Run.bind] at hres
        | ok a =>
          cases hadd : (addPodRoutes c ips).res with
          | error e =>
            simp only [activatedStatus] at hm hp
            simp [Bytes, hm, hp, Run.bind, hadd] at hres
          | ok u =>
            have hroutes := addPodRoutes_ok c ips hadd
            cases hd : c.DeleteStaticRoute subnet.Spec.CIDRBlock c.config.ClusterRouter with
            | some e =>
              simp only [activatedStatus] at hm hp
              simp [Bytes, hm, hp, Run.bind, hadd, hd, ofErr] at hres
            | none =>
              simp only [activatedStatus] at hm hp
              simp only [Bytes, hm, hp, Run.bind, hadd, hd, ofErr, Run.call_res,
                Run.call_calls, Run.ret_res, Run.ret_calls, Result.ok.injEq] at hres ⊢
              subst hres
              refine ⟨?_, ?_, rfl, ?_⟩
              · intro ip hip node hnode
                obtain ⟨hop, hh, hmem⟩ := hroutes ip hip node hnode
                exact ⟨hop, hh, by simp [hmem]⟩
              · simp
              · simp [activatedStatus]
    · intro hag
      simp only [if_pos hag] at hres ⊢
      simp only [Run.ret_res, Result.ok.injEq] at hres
      exact ⟨rfl, hres.symm⟩

/-- A subnet switched to distributed with one IP `10.16.0.5` on node `n`: the status is
cleared and patched, the pod route is added, the route of the CIDR is deleted. -/
theorem reconcileGateway_distributed_witness :
    reconcileGateway podController switchedSubnet =
      ⟨[.ipsList "ovn.kubernetes.io/subnet=s1",
        .subnetsPatch "s1" sampleFormatted.Status,
        .AddStaticRoute "src-ip" "10.16.0.5" "100.64.0.4" "ovn-cluster",
        .DeleteStaticRoute "10.16.0.0/16" "ovn-cluster"],
       .ok sampleFormatted⟩ ∧
    Call.DeleteStaticRoute switchedSubnet.Spec.CIDRBlock podController.config.ClusterRouter ∈
      (reconcileGateway podController switchedSubnet).calls :=
  ⟨by decide,
   by
    obtain ⟨ips, -, -, hdel, -⟩ :=
      (reconcileGateway_distributed podController switchedSubnet sampleFormatted (by decide)
        (by decide)).1 (by decide)
    exact hdel⟩

/-- C9 fails as stated: in the sample cluster with the IP object `podIP` on the existing
node `n`, `reconcileGateway` on a distributed subnet whose `activateGateway` is empty
returns success after listing the IP objects, with no `AddStaticRoute` and no
`DeleteStaticRoute`. -/
theorem reconcileGateway_distributed_no_routes :
    sampleFormatted.Spec.GatewayType = GWDistributedType ∧
    podController.ipsList (SubnetNameLabel ++ "=" ++ sampleFormatted.Name) = .ok [podIP] ∧
    podController.nodesGet podIP.Spec.NodeName = .ok nodeN ∧
    reconcileGateway podController sampleFormatted =
      ⟨[.ipsList "ovn.kubernetes.io/subnet=s1"], .ok sampleFormatted⟩ := by
  decide

/-! ## `reconcileNamespaces` -/

/-- C10 fails on the code: in a store that holds `s` (namespaces `[ns1]`) and `o`
(namespaces `[ns1, ns2]`), `reconcileNamespaces(s)` strips `ns1` from `o`, updates `o`,
and returns success having enqueued `ns2` only: the answer of `Update(o)` is assigned to
the variable `subnet` (line 597), so the loop of step 2 walks the namespaces left in `o`
and the namespace `ns1` of `s` is never added to the namespace queue. -/
theorem reconcileNamespaces_skips_own_namespace :
    bindingSubnet.Spec.Namespaces = ["ns1"] ∧
    reconcileNamespaces namespaceController bindingSubnet =
      ⟨[.subnetsUpdate { otherSubnet with Spec := { otherSubnet.Spec with Namespaces := ["ns2"] } },
        .addNamespaceQueueAdd "ns2"],
       .ok ()⟩ ∧
    Call.addNamespaceQueueAdd "ns1" ∉
      (reconcileNamespaces namespaceController bindingSubnet).calls := by
  decide

/-! ## Event intake -/

theorem forEach_emit_calls {α : Type} (f : α → Call) (l : List α) :
    forEach (fun x => Run.emit (f x)) l = ⟨l.map f, .ok ()⟩ := by
  induction l with
  | nil => rfl
  | cons x rest ih => simp [forEach, Run.bind, ih]

theorem not_DeepEqual_iff (a b : Option (List String)) :
    (!DeepEqual a b) = true ↔ a ≠ b := by
  simp [DeepEqual]

/-- C13: when the controller is leader, `enqueueUpdateSubnet` adds the key of the new
object to the addOrUpdateSubnet queue if and only if the new object has a non-zero
deletion timestamp and `status.usingIPs = 0`, or old and new differ in one of
`spec.private`, `spec.allowSubnets`, `spec.namespaces`, `spec.gatewayType`,
`spec.gatewayNode`, `spec.excludeIps`, `spec.vlan` (a slice field that is nil in one
object and empty in the other differs, as `reflect.DeepEqual` has it); it makes no other
call, so a change confined to other fields (CIDR, gateway, protocol, ...) enqueues
nothing. -/
theorem enqueueUpdateSubnet_filter (c : Controller) (oldSubnet newSubnet : Subnet)
    (hleader : c.isLeader = true) :
    (updateNeedsReconcile oldSubnet newSubnet →
      (enqueueUpdateSubnet c oldSubnet newSubnet).calls =
        [.queueAdd .addOrUpdateSubnet newSubnet.Name]) ∧
    (¬ updateNeedsReconcile oldSubnet newSubnet →
      (enqueueUpdateSubnet c oldSubnet newSubnet).calls = []) ∧
    (Call.queueAdd .addOrUpdateSubnet newSubnet.Name ∈
        (enqueueUpdateSubnet c oldSubnet newSubnet).calls ↔
      updateNeedsReconcile oldSubnet newSubnet) := by
  have key : (enqueueUpdateSubnet c oldSubnet newSubnet).calls =
      if updateNeedsReconcile oldSubnet newSubnet then
        [.queueAdd .addOrUpdateSubnet newSubnet.Name] else [] := by
    unfold enqueueUpdateSubnet MetaNamespaceKeyFunc
    simp only [hleader, Bool.not_true, Bool.false_eq_true, if_false]
    by_cases h1 : IsZero newSubnet.DeletionTimestamp = false ∧ newSubnet.Status.UsingIPs = 0
    · have hu : updateNeedsReconcile oldSubnet newSubnet := Or.inl h1
      rw [if_pos (by simp [h1.1, h1.2]), if_pos hu]
      rfl
    · rw [if_neg (by simpa [not_and] using h1)]
      simp only [not_DeepEqual_iff]
      by_cases h2 : oldSubnet.Spec.Private ≠ newSubnet.Spec.Private ∨
          goSlice oldSubnet.Spec.AllowSubnetsNil oldSubnet.Spec.AllowSubnets ≠
            goSlice newSubnet.Spec.AllowSubnetsNil newSubnet.Spec.AllowSubnets ∨
          goSlice oldSubnet.Spec.NamespacesNil oldSubnet.Spec.Namespaces ≠
            goSlice newSubnet.Spec.NamespacesNil newSubnet.Spec.Namespaces ∨
          oldSubnet.Spec.GatewayType ≠ newSubnet.Spec.GatewayType ∨
          oldSubnet.Spec.GatewayNode ≠ newSubnet.Spec.GatewayNode ∨
          goSlice oldSubnet.Spec.ExcludeIpsNil oldSubnet.Spec.ExcludeIps ≠
            goSlice newSubnet.Spec.ExcludeIpsNil newSubnet.Spec.ExcludeIps ∨
          ¬ (oldSubnet.Spec.Vlan = newSubnet.Spec.Vlan)
      · have hu : updateNeedsReconcile oldSubnet newSubnet := Or.inr h2
        rw [if_pos h2, if_pos hu]
        rfl
      · have hu : ¬ updateNeedsReconcile oldSubnet newSubnet := fun h => h.elim h1 h2
        rw [if_neg h2, if_neg hu]
        rfl
  rw [key]
  refine ⟨fun h => by rw [if_pos h], fun h => by rw [if_neg h], ?_⟩
  by_cases h : updateNeedsReconcile oldSubnet newSubnet
  · rw [if_pos h]
    simp [h]
  · rw [if_neg h]
    simp [h]

/-- A change of gateway, protocol and CIDR text alone enqueues nothing; making the subnet
private enqueues its key, and so does an update whose namespace slice is nil where the
old one was empty. -/
theorem enqueueUpdateSubnet_filter_witness :
    (enqueueUpdateSubnet sampleController sampleFormatted regatewayedSubnet).calls = [] ∧
    (enqueueUpdateSubnet sampleController sampleFormatted privateSubnet).calls =
      [.queueAdd .addOrUpdateSubnet "s1"] ∧
    sampleFormatted.Spec.Namespaces = nilNamespacesSubnet.Spec.Namespaces ∧
    (enqueueUpdateSubnet sampleController sampleFormatted nilNamespacesSubnet).calls =
      [.queueAdd .addOrUpdateSubnet "s1"] :=
  ⟨(enqueueUpdateSubnet_filter sampleController sampleFormatted regatewayedSubnet rfl).2.1
      (by decide),
   (enqueueUpdateSubnet_filter sampleController sampleFormatted privateSubnet rfl).1
      (by decide),
   rfl,
   (enqueueUpdateSubnet_filter sampleController sampleFormatted nilNamespacesSubnet rfl).1
      (by decide)⟩

/-- C14: when the controller is leader, `enqueueAddOrDelIP` adds to the updateSubnetStatus
queue exactly `spec.subnet` followed by every element of `spec.attachSubnets`, and
`enqueueUpdateIP` adds exactly the elements of the new object's `spec.attachSubnets`, so
the primary subnet is added by it only where it occurs in `attachSubnets`; neither makes
any other call. -/
theorem enqueueIP_fanout (c : Controller) (oldObj ipObj : IP) (hleader : c.isLeader = true) :
    (enqueueAddOrDelIP c ipObj).calls =
      (ipObj.Spec.Subnet :: ipObj.Spec.AttachSubnets).map
        (fun name => Call.queueAdd .updateSubnetStatus name) ∧
    (enqueueUpdateIP c oldObj ipObj).calls =
      ipObj.Spec.AttachSubnets.map (fun name => Call.queueAdd .updateSubnetStatus name) ∧
    (Call.queueAdd .updateSubnetStatus ipObj.Spec.Subnet ∈ (enqueueUpdateIP c oldObj ipObj).calls ↔
      ipObj.Spec.Subnet ∈ ipObj.Spec.AttachSubnets) := by
  have h1 : (enqueueAddOrDelIP c ipObj).calls =
      (ipObj.Spec.Subnet :: ipObj.Spec.AttachSubnets).map
        (fun name => Call.queueAdd .updateSubnetStatus name) := by
    unfold enqueueAddOrDelIP
    simp [hleader, Run.bind, forEach_emit_calls]
  have h2 : (enqueueUpdateIP c oldObj ipObj).calls =
      ipObj.Spec.AttachSubnets.map (fun name => Call.queueAdd .updateSubnetStatus name) := by
    unfold enqueueUpdateIP
    simp [hleader, forEach_emit_calls]
  refine ⟨h1, h2, ?_⟩
  rw [h2]
  simp

/-- The IP object `attachedIP`: add or delete enqueues `s1`, `net1`, `net2`; update
enqueues `net1`, `net2`. -/
theorem enqueueIP_fanout_witness :
    (enqueueAddOrDelIP sampleController attachedIP).calls =
      [.queueAdd .updateSubnetStatus "s1", .queueAdd .updateSubnetStatus "net1",
       .queueAdd .updateSubnetStatus "net2"] ∧
    (enqueueUpdateIP sampleController podIP attachedIP).calls =
      [.queueAdd .updateSubnetStatus "net1", .queueAdd .updateSubnetStatus "net2"] :=
  ⟨(enqueueIP_fanout sampleController podIP attachedIP rfl).1,
   (enqueueIP_fanout sampleController podIP attachedIP rfl).2.1⟩

/-- C15: when the leader flag is false, each of `enqueueAddSubnet`, `enqueueDeleteSubnet`,
`enqueueUpdateSubnet`, `enqueueAddOrDelIP` and `enqueueUpdateIP` returns without a single
call, for every input object: none of the four queues is touched. -/
theorem enqueue_not_leader (c : Controller) (oldSubnet subnet : Subnet) (oldObj ipObj : IP)
    (hleader : c.isLeader = false) :
    enqueueAddSubnet c subnet = ⟨[], .ok ()⟩ ∧
    enqueueDeleteSubnet c subnet = ⟨[], .ok ()⟩ ∧
    enqueueUpdateSubnet c oldSubnet subnet = ⟨[], .ok ()⟩ ∧
    enqueueAddOrDelIP c ipObj = ⟨[], .ok ()⟩ ∧
    enqueueUpdateIP c oldObj ipObj = ⟨[], .ok ()⟩ := by
  unfold enqueueAddSubnet enqueueDeleteSubnet enqueueUpdateSubnet enqueueAddOrDelIP
    enqueueUpdateIP
  simp [hleader, Run.ret]

/-- A follower replica drops the events that the leader of the same cluster enqueues. -/
theorem enqueue_not_leader_witness :
    enqueueUpdateSubnet followerController sampleFormatted privateSubnet = ⟨[], .ok ()⟩ ∧
    enqueueAddOrDelIP followerController attachedIP = ⟨[], .ok ()⟩ :=
  ⟨(enqueue_not_leader followerController sampleFormatted privateSubnet podIP attachedIP
      rfl).2.2.1,
   (enqueue_not_leader followerController sampleFormatted privateSubnet podIP attachedIP
      rfl).2.2.2.1⟩

/-! ## Runs without queue bookkeeping -/

theorem quiet_ret {α : Type} (a : α) : Quiet (Run.ret a) := by
  intro k hk
  simp at hk

theorem quiet_fail {α : Type} (e : Err) : Quiet (Run.fail e : Run α) := by
  intro k hk
  simp at hk

theorem quiet_call {α : Type} (k : Call) (r : Result α) (h : isQueueBookkeeping k = false) :
    Quiet (Run.call k r) := by
  intro k2 hk
  simp at hk
  subst hk
  exact h

theorem quiet_emit (k : Call) (h : isQueueBookkeeping k = false) : Quiet (Run.emit k) := by
  intro k2 hk
  simp at hk
  subst hk
  exact h

theorem quiet_bind {α β : Type} (m : Run α) (f : α → Run β) (hm : Quiet m)
    (hf : ∀ a, Quiet (f a)) : Quiet (m.bind f) := by
  intro k hk
  unfold Run.bind at hk
  split at hk
  · exact hm k hk
  · rename_i a _
    simp only [List.mem_append] at hk
    rcases hk with hk | hk
    · exact hm k hk
    · exact hf a k hk

theorem quiet_andThen {α β : Type} (m : Run α) (f : Result α → Run β) (hm : Quiet m)
    (hf : ∀ r, Quiet (f r)) : Quiet (m.andThen f) := by
  intro k hk
  simp only [Run.andThen_calls, List.mem_append] at hk
  rcases hk with hk | hk
  · exact hm k hk
  · exact hf _ k hk

theorem quiet_forEach {α : Type} (f : α → Run Unit) (l : List α) (hf : ∀ x, Quiet (f x)) :
    Quiet (forEach f l) := by
  induction l with
  | nil => exact quiet_ret ()
  | cons x rest ih => exact quiet_bind _ _ (hf x) (fun _ => ih)

theorem quiet_handleSubnetFinalizer (c : Controller) (subnet : Subnet) :
    Quiet (handleSubnetFinalizer c subnet) := by
  unfold handleSubnetFinalizer
  split
  · exact quiet_bind _ _ (quiet_call _ _ rfl) (fun _ => quiet_ret _)
  · split
    · exact quiet_bind _ _ (quiet_call _ _ rfl) (fun _ => quiet_ret _)
    · exact quiet_ret _

theorem quiet_formatSubnet (c : Controller) (subnet : Subnet) :
    Quiet (formatSubnet c subnet) := by
  unfold formatSubnet
  split
  · exact quiet_fail _
  · split
    · exact quiet_bind _ _ (quiet_call _ _ rfl) (fun _ => quiet_ret _)
    · exact quiet_ret _

theorem quiet_calcSubnetStatusIP (c : Controller) (subnet : Subnet) :
    Quiet (calcSubnetStatusIP c subnet) := by
  unfold calcSubnetStatusIP
  split
  · exact quiet_fail _
  · refine quiet_bind _ _ (quiet_call _ _ rfl) (fun _ => ?_)
    simp only
    split
    · exact quiet_fail _
    · exact quiet_bind _ _ (quiet_call _ _ rfl) (fun _ => quiet_ret _)

theorem quiet_patchSubnetStatus (c : Controller) (subnet : Subnet) (reason errStr : String) :
    Quiet (patchSubnetStatus c subnet reason errStr) := by
  unfold patchSubnetStatus
  refine quiet_bind _ _ ?_ (fun _ => ?_)
  · split
    · exact quiet_bind _ _ (quiet_emit _ rfl) (fun _ => quiet_ret _)
    · exact quiet_ret _
  · split
    · exact quiet_ret _
    · exact quiet_andThen _ _ (quiet_call _ _ rfl) (fun _ => quiet_ret _)

theorem quiet_ite {α : Type} (p : Prop) [Decidable p] (x y : Run α) (hx : Quiet x)
    (hy : Quiet y) : Quiet (if p then x else y) := by
  split <;> assumption

theorem quiet_unbindNamespaces (c : Controller) (namespaceMap : List String)
    (l : List Subnet) : ∀ subnet, Quiet (unbindNamespaces c namespaceMap l subnet) := by
  induction l with
  | nil => intro subnet; exact quiet_ret _
  | cons sub rest ih =>
    intro subnet
    unfold unbindNamespaces
    split
    · exact ih subnet
    · simp only
      split
      · exact quiet_bind _ _ (quiet_call _ _ rfl) (fun u => ih u)
      · exact ih subnet

theorem quiet_reconcileNamespaces (c : Controller) (subnet : Subnet) :
    Quiet (reconcileNamespaces c subnet) := by
  unfold reconcileNamespaces
  split
  · exact quiet_fail _
  · refine quiet_bind _ _ (quiet_unbindNamespaces c _ _ _) (fun _ => ?_)
    unfold enqueueNamespaces
    refine quiet_bind _ _ (quiet_forEach _ _ (fun _ => quiet_emit _ rfl)) (fun _ => ?_)
    split
    · exact quiet_fail _
    · refine quiet_forEach _ _ (fun ns => ?_)
      split
      · exact quiet_ret _
      · split
        · exact quiet_emit _ rfl
        · exact quiet_ret _

theorem quiet_addPodRoutes (c : Controller) (ips : List IP) : Quiet (addPodRoutes c ips) := by
  unfold addPodRoutes
  refine quiet_forEach _ _ (fun ip => ?_)
  split
  · split
    · exact quiet_ret _
    · exact quiet_fail _
  · split
    · exact quiet_fail _
    · refine quiet_andThen _ _ (quiet_call _ _ rfl) (fun r => ?_)
      split
      · exact quiet_fail _
      · exact quiet_ret _

theorem quiet_deletePodRoutes (c : Controller) (ips : List IP) :
    Quiet (deletePodRoutes c ips) := by
  unfold deletePodRoutes
  exact quiet_forEach _ _ (fun ip => quiet_call _ _ rfl)

theorem quiet_reconcileDistributedGateway (c : Controller) (subnet : Subnet) (ips : List IP) :
    Quiet (reconcileDistributedGateway c subnet ips) := by
  unfold reconcileDistributedGateway
  split
  · exact quiet_ret _
  · simp only
    split
    · exact quiet_fail _
    · refine quiet_bind _ _ (quiet_call _ _ rfl) (fun _ => ?_)
      refine quiet_bind _ _ (quiet_addPodRoutes c ips) (fun _ => ?_)
      exact quiet_bind _ _ (quiet_call _ _ rfl) (fun _ => quiet_ret _)

theorem quiet_activateNewGateway (c : Controller) (subnet : Subnet) (ips : List IP) :
    Quiet (activateNewGateway c subnet ips) := by
  unfold activateNewGateway
  split
  · exact quiet_fail _
  · split
    · simp only
      split
      · exact quiet_fail _
      · exact quiet_bind _ _ (quiet_call _ _ rfl) (fun _ => quiet_ret _)
    · refine quiet_andThen _ _ (quiet_call _ _ rfl) (fun r => ?_)
      split
      · exact quiet_fail _
      · refine quiet_bind _ _ (quiet_deletePodRoutes c ips) (fun _ => ?_)
        simp only
        split
        · exact quiet_fail _
        · exact quiet_bind _ _ (quiet_call _ _ rfl) (fun _ => quiet_ret _)

theorem quiet_reconcileGateway (c : Controller) (subnet : Subnet) :
    Quiet (reconcileGateway c subnet) := by
  unfold reconcileGateway
  refine quiet_bind _ _ (quiet_call _ _ rfl) (fun ips => ?_)
  split
  · exact quiet_reconcileDistributedGateway c subnet ips
  · exact quiet_ite _ _ _ (quiet_ret _) (quiet_activateNewGateway c subnet ips)

theorem quiet_reconcileVlan (c : Controller) (subnet : Subnet) :
    Quiet (reconcileVlan c subnet) := by
  unfold reconcileVlan
  split
  · exact quiet_ret _
  · refine quiet_bind _ _ ?_ (fun _ => ?_)
    · split
      · exact quiet_bind _ _ (quiet_call _ _ rfl) (fun _ => quiet_emit _ rfl)
      · exact quiet_ret _
    · split
      · exact quiet_fail _
      · refine quiet_forEach _ _ (fun vlan => ?_)
        split
        · exact quiet_emit _ rfl
        · exact quiet_ret _

theorem quiet_reconcileSubnet (c : Controller) (subnet : Subnet) :
    Quiet (reconcileSubnet c subnet) := by
  unfold reconcileSubnet
  refine quiet_bind _ _ (quiet_reconcileNamespaces c subnet) (fun _ => ?_)
  refine quiet_bind _ _ ?_ (fun s2 => ?_)
  · split
    · exact quiet_reconcileGateway c subnet
    · exact quiet_ret _
  · exact quiet_bind _ _ (quiet_reconcileVlan c s2) (fun _ => quiet_ret _)

theorem quiet_reconcileLogicalSwitch (c : Controller) (subnet : Subnet) :
    Quiet (reconcileLogicalSwitch c subnet) := by
  unfold reconcileLogicalSwitch
  refine quiet_andThen _ _ (quiet_call _ _ rfl) (fun r => ?_)
  split
  · exact quiet_bind _ _ (quiet_patchSubnetStatus _ _ _ _) (fun _ => quiet_fail _)
  · refine quiet_bind _ _ ?_ (fun s2 => ?_)
    · split
      · refine quiet_andThen _ _ (quiet_call _ _ rfl) (fun r => ?_)
        split
        · exact quiet_bind _ _ (quiet_patchSubnetStatus _ _ _ _) (fun _ => quiet_fail _)
        · exact quiet_ret _
      · refine quiet_andThen _ _ (quiet_call _ _ rfl) (fun r => ?_)
        split
        · exact quiet_bind _ _ (quiet_patchSubnetStatus _ _ _ _) (fun _ => quiet_fail _)
        · exact quiet_ret _
    · refine quiet_bind _ _ (quiet_reconcileSubnet c s2) (fun s3 => ?_)
      split
      · refine quiet_andThen _ _ (quiet_call _ _ rfl) (fun r => ?_)
        split
        · exact quiet_bind _ _ (quiet_patchSubnetStatus _ _ _ _) (fun _ => quiet_fail _)
        · exact quiet_bind _ _ (quiet_patchSubnetStatus _ _ _ _) (fun _ => quiet_ret _)
      · refine quiet_andThen _ _ (quiet_call _ _ rfl) (fun r => ?_)
        split
        · exact quiet_bind _ _ (quiet_patchSubnetStatus _ _ _ _) (fun _ => quiet_fail _)
        · exact quiet_bind _ _ (quiet_patchSubnetStatus _ _ _ _) (fun _ => quiet_ret _)

theorem quiet_validateAndReconcile (c : Controller) (subnet : Subnet) :
    Quiet (validateAndReconcile c subnet) := by
  unfold validateAndReconcile
  split
  · exact quiet_bind _ _ (quiet_patchSubnetStatus _ _ _ _) (fun _ => quiet_fail _)
  · refine quiet_bind _ _ (quiet_patchSubnetStatus _ _ _ _) (fun s2 => ?_)
    split
    · exact quiet_fail _
    · split
      · exact quiet_bind _ _ (quiet_patchSubnetStatus _ _ _ _) (fun _ => quiet_fail _)
      · split
        · exact quiet_fail _
        · split
          · exact quiet_bind _ _ (quiet_patchSubnetStatus _ _ _ _) (fun _ => quiet_fail _)
          · exact quiet_reconcileLogicalSwitch c s2

theorem quiet_afterFinalizer (c : Controller) (subnet : Subnet) :
    Quiet (afterFinalizer c subnet) := by
  unfold afterFinalizer
  refine quiet_bind _ _ (quiet_formatSubnet c subnet) (fun s2 => ?_)
  refine quiet_bind _ _ (quiet_calcSubnetStatusIP c s2) (fun s3 => ?_)
  refine quiet_bind _ _ (quiet_call _ _ rfl) (fun _ => ?_)
  split
  · exact quiet_ret _
  · exact quiet_validateAndReconcile c s3

theorem quiet_handleAddOrUpdateSubnet (c : Controller) (key : String) :
    Quiet (handleAddOrUpdateSubnet c key) := by
  unfold handleAddOrUpdateSubnet
  split
  · split
    · exact quiet_ret _
    · exact quiet_fail _
  · refine quiet_bind _ _ (quiet_handleSubnetFinalizer c _) (fun r => ?_)
    split
    · exact quiet_ret _
    · exact quiet_afterFinalizer c r.1

theorem quiet_handleUpdateSubnetStatus (c : Controller) (key : String) :
    Quiet (handleUpdateSubnetStatus c key) := by
  unfold handleUpdateSubnetStatus
  split
  · split
    · exact quiet_ret _
    · exact quiet_fail _
  · exact quiet_bind _ _ (quiet_calcSubnetStatusIP c _) (fun _ => quiet_ret _)

theorem quiet_handleDeleteRoute (c : Controller) (key : String) :
    Quiet (handleDeleteRoute c key) := by
  unfold handleDeleteRoute
  split
  · exact quiet_ret _
  · exact quiet_call _ _ rfl

theorem quiet_handleDeleteSubnet (c : Controller) (key : String) :
    Quiet (handleDeleteSubnet c key) := by
  unfold handleDeleteSubnet
  refine quiet_bind _ _ (quiet_emit _ rfl) (fun _ => ?_)
  refine quiet_bind _ _ (quiet_call _ _ rfl) (fun exist => ?_)
  split
  · exact quiet_ret _
  · refine quiet_bind _ _ (quiet_call _ _ rfl) (fun _ => ?_)
    refine quiet_bind _ _ (quiet_call _ _ rfl) (fun _ => ?_)
    split
    · exact quiet_fail _
    · refine quiet_bind _ _ ?_ (fun _ => ?_)
      · refine quiet_forEach _ _ (fun ns => ?_)
        split
        · exact quiet_ret _
        · split
          · exact quiet_emit _ rfl
          · exact quiet_ret _
      · split
        · refine quiet_bind _ _ (quiet_call _ _ rfl) (fun _ => ?_)
          split
          · exact quiet_fail _
          · refine quiet_forEach _ _ (fun vlan => ?_)
            split
            · exact quiet_emit _ rfl
            · exact quiet_ret _
        · exact quiet_ret _

theorem quiet_handlerOf (c : Controller) (q : Queue) (key : String) :
    Quiet (handlerOf c q key) := by
  cases q
  · exact quiet_handleAddOrUpdateSubnet c key
  · exact quiet_handleDeleteSubnet c key
  · exact quiet_handleUpdateSubnetStatus c key
  · exact quiet_handleDeleteRoute c key

/-! ## The worker step -/

theorem filter_bookkeeping_of_quiet {α : Type} (r : Run α) (h : Quiet r) :
    r.calls.filter isQueueBookkeeping = [] := by
  rw [List.filter_eq_nil_iff]
  intro k hk
  simp [h k hk]

/-- The worker step on a string key, for any queue and handler. -/
theorem processNextWorkItem_key (c : Controller) (q : Queue) (handler : String → Run Unit)
    (key : String) (hget : c.queueGet q = (.key key, false)) :
    processNextWorkItem c q handler =
      ⟨(handler key).calls ++
        [match (handler key).res with
          | .error _ => .queueAddRateLimited q key
          | .ok _ => .queueForget q (.key key),
         .queueDone q (.key key)],
       .ok true⟩ := by
  unfold processNextWorkItem processWorkItem
  rw [hget]
  cases hr : (handler key).res with
  | error e => simp [Run.andThen, Run.bind, hr]
  | ok u => simp [Run.andThen, Run.bind, hr]

theorem workerOf_eq (c : Controller) (q : Queue) :
    workerOf c q = processNextWorkItem c q (handlerOf c q) := by
  cases q <;> rfl

/-- C16: for each of the four reconciler queues and every string key dequeued from it,
the worker step runs the handler of the queue on the key and then makes exactly two
bookkeeping calls, in this order: `AddRateLimited(key)` if the handler returned an
error, `Forget(key)` if it returned success, and `Done(key)`; no other `AddRateLimited`,
`Forget` or `Done` occurs in the whole step, and the step answers `true`.  The step
answers `false` exactly when the queue reports shutdown. -/
theorem worker_step (c : Controller) (q : Queue) :
    (∀ key, c.queueGet q = (.key key, false) →
      (workerOf c q).calls = (handlerOf c q key).calls ++
        [match (handlerOf c q key).res with
          | .error _ => .queueAddRateLimited q key
          | .ok _ => .queueForget q (.key key),
         .queueDone q (.key key)] ∧
      (workerOf c q).res = .ok true ∧
      ((∃ e, (handlerOf c q key).res = .error e) →
        (workerOf c q).calls.filter isQueueBookkeeping =
          [.queueAddRateLimited q key, .queueDone q (.key key)]) ∧
      ((handlerOf c q key).res = .ok () →
        (workerOf c q).calls.filter isQueueBookkeeping =
          [.queueForget q (.key key), .queueDone q (.key key)])) ∧
    ((workerOf c q).res = .ok false ↔ (c.queueGet q).2 = true) := by
  rw [workerOf_eq]
  constructor
  · intro key hget
    rw [processNextWorkItem_key c q (handlerOf c q) key hget]
    have hq := filter_bookkeeping_of_quiet _ (quiet_handlerOf c q key)
    refine ⟨rfl, rfl, ?_, ?_⟩
    · rintro ⟨e, he⟩
      simp [he, hq, isQueueBookkeeping]
    · intro hok
      simp [hok, hq, isQueueBookkeeping]
  · unfold processNextWorkItem
    by_cases hs : (c.queueGet q).2 = true
    · simp [hs]
    · simp [hs, Run.andThen]

/-- The key `s1` on the addOrUpdateSubnet queue of the sample cluster: the handler
succeeds, so the step ends with `Forget` and `Done`. -/
theorem worker_step_witness :
    (handlerOf workingController .addOrUpdateSubnet "s1").res = .ok () ∧
    (workerOf workingController .addOrUpdateSubnet).calls.filter isQueueBookkeeping =
      [.queueForget .addOrUpdateSubnet (.key "s1"), .queueDone .addOrUpdateSubnet (.key "s1")] :=
  ⟨by decide,
   ((worker_step workingController .addOrUpdateSubnet).1 "s1" rfl).2.2.2 (by decide)⟩

/-! ## Runs whose calls all satisfy a predicate -/

theorem only_ret {α : Type} (P : Call → Prop) (a : α) : Only P (Run.ret a) := by
  intro k hk
  simp at hk

theorem only_fail {α : Type} (P : Call → Prop) (e : Err) : Only P (Run.fail e : Run α) := by
  intro k hk
  simp at hk

theorem only_call {α : Type} (P : Call → Prop) (k : Call) (r : Result α) (h : P k) :
    Only P (Run.call k r) := by
  intro k2 hk
  simp at hk
  exact hk ▸ h

theorem only_emit (P : Call → Prop) (k : Call) (h : P k) : Only P (Run.emit k) := by
  intro k2 hk
  simp at hk
  exact hk ▸ h

theorem only_bind {α β : Type} (P : Call → Prop) (m : Run α) (f : α → Run β)
    (hm : Only P m) (hf : ∀ a, Only P (f a)) : Only P (m.bind f) := by
  intro k hk
  unfold Run.bind at hk
  split at hk
  · exact hm k hk
  · rename_i a _
    simp only [List.mem_append] at hk
    rcases hk with hk | hk
    · exact hm k hk
    · exact hf a k hk

theorem only_andThen {α β : Type} (P : Call → Prop) (m : Run α) (f : Result α → Run β)
    (hm : Only P m) (hf : ∀ r, Only P (f r)) : Only P (m.andThen f) := by
  intro k hk
  simp only [Run.andThen_calls, List.mem_append] at hk
  rcases hk with hk | hk
  · exact hm k hk
  · exact hf _ k hk

theorem only_forEach {α : Type} (P : Call → Prop) (f : α → Run Unit) (l : List α)
    (hf : ∀ x, Only P (f x)) : Only P (forEach f l) := by
  induction l with
  | nil => exact only_ret P ()
  | cons x rest ih => exact only_bind P _ _ (hf x) (fun _ => ih)

theorem only_ite {α : Type} (P : Call → Prop) (p : Prop) [Decidable p] (x y : Run α)
    (hx : Only P x) (hy : Only P y) : Only P (if p then x else y) := by
  split <;> assumption

/-! ## `reconcileNamespaces`: the other subnets -/

theorem stripNamespaces_foldl (namespaceMap : List String) (namespaces : List String) :
    ∀ (b : Bool) (acc : List String),
      namespaces.foldl
        (fun acc ns =>
          if namespaceMap.contains ns then (true, acc.2) else (acc.1, acc.2 ++ [ns]))
        (b, acc) =
      (b || namespaces.any (fun ns => namespaceMap.contains ns),
       acc ++ namespaces.filter (fun ns => !namespaceMap.contains ns)) := by
  induction namespaces with
  | nil => intro b acc; simp
  | cons ns rest ih =>
    intro b acc
    simp only [List.foldl_cons]
    by_cases h : namespaceMap.contains ns = true
    · have h2 : ns ∈ namespaceMap := by simpa using h
      simp only [h, if_true]
      rw [ih]
      simp [h2]
    · have h2 : ns ∉ namespaceMap := by simpa using h
      simp only [h]
      rw [ih]
      simp [h2]

/-- The inner loop of `reconcileNamespaces` in closed form. -/
theorem stripNamespaces_eq (namespaceMap : List String) (namespaces : List String) :
    stripNamespaces namespaceMap namespaces =
      (namespaces.any (fun ns => namespaceMap.contains ns),
       namespaces.filter (fun ns => !namespaceMap.contains ns)) := by
  unfold stripNamespaces
  rw [stripNamespaces_foldl]
  simp

theorem shares_iff_any (namespaceMap namespaces : List String) :
    namespaces.any (fun ns => namespaceMap.contains ns) = true ↔
      ∃ ns ∈ namespaces, ns ∈ namespaceMap := by
  simp [List.any_eq_true]

/-- One step of the loop over the listed subnets. -/
theorem unbindNamespaces_cons (c : Controller) (namespaceMap : List String) (sub : Subnet)
    (rest : List Subnet) (subnet : Subnet) :
    unbindNamespaces c namespaceMap (sub :: rest) subnet =
      if sub.Name = subnet.Name ∨ sub.Spec.Namespaces.length = 0 then
        unbindNamespaces c namespaceMap rest subnet
      else if sub.Spec.Namespaces.any (fun ns => namespaceMap.contains ns) = true then
        (Run.call (.subnetsUpdate (withoutNamespaces namespaceMap sub))
          (c.subnetsUpdate (withoutNamespaces namespaceMap sub))).bind fun subnet =>
          unbindNamespaces c namespaceMap rest subnet
      else unbindNamespaces c namespaceMap rest subnet := by
  conv_lhs => unfold unbindNamespaces
  simp only [stripNamespaces_eq, withoutNamespaces]
  by_cases h1 : sub.Name = subnet.Name ∨ sub.Spec.Namespaces.length = 0
  · rw [if_pos h1, if_pos h1]
  · rw [if_neg h1, if_neg h1]
    by_cases h2 : sub.Spec.Namespaces.any (fun ns => namespaceMap.contains ns) = true
    · rw [if_pos h2, if_pos h2]
      simp only [h2, Bool.not_true, Bool.and_false]
    · rw [if_neg h2, if_neg h2]

/-- Every `Update` of the loop carries a listed subnet, stripped, that held a namespace
of the map. -/
theorem unbindNamespaces_updates (c : Controller) (namespaceMap : List String)
    (l : List Subnet) :
    ∀ subnet u, Call.subnetsUpdate u ∈ (unbindNamespaces c namespaceMap l subnet).calls →
      ∃ sub ∈ l, u = withoutNamespaces namespaceMap sub ∧
        ∃ ns ∈ sub.Spec.Namespaces, ns ∈ namespaceMap := by
  induction l with
  | nil => intro subnet u hu; simp [unbindNamespaces] at hu
  | cons sub rest ih =>
    intro subnet u hu
    rw [unbindNamespaces_cons] at hu
    split at hu
    · obtain ⟨s2, hs2, h⟩ := ih subnet u hu
      exact ⟨s2, List.mem_cons_of_mem _ hs2, h⟩
    · split at hu
      · rename_i hany
        unfold Run.bind at hu
        split at hu
        · simp only [Run.call_calls, List.mem_singleton, Call.subnetsUpdate.injEq] at hu
          exact ⟨sub, List.mem_cons_self _ _, hu, (shares_iff_any _ _).mp hany⟩
        · rename_i a _
          simp only [Run.call_calls, List.singleton_append, List.mem_cons,
            Call.subnetsUpdate.injEq] at hu
          rcases hu with hu | hu
          · exact ⟨sub, List.mem_cons_self _ _, hu, (shares_iff_any _ _).mp hany⟩
          · obtain ⟨s2, hs2, h⟩ := ih a u hu
            exact ⟨s2, List.mem_cons_of_mem _ hs2, h⟩
      · obtain ⟨s2, hs2, h⟩ := ih subnet u hu
        exact ⟨s2, List.mem_cons_of_mem _ hs2, h⟩

/-- When the loop ends without error, every listed subnet of another name that holds a
namespace of the map has been sent to `Update`, stripped. -/
theorem unbindNamespaces_sends (c : Controller) (namespaceMap : List String) (name : String)
    (hupd : ∀ sub u, c.subnetsUpdate sub = .ok u → u.Name = sub.Name)
    (l : List Subnet) :
    ∀ subnet fin, (l.map (fun sub => sub.Name)).Nodup →
      (∀ sub ∈ l, sub.Name ≠ name → sub.Name ≠ subnet.Name) →
      (unbindNamespaces c namespaceMap l subnet).res = .ok fin →
      ∀ sub ∈ l, sub.Name ≠ name → (∃ ns ∈ sub.Spec.Namespaces, ns ∈ namespaceMap) →
        Call.subnetsUpdate (withoutNamespaces namespaceMap sub) ∈
          (unbindNamespaces c namespaceMap l subnet).calls := by
  induction l with
  | nil => intro subnet fin _ _ _ sub hsub; simp at hsub
  | cons sub0 rest ih =>
    intro subnet fin hnodup hinv hres sub hsub hother hshare
    simp only [List.map_cons, List.nodup_cons, List.mem_map, not_exists, not_and] at hnodup
    have hinvRest : ∀ sub ∈ rest, sub.Name ≠ name → sub.Name ≠ subnet.Name :=
      fun s2 hs2 => hinv s2 (List.mem_cons_of_mem _ hs2)
    rw [unbindNamespaces_cons] at hres ⊢
    rcases List.mem_cons.mp hsub with rfl | hrest
    · -- the head is the subnet in question
      have h1 : ¬ (sub.Name = subnet.Name ∨ sub.Spec.Namespaces.length = 0) := by
        rintro (h | h)
        · exact hinv sub (List.mem_cons_self _ _) hother h
        · obtain ⟨ns, hns, -⟩ := hshare
          rw [List.length_eq_zero] at h
          rw [h] at hns
          simp at hns
      have h2 := (shares_iff_any namespaceMap sub.Spec.Namespaces).mpr hshare
      rw [if_neg h1, if_pos h2]
      unfold Run.bind
      split <;> simp
    · split at hres
      · rename_i hskip
        rw [if_pos hskip]
        exact ih subnet fin hnodup.2 hinvRest hres sub hrest hother hshare
      · rename_i hskip
        rw [if_neg hskip]
        split at hres
        · rename_i hany
          rw [if_pos hany]
          cases hu : c.subnetsUpdate (withoutNamespaces namespaceMap sub0) with
          | error e => simp [Run.bind, hu] at hres
          | ok u =>
            simp only [Run.bind, Run.call_res, hu, Run.call_calls] at hres ⊢
            have hname : u.Name = sub0.Name := hupd (withoutNamespaces namespaceMap sub0) u hu
            have hinvU : ∀ s2 ∈ rest, s2.Name ≠ name → s2.Name ≠ u.Name := by
              intro s2 hs2 _ heq
              exact hnodup.1 s2 hs2 (by rw [heq, hname])
            exact List.mem_append_right _
              (ih u fin hnodup.2 hinvU hres sub hrest hother hshare)
        · rename_i hany
          rw [if_neg hany]
          exact ih subnet fin hnodup.2 hinvRest hres sub hrest hother hshare

/-- Whatever `reconcileNamespaces` calls after the loop over the subnets is an `Add` on
the namespace queue. -/
theorem enqueueNamespaces_only (c : Controller) (namespaceMap : List String)
    (subnet : Subnet) :
    Only (fun k => ∃ ns, k = .addNamespaceQueueAdd ns)
      (enqueueNamespaces c namespaceMap subnet) := by
  unfold enqueueNamespaces
  refine only_bind _ _ _ (only_forEach _ _ _ (fun ns => only_emit _ _ ⟨ns, rfl⟩)) (fun _ => ?_)
  split
  · exact only_fail _ _
  · refine only_forEach _ _ _ (fun ns => ?_)
    split
    · exact only_ret _ _
    · exact only_ite _ _ _ _ (only_emit _ _ ⟨_, rfl⟩) (only_ret _ _)

theorem reconcileNamespaces_eq (c : Controller) (subnet : Subnet) (subs : List Subnet)
    (hlist : c.subnetsList = .ok subs) :
    reconcileNamespaces c subnet =
      (unbindNamespaces c subnet.Spec.Namespaces subs subnet).bind
        (enqueueNamespaces c subnet.Spec.Namespaces) := by
  unfold reconcileNamespaces
  rw [hlist]

/-- C11: when `reconcileNamespaces(s)` returns success on a listed store (names pairwise
distinct, `Update` answering an object of the name it was sent), every listed subnet of
another name was sent to `Update` exactly when it held a namespace of
`s.Spec.Namespaces`, and the object sent is the subnet with those namespaces removed and
all its other namespaces kept in their order; a subnet that held none is not sent and
stays as it is. -/
theorem reconcileNamespaces_unbinds (c : Controller) (s : Subnet) (subs : List Subnet)
    (hlist : c.subnetsList = .ok subs)
    (hnodup : (subs.map (fun sub => sub.Name)).Nodup)
    (hupd : ∀ sub u, c.subnetsUpdate sub = .ok u → u.Name = sub.Name)
    (hres : (reconcileNamespaces c s).res = .ok ()) :
    ∀ sub ∈ subs, sub.Name ≠ s.Name →
      ((∃ ns ∈ sub.Spec.Namespaces, ns ∈ s.Spec.Namespaces) →
        Call.subnetsUpdate (withoutNamespaces s.Spec.Namespaces sub) ∈
          (reconcileNamespaces c s).calls) ∧
      (∀ u, Call.subnetsUpdate u ∈ (reconcileNamespaces c s).calls → u.Name = sub.Name →
        u = withoutNamespaces s.Spec.Namespaces sub ∧
          ∃ ns ∈ sub.Spec.Namespaces, ns ∈ s.Spec.Namespaces) ∧
      (withoutNamespaces s.Spec.Namespaces sub).Spec.Namespaces =
        sub.Spec.Namespaces.filter (fun ns => decide (ns ∉ s.Spec.Namespaces)) ∧
      (∀ ns ∈ (withoutNamespaces s.Spec.Namespaces sub).Spec.Namespaces,
        ns ∉ s.Spec.Namespaces) ∧
      ((¬ ∃ ns ∈ sub.Spec.Namespaces, ns ∈ s.Spec.Namespaces) →
        withoutNamespaces s.Spec.Namespaces sub = sub) := by
  have htail := enqueueNamespaces_only c s.Spec.Namespaces
  rw [reconcileNamespaces_eq c s subs hlist] at hres ⊢
  intro sub hsub hother
  cases hloop : (unbindNamespaces c s.Spec.Namespaces subs s).res with
  | error e => simp [Run.bind, hloop] at hres
  | ok fin =>
    have hcalls : ((unbindNamespaces c s.Spec.Namespaces subs s).bind
          (enqueueNamespaces c s.Spec.Namespaces)).calls =
        (unbindNamespaces c s.Spec.Namespaces subs s).calls ++
          (enqueueNamespaces c s.Spec.Namespaces fin).calls := by
      simp [Run.bind, hloop]
    rw [hcalls]
    have hfilter : (withoutNamespaces s.Spec.Namespaces sub).Spec.Namespaces =
        sub.Spec.Namespaces.filter (fun ns => decide (ns ∉ s.Spec.Namespaces)) := by
      simp only [withoutNamespaces]
      congr 1
      funext ns
      simp
    refine ⟨?_, ?_, hfilter, ?_, ?_⟩
    · intro hshare
      exact List.mem_append_left _
        (unbindNamespaces_sends c s.Spec.Namespaces s.Name hupd subs s fin hnodup
          (fun s2 _ h => h) hloop sub hsub hother hshare)
    · intro u hu hname
      rcases List.mem_append.mp hu with hu | hu
      · obtain ⟨s2, hs2, hu2, hshare⟩ :=
          unbindNamespaces_updates c s.Spec.Namespaces subs s u hu
        have hn : s2.Name = sub.Name := by
          rw [← hname, hu2]
          rfl
        have : s2 = sub := List.inj_on_of_nodup_map hnodup hs2 hsub hn
        subst this
        exact ⟨hu2, hshare⟩
      · obtain ⟨ns, hns⟩ := htail fin _ hu
        cases hns
    · intro ns hns
      rw [hfilter] at hns
      simpa using (List.mem_filter.mp hns).2
    · intro hnone
      have : sub.Spec.Namespaces.filter (fun ns => !s.Spec.Namespaces.contains ns) =
          sub.Spec.Namespaces := by
        rw [List.filter_eq_self]
        intro ns hns
        have : ns ∉ s.Spec.Namespaces := fun h => hnone ⟨ns, hns, h⟩
        simp [this]
      have hany : sub.Spec.Namespaces.any (fun ns => s.Spec.Namespaces.contains ns) = false := by
        cases ha : sub.Spec.Namespaces.any (fun ns => s.Spec.Namespaces.contains ns) with
        | false => rfl
        | true => exact absurd ((shares_iff_any _ _).mp ha) hnone
      simp only [withoutNamespaces, this, hany, Bool.not_false, Bool.and_true]

/-- The store of `s` and `o`: `o` held `ns1`, so it is sent to `Update` with `ns2` left. -/
theorem reconcileNamespaces_unbinds_witness :
    (reconcileNamespaces namespaceController bindingSubnet).res = .ok () ∧
    Call.subnetsUpdate
        { otherSubnet with Spec := { otherSubnet.Spec with Namespaces := ["ns2"] } } ∈
      (reconcileNamespaces namespaceController bindingSubnet).calls :=
  ⟨by decide,
   ((reconcileNamespaces_unbinds namespaceController bindingSubnet
      [bindingSubnet, otherSubnet] rfl (by decide)
      (fun sub u h => by
        have h2 : Result.ok sub = Result.ok u := h
        cases h2
        rfl)
      (by decide)) otherSubnet (by decide) (by decide)).1 ⟨"ns1", by decide, by decide⟩⟩

/-! ## `handleDeleteSubnet` -/

/-- A loop whose body never fails runs the body on every element. -/
theorem forEach_mem_of_ok {α : Type} (f : α → Run Unit) (hf : ∀ x, (f x).res = .ok ())
    (l : List α) :
    (forEach f l).res = .ok () ∧
    ∀ x ∈ l, ∀ k ∈ (f x).calls, k ∈ (forEach f l).calls := by
  induction l with
  | nil => exact ⟨rfl, fun x hx => by simp at hx⟩
  | cons y rest ih =>
    simp only [forEach, Run.bind, hf y]
    refine ⟨ih.1, ?_⟩
    intro x hx k hk
    rcases List.mem_cons.mp hx with rfl | hrest
    · exact List.mem_append_left _ hk
    · exact List.mem_append_right _ (ih.2 x hrest k hk)

/-- C12, as the code has it: `handleDeleteSubnet(key)` always starts by dropping the
subnet from IPAM.  If the logical switch does not exist, it returns success right after
the existence check and enqueues nothing.  If the switch exists and the ACL clean fails,
the run ends there with that error, `DeleteLogicalSwitch` not called.  If the switch
exists and the run returns success, `CleanLogicalSwitchAcl(key)` was called just before
`DeleteLogicalSwitch(key)`, and every listed namespace whose `logical_switch` annotation
equals `key` has been handed to `enqueueAddNamespace`. -/
theorem handleDeleteSubnet_cases (c : Controller) (key : String) :
    (handleDeleteSubnet c key).calls.head? = some (.ipamDeleteSubnet key) ∧
    (c.LogicalSwitchExists key = .ok false →
      handleDeleteSubnet c key =
        ⟨[.ipamDeleteSubnet key, .LogicalSwitchExists key], .ok ()⟩) ∧
    (∀ e, c.LogicalSwitchExists key = .ok true → c.CleanLogicalSwitchAcl key = some e →
      handleDeleteSubnet c key =
        ⟨[.ipamDeleteSubnet key, .LogicalSwitchExists key, .CleanLogicalSwitchAcl key],
         .error e⟩) ∧
    (c.LogicalSwitchExists key = .ok true → (handleDeleteSubnet c key).res = .ok () →
      (handleDeleteSubnet c key).calls.take 4 =
        [.ipamDeleteSubnet key, .LogicalSwitchExists key, .CleanLogicalSwitchAcl key,
         .DeleteLogicalSwitch key] ∧
      ∃ nss, c.namespacesList = .ok nss ∧
        ∀ ns ∈ nss, ∀ annotations, ns.Annotations = some annotations →
          mapGet annotations LogicalSwitchAnnotation = key →
          Call.enqueueAddNamespace ns.Name ∈ (handleDeleteSubnet c key).calls) := by
  refine ⟨?_, ?_, ?_, ?_⟩
  · unfold handleDeleteSubnet
    cases hex : c.LogicalSwitchExists key with
    | error e => simp [Run.bind, hex]
    | ok exist => simp [Run.bind, hex]
  · intro hex
    unfold handleDeleteSubnet
    simp [Run.bind, hex, Run.ret]
  · intro e hex hclean
    unfold handleDeleteSubnet
    simp [Run.bind, hex, hclean, ofErr]
  · intro hex hres
    unfold handleDeleteSubnet at hres ⊢
    simp only [Run.bind, Run.emit_res, Run.emit_calls, Run.call_res, Run.call_calls, hex,
      Bool.not_true, Bool.false_eq_true, if_false] at hres ⊢
    cases hclean : c.CleanLogicalSwitchAcl key with
    | some e => simp [hclean, ofErr] at hres
    | none =>
      simp only [hclean, ofErr] at hres ⊢
      cases hdel : c.DeleteLogicalSwitch key with
      | some e => simp [hdel] at hres
      | none =>
        simp only [hdel] at hres ⊢
        cases hns : c.namespacesList with
        | error e => simp [hns] at hres
        | ok nss =>
          simp only [hns] at hres ⊢
          refine ⟨by simp, nss, rfl, ?_⟩
          intro ns hns2 annotations hann hkey
          have hloop := forEach_mem_of_ok (fun (ns : Namespace) =>
            match ns.Annotations with
            | none => Run.ret ()
            | some annotations =>
              if mapGet annotations LogicalSwitchAnnotation = key then
                Run.emit (.enqueueAddNamespace ns.Name)
              else Run.ret ())
            (fun x => by
              cases hx : x.Annotations with
              | none => simp only [hx]; rfl
              | some a =>
                simp only [hx]
                split <;> rfl) nss
          have hmem := hloop.2 ns hns2 (.enqueueAddNamespace ns.Name)
            (by simp [hann, hkey])
          simp only [hloop.1]
          simp only [List.singleton_append, List.mem_cons, List.mem_append]
          exact Or.inr (Or.inr (Or.inr (Or.inr (Or.inl hmem))))

/-- The cluster in which the logical switch `s1` exists: the ACLs are cleaned, the switch
is deleted, the namespace `ns1` is handed to `enqueueAddNamespace`. -/
theorem handleDeleteSubnet_cases_witness :
    handleDeleteSubnet liveSwitchController "s1" =
      ⟨[.ipamDeleteSubnet "s1", .LogicalSwitchExists "s1", .CleanLogicalSwitchAcl "s1",
        .DeleteLogicalSwitch "s1", .enqueueAddNamespace "ns1"], .ok ()⟩ ∧
    (handleDeleteSubnet liveSwitchController "s1").calls.take 4 =
      [.ipamDeleteSubnet "s1", .LogicalSwitchExists "s1", .CleanLogicalSwitchAcl "s1",
       .DeleteLogicalSwitch "s1"] :=
  ⟨by decide,
   ((handleDeleteSubnet_cases liveSwitchController "s1").2.2.2 rfl (by decide)).1⟩

/-- C12 fails as stated: with the namespace `ns1` annotated `logical_switch = s1` and no
logical switch `s1` in OVN, `handleDeleteSubnet("s1")` returns success after the IPAM
drop and the existence check; `ns1` is not enqueued. -/
theorem handleDeleteSubnet_missing_switch :
    orphanController.namespacesList = .ok [boundNamespace] ∧
    boundNamespace.Annotations = some [( LogicalSwitchAnnotation, "s1")] ∧
    handleDeleteSubnet orphanController "s1" =
      ⟨[.ipamDeleteSubnet "s1", .LogicalSwitchExists "s1"], .ok ()⟩ := by
  decide

theorem mapSet_lookup (m : List (String × String)) (k v k2 : String) :
    (mapSet m k v).lookup k2 = if k2 = k then some v else m.lookup k2 := by
  induction m with
  | nil =>
    by_cases h : k2 = k
    · subst h; simp [mapSet, List.lookup]
    · have hb : (k2 == k) = false := by simpa using h
      simp [mapSet, List.lookup, h, hb]
  | cons e m ih =>
    obtain ⟨a, b⟩ := e
    by_cases ha : a = k
    · subst ha
      by_cases h : k2 = a
      · subst h; simp [mapSet, List.lookup]
      · have hb : (k2 == a) = false := by simpa using h
        simp [mapSet, List.lookup, h, hb]
    · by_cases h2 : k2 = a
      · subst h2
        simp [mapSet, List.lookup, ha]
      · have hb : (k2 == a) = false := by simpa using h2
        simp [mapSet, List.lookup, ha, h2, hb, ih]

theorem createOrUpdateIPCr_notFound (csh : cniServerHandler) (podRequest : CniRequest)
    (subnet ip macAddr : String) (err : Err)
    (hget : csh.ipsGet (ipName podRequest) = .error err) (hnf : IsNotFound err = true) :
    (createOrUpdateIPCr csh podRequest subnet ip macAddr).calls =
        [.ipsGet (ipName podRequest), .ipsCreate (createdIP csh podRequest subnet ip macAddr)] ∧
      ((createOrUpdateIPCr csh podRequest subnet ip macAddr).res = .ok .returned ↔
        ∃ a, csh.ipsCreate (createdIP csh podRequest subnet ip macAddr) = .ok a) := by
  unfold ipName at hget
  obtain ⟨r, hr⟩ : ∃ r, csh.ipsCreate (createdIP csh podRequest subnet ip macAddr) = r :=
    ⟨_, rfl⟩
  have hr2 := hr
  simp only [createdIP] at hr2
  cases r <;>
    simp [createOrUpdateIPCr, hget, hnf, hr, hr2, Run.call, Run.andThen, Run.ret, Run.fail,
      ipName, createdIP]

theorem createOrUpdateIPCr_found (csh : cniServerHandler) (podRequest : CniRequest)
    (subnet ip macAddr : String) (ipCr : IP) (labels : List (String × String))
    (hget : csh.ipsGet (ipName podRequest) = .ok ipCr) (hlab : ipCr.Labels = some labels) :
    (createOrUpdateIPCr csh podRequest subnet ip macAddr).calls =
        [.ipsGet (ipName podRequest), .ipsUpdate (updatedIP ipCr labels subnet ip macAddr)] ∧
      ((createOrUpdateIPCr csh podRequest subnet ip macAddr).res = .ok .returned ↔
        ∃ a, csh.ipsUpdate (updatedIP ipCr labels subnet ip macAddr) = .ok a) := by
  unfold ipName at hget
  obtain ⟨r, hr⟩ : ∃ r, csh.ipsUpdate (updatedIP ipCr labels subnet ip macAddr) = r :=
    ⟨_, rfl⟩
  have hr2 := hr
  simp only [updatedIP] at hr2
  cases r <;>
    simp [createOrUpdateIPCr, hget, hlab, hr, hr2, Run.call, Run.andThen, Run.ret, Run.fail,
      ipName, updatedIP]

/-- C18: `createOrUpdateIPCr` first gets the IP object `<podName>.<podNamespace>`.  When
the object is not found it calls Create, once, with an object of that name whose label map
holds `subnet: ""` and `ovn.kubernetes.io/subnet: subnet` and no other key, and whose spec
is `{podName, namespace, subnet, nodeName, ip, mac, containerID}` with empty attach lists.
When the object exists (with a label map) it calls Update, once, with the object in which
only the label `subnet` (set to `""`) and the three attach lists (each with `subnet`, `ip`,
`mac` appended) differ: name, primary subnet, IP, MAC and the other fields of the spec are
those of the object read.  In both cases the function returns `nil` exactly when the
write succeeds. -/
theorem createOrUpdateIPCr_create_or_update (csh : cniServerHandler) (podRequest : CniRequest)
    (subnet ip macAddr : String) :
    (∀ err, csh.ipsGet (podRequest.PodName ++ "." ++ podRequest.PodNamespace) = .error err →
      IsNotFound err = true →
      ∃ created labels,
        (createOrUpdateIPCr csh podRequest subnet ip macAddr).calls =
          [.ipsGet (podRequest.PodName ++ "." ++ podRequest.PodNamespace),
           .ipsCreate created] ∧
        ((createOrUpdateIPCr csh podRequest subnet ip macAddr).res = .ok .returned ↔
          ∃ a, csh.ipsCreate created = .ok a) ∧
        created.Name = podRequest.PodName ++ "." ++ podRequest.PodNamespace ∧
        created.Labels = some labels ∧
        (∀ k, labels.lookup k =
          if k = subnet then some "" else if k = SubnetNameLabel then some subnet else none) ∧
        (subnet ≠ SubnetNameLabel → labels = [(SubnetNameLabel, subnet), (subnet, "")]) ∧
        created.Spec =
          { PodName := podRequest.PodName, Namespace := podRequest.PodNamespace,
            Subnet := subnet, AttachSubnets := [], NodeName := csh.NodeName,
            IPAddress := ip, AttachIPs := [], MacAddress := macAddr, AttachMacs := [],
            ContainerID := podRequest.ContainerID }) ∧
    (∀ ipCr old, csh.ipsGet (podRequest.PodName ++ "." ++ podRequest.PodNamespace) = .ok ipCr →
      ipCr.Labels = some old →
      ∃ updated labels,
        (createOrUpdateIPCr csh podRequest subnet ip macAddr).calls =
          [.ipsGet (podRequest.PodName ++ "." ++ podRequest.PodNamespace),
           .ipsUpdate updated] ∧
        ((createOrUpdateIPCr csh podRequest subnet ip macAddr).res = .ok .returned ↔
          ∃ a, csh.ipsUpdate updated = .ok a) ∧
        updated.Name = ipCr.Name ∧
        updated.Labels = some labels ∧
        (∀ k, labels.lookup k = if k = subnet then some "" else old.lookup k) ∧
        updated.Spec.Subnet = ipCr.Spec.Subnet ∧
        updated.Spec.IPAddress = ipCr.Spec.IPAddress ∧
        updated.Spec.MacAddress = ipCr.Spec.MacAddress ∧
        updated.Spec.PodName = ipCr.Spec.PodName ∧
        updated.Spec.Namespace = ipCr.Spec.Namespace ∧
        updated.Spec.NodeName = ipCr.Spec.NodeName ∧
        updated.Spec.ContainerID = ipCr.Spec.ContainerID ∧
        updated.Spec.AttachSubnets = ipCr.Spec.AttachSubnets ++ [subnet] ∧
        updated.Spec.AttachIPs = ipCr.Spec.AttachIPs ++ [ip] ∧
        updated.Spec.AttachMacs = ipCr.Spec.AttachMacs ++ [macAddr]) := by
  refine ⟨fun err hget hnf => ?_, fun ipCr old hget hlab => ?_⟩
  · obtain ⟨hc, hr⟩ := createOrUpdateIPCr_notFound csh podRequest subnet ip macAddr err hget hnf
    refine ⟨createdIP csh podRequest subnet ip macAddr,
      mapSet (mapSet [] SubnetNameLabel subnet) subnet "", hc, hr, rfl, rfl, ?_, ?_, rfl⟩
    · intro k
      rw [mapSet_lookup, mapSet_lookup]
      rfl
    · intro hne
      have hne2 : ¬ SubnetNameLabel = subnet := fun h => hne h.symm
      simp [mapSet, hne2]
  · obtain ⟨hc, hr⟩ := createOrUpdateIPCr_found csh podRequest subnet ip macAddr ipCr old
      hget hlab
    exact ⟨updatedIP ipCr old subnet ip macAddr, mapSet old subnet "", hc, hr, rfl, rfl,
      fun k => mapSet_lookup old subnet "" k, rfl, rfl, rfl, rfl, rfl, rfl, rfl, rfl, rfl, rfl⟩

/-- The claim C18 at a node without the IP object (`unvalidatedHandler`) and at a node
with it (`attachedHandler`), for the attachment `(s2, 10.17.0.5, 00:00:00:aa:bb:02)`. -/
theorem createOrUpdateIPCr_create_or_update_witness :
    (∃ created,
      (createOrUpdateIPCr unvalidatedHandler sampleRequest "s2" "10.17.0.5"
          "00:00:00:aa:bb:02").calls = [.ipsGet "web.default", .ipsCreate created] ∧
      created.Labels = some [("ovn.kubernetes.io/subnet", "s2"), ("s2", "")] ∧
      created.Spec.Subnet = "s2" ∧ created.Spec.AttachSubnets = []) ∧
    (∃ updated,
      (createOrUpdateIPCr attachedHandler sampleRequest "s2" "10.17.0.5"
          "00:00:00:aa:bb:02").calls = [.ipsGet "web.default", .ipsUpdate updated] ∧
      updated.Spec.Subnet = "s1" ∧ updated.Spec.IPAddress = "10.16.0.5" ∧
      updated.Spec.AttachSubnets = ["s2"] ∧ updated.Spec.AttachIPs = ["10.17.0.5"] ∧
      updated.Spec.AttachMacs = ["00:00:00:aa:bb:02"]) := by
  obtain ⟨hcreate, _⟩ := createOrUpdateIPCr_create_or_update unvalidatedHandler sampleRequest
    "s2" "10.17.0.5" "00:00:00:aa:bb:02"
  obtain ⟨_, hupdate⟩ := createOrUpdateIPCr_create_or_update attachedHandler sampleRequest
    "s2" "10.17.0.5" "00:00:00:aa:bb:02"
  obtain ⟨created, labels, hc, _, _, hl, _, hl2, hs⟩ :=
    hcreate (.notFound "web.default") (by decide) (by decide)
  obtain ⟨updated, labels2, hu, _, _, _, _, hsub, hip, _, _, _, _, _, ha, hb, hm⟩ :=
    hupdate webIP _ (by decide) rfl
  refine ⟨⟨created, hc, ?_, ?_, ?_⟩, ⟨updated, hu, hsub, hip, ha, hb, hm⟩⟩
  · rw [hl, hl2 (by decide)]
    rfl
  · rw [hs]
  · rw [hs]

/-- C19: for an existing IP object (with a label map) whose three attach lists have the
same length, the object that `createOrUpdateIPCr` sends to Update has three attach lists
of the same length again, each one longer than before, and its attachments (position `i`
of the three lists, taken together) are the attachments of the object read followed by
`(subnet, ip, mac)`. -/
theorem createOrUpdateIPCr_parallel (csh : cniServerHandler) (podRequest : CniRequest)
    (subnet ip macAddr : String) (ipCr : IP) (old : List (String × String))
    (hget : csh.ipsGet (podRequest.PodName ++ "." ++ podRequest.PodNamespace) = .ok ipCr)
    (hlab : ipCr.Labels = some old)
    (h1 : ipCr.Spec.AttachSubnets.length = ipCr.Spec.AttachIPs.length)
    (h2 : ipCr.Spec.AttachIPs.length = ipCr.Spec.AttachMacs.length) :
    ∃ updated,
      (createOrUpdateIPCr csh podRequest subnet ip macAddr).calls =
        [.ipsGet (podRequest.PodName ++ "." ++ podRequest.PodNamespace),
         .ipsUpdate updated] ∧
      updated.Spec.AttachSubnets.length = ipCr.Spec.AttachSubnets.length + 1 ∧
      updated.Spec.AttachIPs.length = ipCr.Spec.AttachIPs.length + 1 ∧
      updated.Spec.AttachMacs.length = ipCr.Spec.AttachMacs.length + 1 ∧
      updated.Spec.AttachSubnets.length = updated.Spec.AttachIPs.length ∧
      updated.Spec.AttachIPs.length = updated.Spec.AttachMacs.length ∧
      attachments updated = attachments ipCr ++ [(subnet, ip, macAddr)] := by
  obtain ⟨hc, _⟩ := createOrUpdateIPCr_found csh podRequest subnet ip macAddr ipCr old
    hget hlab
  refine ⟨updatedIP ipCr old subnet ip macAddr, hc, ?_, ?_, ?_, ?_, ?_, ?_⟩
  · simp [updatedIP]
  · simp [updatedIP]
  · simp [updatedIP]
  · simp [updatedIP, h1]
  · simp [updatedIP, h2]
  · simp only [attachments, updatedIP]
    rw [List.zip_append h2, List.zip_append (by simp [h1, h2])]
    rfl

/-- The claim C19 at a node whose IP object has two attachments already. -/
theorem createOrUpdateIPCr_parallel_witness :
    ∃ updated,
      (createOrUpdateIPCr
          { attachedHandler with ipsGet := fun _ => .ok attachedIP }
          sampleRequest "s3" "10.18.0.5" "00:00:00:aa:bb:03").calls =
        [.ipsGet "web.default", .ipsUpdate updated] ∧
      attachments updated =
        [("net1", "192.168.1.5", "00:00:00:00:00:01"),
         ("net2", "192.168.2.5", "00:00:00:00:00:02"),
         ("s3", "10.18.0.5", "00:00:00:aa:bb:03")] := by
  obtain ⟨updated, hc, _, _, _, _, _, hz⟩ := createOrUpdateIPCr_parallel
    { attachedHandler with ipsGet := fun _ => .ok attachedIP }
    sampleRequest "s3" "10.18.0.5" "00:00:00:aa:bb:03"
    attachedIP _ rfl rfl (by decide) (by decide)
  exact ⟨updated, hc, hz⟩

theorem deleteNic_not_panicked (csh : cniServerHandler)
    (podName podNamespace containerID deviceID : String) (names : String × String)
    (hn : generateNicName containerID = some names) :
    (deleteNic csh podName podNamespace containerID deviceID).res ≠ .ok .panicked := by
  obtain ⟨h, c⟩ := names
  simp only [deleteNic, hn]
  cases h1 : (csh.ovsExec [IfExists, "--with-iface", "del-port", "br-int", h]).2 <;>
    cases h2 : csh.ClearPodBandwidth podName podNamespace <;>
    by_cases hd : deviceID = "" <;>
    cases h3 : csh.LinkByName h <;>
    simp [h1, h2, hd, h3, Run.call, Run.andThen, Run.bind, Run.ret, Run.fail, Run.emit, ofErr]
  rename_i link
  cases h4 : csh.LinkDel link <;> simp [h4, ofErr]

theorem deleteNic_missing_link (csh : cniServerHandler)
    (podName podNamespace containerID : String) (names : String × String) (msg : String)
    (hn : generateNicName containerID = some names)
    (h1 : (csh.ovsExec [IfExists, "--with-iface", "del-port", "br-int", names.1]).2 = none)
    (h2 : csh.ClearPodBandwidth podName podNamespace = none)
    (h3 : csh.LinkByName names.1 = .linkNotFound msg) :
    deleteNic csh podName podNamespace containerID "" =
      ⟨[.ovsExec [IfExists, "--with-iface", "del-port", "br-int", names.1],
        .ClearPodBandwidth podName podNamespace, .LinkByName names.1], .ok .returned⟩ := by
  obtain ⟨h, c⟩ := names
  simp only at h1 h3
  simp [deleteNic, hn, h1, h2, h3, Run.call, Run.andThen, Run.bind, Run.ret, Run.emit, ofErr]

theorem handleDel_res (csh : cniServerHandler) (podRequest : CniRequest) :
    (handleDel csh (.ok podRequest)).res =
      if podRequest.Provider = OvnProvider ∧
          (deleteNic csh podRequest.PodName podRequest.PodNamespace podRequest.ContainerID
            podRequest.DeviceID).res ≠ .ok .returned then
        match (deleteNic csh podRequest.PodName podRequest.PodNamespace podRequest.ContainerID
            podRequest.DeviceID).res with
        | .error err => .ok (.wrote 500 (errBody ("del nic failed " ++ err.Error)))
        | .ok _ => .ok .panicked
      else
        match csh.ipsDelete (ipName podRequest) with
        | none => .ok (.header 204)
        | some err =>
          if IsNotFound err then .ok (.header 204)
          else .ok (.wrote 500 (errBody ("del ipcrd for " ++ podRequest.PodName ++ "." ++
            podRequest.PodNamespace ++ " failed " ++ err.Error))) := by
  obtain ⟨r, hr⟩ : ∃ r, (deleteNic csh podRequest.PodName podRequest.PodNamespace
      podRequest.ContainerID podRequest.DeviceID).res = r := ⟨_, rfl⟩
  obtain ⟨d, hd⟩ : ∃ d, csh.ipsDelete (ipName podRequest) = d := ⟨_, rfl⟩
  have hd2 := hd
  unfold ipName at hd2
  by_cases hp : podRequest.Provider = OvnProvider
  · cases r with
    | error e => simp [handleDel, hp, hr, Run.andThen, Run.ret]
    | ok c =>
      cases c
      · cases d with
        | none => simp [handleDel, hp, hr, hd, hd2, Run.andThen, Run.ret, Run.call, ofErr]
        | some e =>
          by_cases hnf : IsNotFound e = true <;>
            simp [handleDel, hp, hr, hd, hd2, hnf, Run.andThen, Run.ret, Run.call, ofErr]
      · simp [handleDel, hp, hr, Run.andThen, Run.ret]
  · cases d with
    | none => simp [handleDel, hp, hd, hd2, Run.andThen, Run.ret, Run.call, ofErr]
    | some e =>
      by_cases hnf : IsNotFound e = true <;>
        simp [handleDel, hp, hd, hd2, hnf, Run.andThen, Run.ret, Run.call, ofErr]

/-- C20: for a DEL request that parses and, when the provider is `ovn`, has a container ID
from which `generateNicName` can cut its 12 bytes, `handleDel` responds 204 exactly when
(the provider is not `ovn` or `deleteNic` returns `nil`) and the delete of the IP object
`<podName>.<podNamespace>` answers success or not-found; in every other case it responds
500.  In `deleteNic` with an empty device ID, once the OVS port removal and the bandwidth
reset have succeeded, a host link that is not found makes `deleteNic` return `nil` without
a link deletion, and with the IP object gone as well (success or not-found) the response
is 204. -/
theorem handleDel_status (csh : cniServerHandler) (podRequest : CniRequest)
    (hwf : podRequest.Provider = OvnProvider →
      ∃ names, generateNicName podRequest.ContainerID = some names) :
    ((handleDel csh (.ok podRequest)).res = .ok (.header 204) ↔
      (podRequest.Provider ≠ OvnProvider ∨
        (deleteNic csh podRequest.PodName podRequest.PodNamespace podRequest.ContainerID
          podRequest.DeviceID).res = .ok .returned) ∧
      (csh.ipsDelete (podRequest.PodName ++ "." ++ podRequest.PodNamespace) = none ∨
        ∃ err, csh.ipsDelete (podRequest.PodName ++ "." ++ podRequest.PodNamespace) = some err ∧
          IsNotFound err = true)) ∧
    ((handleDel csh (.ok podRequest)).res ≠ .ok (.header 204) →
      ∃ body, (handleDel csh (.ok podRequest)).res = .ok (.wrote 500 body)) ∧
    (∀ names msg, podRequest.DeviceID = "" →
      generateNicName podRequest.ContainerID = some names →
      (csh.ovsExec [IfExists, "--with-iface", "del-port", "br-int", names.1]).2 = none →
      csh.ClearPodBandwidth podRequest.PodName podRequest.PodNamespace = none →
      csh.LinkByName names.1 = .linkNotFound msg →
      deleteNic csh podRequest.PodName podRequest.PodNamespace podRequest.ContainerID
          podRequest.DeviceID =
        ⟨[.ovsExec [IfExists, "--with-iface", "del-port", "br-int", names.1],
          .ClearPodBandwidth podRequest.PodName podRequest.PodNamespace,
          .LinkByName names.1], .ok .returned⟩ ∧
      ((csh.ipsDelete (podRequest.PodName ++ "." ++ podRequest.PodNamespace) = none ∨
        ∃ err, csh.ipsDelete (podRequest.PodName ++ "." ++ podRequest.PodNamespace) = some err ∧
          IsNotFound err = true) →
        (handleDel csh (.ok podRequest)).res = .ok (.header 204))) := by
  have hnp : podRequest.Provider = OvnProvider →
      (deleteNic csh podRequest.PodName podRequest.PodNamespace podRequest.ContainerID
        podRequest.DeviceID).res ≠ .ok .panicked := by
    intro hp
    obtain ⟨names, hn⟩ := hwf hp
    exact deleteNic_not_panicked csh _ _ _ _ names hn
  have key : (handleDel csh (.ok podRequest)).res = .ok (.header 204) ↔
      (podRequest.Provider ≠ OvnProvider ∨
        (deleteNic csh podRequest.PodName podRequest.PodNamespace podRequest.ContainerID
          podRequest.DeviceID).res = .ok .returned) ∧
      (csh.ipsDelete (podRequest.PodName ++ "." ++ podRequest.PodNamespace) = none ∨
        ∃ err, csh.ipsDelete (podRequest.PodName ++ "." ++ podRequest.PodNamespace) = some err ∧
          IsNotFound err = true) := by
    rw [handleDel_res]
    unfold ipName
    by_cases hp : podRequest.Provider = OvnProvider
    · obtain ⟨r, hr⟩ : ∃ r, (deleteNic csh podRequest.PodName podRequest.PodNamespace
          podRequest.ContainerID podRequest.DeviceID).res = r := ⟨_, rfl⟩
      have hnp2 := hnp hp
      rw [hr] at hnp2
      cases r with
      | error e => simp [hp, hr]
      | ok c =>
        cases c with
        | panicked => exact absurd rfl hnp2
        | returned =>
          cases hd : csh.ipsDelete (podRequest.PodName ++ "." ++ podRequest.PodNamespace) with
          | none => simp [hp, hr, hd]
          | some e => by_cases hnf : IsNotFound e = true <;> simp [hp, hr, hd, hnf]
    · cases hd : csh.ipsDelete (podRequest.PodName ++ "." ++ podRequest.PodNamespace) with
      | none => simp [hp, hd]
      | some e => by_cases hnf : IsNotFound e = true <;> simp [hp, hd, hnf]
  refine ⟨key, ?_, ?_⟩
  · rw [handleDel_res]
    unfold ipName
    by_cases hp : podRequest.Provider = OvnProvider
    · obtain ⟨r, hr⟩ : ∃ r, (deleteNic csh podRequest.PodName podRequest.PodNamespace
          podRequest.ContainerID podRequest.DeviceID).res = r := ⟨_, rfl⟩
      have hnp2 := hnp hp
      rw [hr] at hnp2
      cases r with
      | error e => simp [hp, hr]
      | ok c =>
        cases c with
        | panicked => exact absurd rfl hnp2
        | returned =>
          cases hd : csh.ipsDelete (podRequest.PodName ++ "." ++ podRequest.PodNamespace) with
          | none => simp [hp, hr, hd]
          | some e => by_cases hnf : IsNotFound e = true <;> simp [hp, hr, hd, hnf]
    · cases hd : csh.ipsDelete (podRequest.PodName ++ "." ++ podRequest.PodNamespace) with
      | none => simp [hp, hd]
      | some e => by_cases hnf : IsNotFound e = true <;> simp [hp, hd, hnf]
  · intro names msg hdev hn h1 h2 h3
    have hnic := deleteNic_missing_link csh podRequest.PodName podRequest.PodNamespace
      podRequest.ContainerID names msg hn h1 h2 h3
    rw [← hdev] at hnic
    refine ⟨hnic, fun hdel => key.mpr ⟨Or.inr ?_, hdel⟩⟩
    rw [hnic]

/-- The claim C20 on a node where the host link and the IP object of the pod exist
(`attachedHandler`: first DEL) and on a node where both are gone (`unvalidatedHandler`:
repeated DEL): both respond 204. -/
theorem handleDel_status_witness :
    (handleDel attachedHandler (.ok sampleRequest)).res = .ok (.header 204) ∧
    (handleDel unvalidatedHandler (.ok sampleRequest)).res = .ok (.header 204) ∧
    (handleDel unvalidatedHandler (.ok sampleRequest)).calls =
      [.ovsExec ["--if-exists", "--with-iface", "del-port", "br-int", "0123456789ab_h"],
       .ClearPodBandwidth "web" "default", .LinkByName "0123456789ab_h",
       .ipsDelete "web.default"] := by
  refine ⟨?_, ?_, by decide⟩
  · exact (handleDel_status attachedHandler sampleRequest
      (fun _ => ⟨("0123456789ab_h", "0123456789ab_c"), by decide⟩)).1.mpr
      ⟨Or.inr (by decide), Or.inl (by decide)⟩
  · exact ((handleDel_status unvalidatedHandler sampleRequest
      (fun _ => ⟨("0123456789ab_h", "0123456789ab_c"), by decide⟩)).2.2
      ("0123456789ab_h", "0123456789ab_c") "0123456789ab_h" (by decide) (by decide)
      (by decide) (by decide) (by decide)).2
      (Or.inr ⟨.notFound "web.default", by decide, by decide⟩)

/-- C17 fails on the code: on a node where the pod `default/web` is retrievable at each
of the 15 polls with `net1.kubernetes.io/allocated` (and `ovn.kubernetes.io/allocated`)
equal to `true` while `ValidatePodNetwork` rejects its annotations each time, no poll sees
both conditions hold, and yet `handleAdd` for the provider `net1` responds 200 (with empty
address fields) after it created the IP object `web.default` with empty subnet, IP and
MAC; for the provider `ovn` it creates the same object and then calls the interface
configurator with empty MAC, address and gateway. -/
theorem handleAdd_unvalidated_pod :
    (∀ i, i < 15 → ∃ pod, unvalidatedHandler.podsGet i "default" "web" = .ok pod ∧
      ¬ (mapGet pod.Annotations (AllocatedAnnotationTemplate "net1") = "true" ∧
          unvalidatedHandler.ValidatePodNetwork pod.Annotations = none) ∧
      ¬ (mapGet pod.Annotations (AllocatedAnnotationTemplate "ovn") = "true" ∧
          unvalidatedHandler.ValidatePodNetwork pod.Annotations = none)) ∧
    (handleAdd unvalidatedHandler (.ok attachRequest)).res =
      .ok (.wrote 200
        { Protocol := "", IpAddress := "", MacAddress := "", CIDR := "", Gateway := "",
          Err := "" }) ∧
    (handleAdd unvalidatedHandler (.ok attachRequest)).calls.filter isAddEffect =
      [.ipsCreate
        { Name := "web.default",
          Labels := some [("ovn.kubernetes.io/subnet", ""), ("", "")],
          Spec := { PodName := "web", Namespace := "default", Subnet := "",
                    AttachSubnets := [], NodeName := "node1", IPAddress := "",
                    AttachIPs := [], MacAddress := "", AttachMacs := [],
                    ContainerID := "0123456789abcdef" } }] ∧
    ((handleAdd unvalidatedHandler (.ok attachRequest)).calls.filter
        (fun c => c = .podsGet "default" "web")).length = 15 ∧
    (handleAdd unvalidatedHandler (.ok sampleRequest)).calls.filter isAddEffect =
      [.ipsCreate
        { Name := "web.default",
          Labels := some [("ovn.kubernetes.io/subnet", ""), ("", "")],
          Spec := { PodName := "web", Namespace := "default", Subnet := "",
                    AttachSubnets := [], NodeName := "node1", IPAddress := "",
                    AttachIPs := [], MacAddress := "", AttachMacs := [],
                    ContainerID := "0123456789abcdef" } },
       .configureNic "web" "default" "/proc/7/ns/net" "0123456789abcdef" "eth0" "" "" "" ""
         "" "" ""] := by
  refine ⟨fun i _ => ⟨allocatedPod, rfl, ?_, ?_⟩, ?_, ?_, ?_, ?_⟩
  · exact fun h => absurd h.2 (by decide)
  · exact fun h => absurd h.2 (by decide)
  · decide
  · decide
  · decide
  · decide

/-- When the pod is retrievable at every poll and no poll sees both the `allocated`
annotation equal to `true` and `ValidatePodNetwork` succeed, the poll loop runs out: it
gets the pod and sleeps one second `fuel` times, fills in no variable, and is left with
the pod of the last poll. -/
theorem pollPod_expired (csh : cniServerHandler) (podRequest : CniRequest) :
    ∀ (fuel i : Nat) (prev : Option Pod),
      (∀ j, i ≤ j → j < i + fuel →
        ∃ pod, csh.podsGet j podRequest.PodNamespace podRequest.PodName = .ok pod ∧
          ¬ (mapGet pod.Annotations (AllocatedAnnotationTemplate podRequest.Provider) = "true" ∧
              csh.ValidatePodNetwork pod.Annotations = none)) →
      (pollPod csh podRequest fuel i prev).calls = idlePolls podRequest fuel ∧
      ∃ last, (pollPod csh podRequest fuel i prev).res = .ok (.left last {}) ∧
        (fuel = 0 → last = prev) ∧
        (0 < fuel →
          ∃ pod, csh.podsGet (i + fuel - 1) podRequest.PodNamespace podRequest.PodName =
            .ok pod ∧ last = some pod) := by
  intro fuel
  induction fuel with
  | zero =>
    intro i prev _
    exact ⟨rfl, prev, rfl, fun _ => rfl, fun h => absurd h (by decide)⟩
  | succ n ih =>
    intro i prev h
    obtain ⟨pod, hget, hnot⟩ := h i (Nat.le_refl i) (by omega)
    obtain ⟨hc, last, hres, h0, hpos⟩ := ih (i + 1) (some pod)
      (fun j h1 h2 => h j (by omega) (by omega))
    have hstep : pollPod csh podRequest (n + 1) i prev =
        ⟨.podsGet podRequest.PodNamespace podRequest.PodName :: .sleep 1 ::
          (pollPod csh podRequest n (i + 1) (some pod)).calls,
         (pollPod csh podRequest n (i + 1) (some pod)).res⟩ := by
      by_cases ha :
          mapGet pod.Annotations (AllocatedAnnotationTemplate podRequest.Provider) = "true"
      · cases hv : csh.ValidatePodNetwork pod.Annotations with
        | none => exact absurd ⟨ha, hv⟩ hnot
        | some e =>
          simp [pollPod, hget, ha, hv, hres, Run.call, Run.andThen, Run.bind, Run.emit]
      · simp [pollPod, hget, ha, hres, Run.call, Run.andThen, Run.bind, Run.emit]
    rw [hstep]
    refine ⟨by simp [idlePolls, hc], last, hres, fun h => absurd h (by omega), fun _ => ?_⟩
    by_cases hn : n = 0
    · subst hn
      exact ⟨pod, by simpa using hget, h0 rfl⟩
    · obtain ⟨p, hp, hl⟩ := hpos (by omega)
      exact ⟨p, by rw [← hp]; congr 1; omega, hl⟩

/-- What `handleAdd` does when the 15 polls run out (the pod is retrievable at every poll
and no poll sees both conditions hold): the pod of the last poll decides.  If its
`allocated` annotation is not `true` the response is 500 and no IP object is written and
no interface configured; if it is `true` the handler goes on to `createOrUpdateIPCr` with
empty subnet, IP and MAC. -/
theorem handleAdd_expired (csh : cniServerHandler) (podRequest : CniRequest)
    (h : ∀ j, j < 15 →
      ∃ pod, csh.podsGet j podRequest.PodNamespace podRequest.PodName = .ok pod ∧
        ¬ (mapGet pod.Annotations (AllocatedAnnotationTemplate podRequest.Provider) = "true" ∧
            csh.ValidatePodNetwork pod.Annotations = none)) :
    ∃ pod, csh.podsGet 14 podRequest.PodNamespace podRequest.PodName = .ok pod ∧
      (mapGet pod.Annotations (AllocatedAnnotationTemplate podRequest.Provider) ≠ "true" →
        handleAdd csh (.ok podRequest) =
          ⟨idlePolls podRequest 15,
           .ok (.wrote 500 (errBody ("no address allocated to pod " ++ pod.Name ++ "/" ++
             pod.Name ++ ", please see kube-ovn-controller logs to find errors")))⟩) ∧
      (mapGet pod.Annotations (AllocatedAnnotationTemplate podRequest.Provider) = "true" →
        idlePolls podRequest 15 ++ (createOrUpdateIPCr csh podRequest "" "" "").calls <+:
          (handleAdd csh (.ok podRequest)).calls) := by
  obtain ⟨hc, last, hres, _, hpos⟩ := pollPod_expired csh podRequest 15 0 none
    (fun j _ h2 => h j (by omega))
  obtain ⟨pod, hget, hlast⟩ := hpos (by decide)
  subst hlast
  refine ⟨pod, hget, fun hna => ?_, fun ha => ?_⟩
  · simp [handleAdd, Run.bind, hres, hc, hna, Run.ret]
  · simp only [handleAdd, Run.bind, hres, hc, ha, Run.andThen]
    simp only [ne_eq, not_true_eq_false, if_false]
    rw [← List.append_assoc]
    exact List.prefix_append _ _

/-! ## `formatSubnet`: the vlan reference -/

/-- C22: when `formatSubnet` returns without error, the vlan field of the subnet it leaves
is empty or a name that the vlan lister resolves.  In particular on a vlan network a
subnet with an empty vlan field whose configured default vlan does not resolve ends with
the field empty, and a vlan that is set but does not resolve is cleared. -/
theorem formatSubnet_vlan_resolves (c : Controller) (subnet out : Subnet)
    (h : (formatSubnet c subnet).res = .ok out) :
    (out.Spec.Vlan = "" ∨ ∃ vlan, c.vlansGet out.Spec.Vlan = .ok vlan) ∧
    (c.config.NetworkType = NetworkTypeVlan → subnet.Spec.Vlan = "" →
      (∀ vlan, c.vlansGet c.config.DefaultVlanName ≠ .ok vlan) → out.Spec.Vlan = "") ∧
    (subnet.Spec.Vlan ≠ "" → (∀ vlan, c.vlansGet subnet.Spec.Vlan ≠ .ok vlan) →
      out.Spec.Vlan = "") := by
  obtain ⟨changed, hf⟩ := formatSubnet_res_ok c subnet out h
  obtain ⟨ipNet, gw, -, -, hout⟩ := formatSubnetFields_ok c subnet _ hf
  have hv : out.Spec.Vlan =
      if vlanDefaulted c subnet.Spec.Vlan ≠ "" ∧
          vlanMissing c (vlanDefaulted c subnet.Spec.Vlan) = true
        then "" else vlanDefaulted c subnet.Spec.Vlan := by
    simp only [] at hout
    rw [hout]
    rfl
  have hmiss : ∀ name, (∀ vlan, c.vlansGet name ≠ .ok vlan) → vlanMissing c name = true := by
    intro name hn
    unfold vlanMissing
    cases hg : c.vlansGet name with
    | error e => rfl
    | ok v => exact absurd hg (hn v)
  refine ⟨?_, ?_, ?_⟩
  · rw [hv]
    by_cases h1 : vlanDefaulted c subnet.Spec.Vlan ≠ "" ∧
        vlanMissing c (vlanDefaulted c subnet.Spec.Vlan) = true
    · rw [if_pos h1]
      exact Or.inl rfl
    · rw [if_neg h1]
      by_cases h2 : vlanDefaulted c subnet.Spec.Vlan = ""
      · exact Or.inl h2
      · right
        have h3 : vlanMissing c (vlanDefaulted c subnet.Spec.Vlan) ≠ true :=
          fun hh => h1 ⟨h2, hh⟩
        unfold vlanMissing at h3
        cases hg : c.vlansGet (vlanDefaulted c subnet.Spec.Vlan) with
        | error e => simp [hg] at h3
        | ok v => exact ⟨v, rfl⟩
  · intro hn he hd
    have hdef : vlanDefaulted c subnet.Spec.Vlan = c.config.DefaultVlanName := by
      unfold vlanDefaulted
      rw [if_pos ⟨hn, he⟩]
    rw [hv, hdef]
    by_cases h2 : c.config.DefaultVlanName = ""
    · rw [if_neg (fun hh => hh.1 h2)]
      exact h2
    · rw [if_pos ⟨h2, hmiss _ hd⟩]
  · intro hne hd
    rw [hv, vlanDefaulted_of_ne c _ hne, if_pos ⟨hne, hmiss _ hd⟩]

/-- The claim C22 on a vlan network without any vlan: the sample subnet (vlan field empty,
default vlan `ovn-vlan` missing) ends with the field empty; and on the vlan network whose
default vlan exists, the subnet that names the missing vlan `gone` has the field
cleared. -/
theorem formatSubnet_vlan_resolves_witness :
    (∃ out, (formatSubnet vlanlessController sampleSubnet).res = .ok out ∧
      out.Spec.Vlan = "") ∧
    (∃ out, (formatSubnet vlanController danglingVlanSubnet).res = .ok out ∧
      out.Spec.Vlan = "") :=
  ⟨⟨{ sampleFormatted with Spec := { sampleFormatted.Spec with Vlan := "" } }, by decide,
     (formatSubnet_vlan_resolves vlanlessController sampleSubnet
       { sampleFormatted with Spec := { sampleFormatted.Spec with Vlan := "" } }
       (by decide)).2.1 (by decide) (by decide)
       (fun vlan hv => by
         rw [show vlanlessController.vlansGet vlanlessController.config.DefaultVlanName =
           .error (.notFound "ovn-vlan not found") from by decide] at hv
         cases hv)⟩,
   ⟨{ danglingVlanSubnet with Spec := { danglingVlanSubnet.Spec with Vlan := "" } },
     by decide,
     (formatSubnet_vlan_resolves vlanController danglingVlanSubnet
       { danglingVlanSubnet with Spec := { danglingVlanSubnet.Spec with Vlan := "" } }
       (by decide)).2.2 (by decide)
       (fun vlan hv => by
         rw [show vlanController.vlansGet danglingVlanSubnet.Spec.Vlan =
           .error (.notFound "gone not found") from by decide] at hv
         cases hv)⟩⟩

/-! ## `reconcileNamespaces`: the subnet being reconciled -/

/-- C24 fails on the code: when the lister answers `o` (namespaces `[ns1, ns2]`) before
`s` (namespaces `[ns1]`), `reconcileNamespaces(s)` strips `ns1` from `o` and assigns the
answer of `Update(o)` to the variable `subnet` (line 597); at `s` the name test of line
582 then compares `s` with `o`, does not skip it, strips every namespace of `s` from `s`
itself and sends `s` with an empty namespace list to `Update`.  The call returns
success. -/
theorem reconcileNamespaces_updates_itself :
    reorderedController.subnetsList = .ok [otherSubnet, bindingSubnet] ∧
    bindingSubnet.Name = "s" ∧ bindingSubnet.Spec.Namespaces = ["ns1"] ∧
    reconcileNamespaces reorderedController bindingSubnet =
      ⟨[.subnetsUpdate
          { otherSubnet with Spec := { otherSubnet.Spec with Namespaces := ["ns2"] } },
        .subnetsUpdate
          { bindingSubnet with Spec := { bindingSubnet.Spec with Namespaces := [] } }],
       .ok ()⟩ ∧
    (∃ u,
      Call.subnetsUpdate u ∈ (reconcileNamespaces reorderedController bindingSubnet).calls ∧
      u.Name = bindingSubnet.Name ∧ u.Spec.Namespaces ≠ bindingSubnet.Spec.Namespaces) := by
  refine ⟨rfl, rfl, rfl, by decide,
    { bindingSubnet with Spec := { bindingSubnet.Spec with Namespaces := [] } },
    by decide, rfl, by decide⟩

/-- The loop over the listed subnets leaves the variable `subnet` as it is and makes no
call as long as no listed subnet of another name holds a namespace of the map. -/
theorem unbindNamespaces_idle (c : Controller) (namespaceMap : List String)
    (subnet : Subnet) (pre rest : List Subnet)
    (hpre : ∀ sub ∈ pre, sub.Name ≠ subnet.Name →
      ¬ ∃ ns ∈ sub.Spec.Namespaces, ns ∈ namespaceMap) :
    unbindNamespaces c namespaceMap (pre ++ rest) subnet =
      unbindNamespaces c namespaceMap rest subnet := by
  induction pre with
  | nil => rfl
  | cons sub pre ih =>
    have ih2 := ih (fun s2 hs2 => hpre s2 (List.mem_cons_of_mem _ hs2))
    rw [List.cons_append, unbindNamespaces_cons, ih2]
    by_cases h1 : sub.Name = subnet.Name ∨ sub.Spec.Namespaces.length = 0
    · rw [if_pos h1]
    · rw [if_neg h1]
      have h2 : ¬ (sub.Spec.Namespaces.any (fun ns => namespaceMap.contains ns) = true) :=
        fun h => hpre sub (List.mem_cons_self _ _) (fun hn => h1 (Or.inl hn))
          ((shares_iff_any _ _).mp h)
      rw [if_neg h2]

/-- Where C24 holds: on a listed store with pairwise distinct names in which no subnet
listed before `s` holds a namespace of `s`, `reconcileNamespaces(s)` issues no `Update`
for an object named `s.Name`. -/
theorem reconcileNamespaces_keeps_itself (c : Controller) (s s0 : Subnet)
    (pre post : List Subnet)
    (hlist : c.subnetsList = .ok (pre ++ s0 :: post))
    (hname : s0.Name = s.Name)
    (hnodup : ((pre ++ s0 :: post).map (fun sub => sub.Name)).Nodup)
    (hpre : ∀ sub ∈ pre, ¬ ∃ ns ∈ sub.Spec.Namespaces, ns ∈ s.Spec.Namespaces) :
    ∀ u, Call.subnetsUpdate u ∈ (reconcileNamespaces c s).calls → u.Name ≠ s.Name := by
  intro u hu
  rw [reconcileNamespaces_eq c s _ hlist,
    unbindNamespaces_idle c s.Spec.Namespaces s pre (s0 :: post) (fun sub hsub _ => hpre sub hsub),
    unbindNamespaces_cons, if_pos (Or.inl hname)] at hu
  have hloop : Call.subnetsUpdate u ∈ (unbindNamespaces c s.Spec.Namespaces post s).calls := by
    have htail := enqueueNamespaces_only c s.Spec.Namespaces
    cases hres : (unbindNamespaces c s.Spec.Namespaces post s).res with
    | error e =>
      simpa [Run.bind, hres] using hu
    | ok fin =>
      simp only [Run.bind, hres, List.mem_append] at hu
      rcases hu with hu | hu
      · exact hu
      · obtain ⟨ns, hns⟩ := htail fin _ hu
        cases hns
  obtain ⟨sub, hsub, hueq, -⟩ := unbindNamespaces_updates c s.Spec.Namespaces post s u hloop
  have hun : u.Name = sub.Name := by rw [hueq]; rfl
  rw [hun, ← hname]
  intro heq
  simp only [List.map_append, List.map_cons, List.nodup_append, List.nodup_cons,
    List.mem_map, not_exists, not_and] at hnodup
  exact hnodup.2.1.1 sub hsub heq

/-! ## Status patches and the error result -/

theorem Run.bind_congr {α β : Type} (m m2 : Run α) (f g : α → Run β) (hm : m2 = m)
    (hf : ∀ a, m.res = .ok a → g a = f a) : m2.bind g = m.bind f := by
  subst hm
  cases h : m2.res with
  | error e => rw [Run.bind_error _ _ e h, Run.bind_error _ _ e h]
  | ok a => rw [Run.bind_ok _ _ a h, Run.bind_ok _ _ a h, hf a h]

theorem Run.andThen_congr {α β : Type} (m m2 : Run α) (f g : Result α → Run β) (hm : m2 = m)
    (hf : g m.res = f m.res) : m2.andThen g = m.andThen f := by
  subst hm
  simp only [Run.andThen, hf]

theorem Run.mem_bind_left {α β : Type} (m : Run α) (f : α → Run β) (k : Call)
    (h : k ∈ m.calls) : k ∈ (m.bind f).calls := by
  cases hr : m.res with
  | error e => rw [Run.bind_error _ _ e hr]; exact h
  | ok a => rw [Run.bind_ok _ _ a hr]; exact List.mem_append_left _ h

theorem Run.mem_bind_right {α β : Type} (m : Run α) (f : α → Run β) (a : α) (k : Call)
    (hr : m.res = .ok a) (h : k ∈ (f a).calls) : k ∈ (m.bind f).calls := by
  rw [Run.bind_ok _ _ a hr]; exact List.mem_append_right _ h

/-- The run of `patchSubnetStatus` does not depend on the answer of its `Patch` call. -/
theorem patchSubnetStatus_patch (c : Controller)
    (patch : String → SubnetStatus → Result Subnet) (subnet : Subnet) (reason errStr : String) :
    patchSubnetStatus { c with subnetsPatch := patch } subnet reason errStr =
      patchSubnetStatus c subnet reason errStr := by
  unfold patchSubnetStatus Bytes
  rfl

/-- What `patchSubnetStatus` hands on. -/
theorem patchSubnetStatus_res (c : Controller) (subnet : Subnet) (reason errStr : String) :
    (patchSubnetStatus c subnet reason errStr).res =
      .ok { subnet with Status := statusAfterPatch subnet.Status reason errStr } := by
  unfold patchSubnetStatus statusAfterPatch
  by_cases he : errStr ≠ ""
  · cases hb : Bytes c
        (((subnet.Status.SetError reason errStr).NotValidated reason errStr).NotReady
          reason errStr) with
    | error e => simp [Run.bind, he, hb]
    | ok bytes => simp [Run.bind, he, hb]
  · by_cases hr : reason = "SetPrivateLogicalSwitchSuccess" ∨
        reason = "ResetLogicalSwitchAclSuccess"
    · cases hb : Bytes c ((subnet.Status.Validated reason "").Ready reason "") with
      | error e => simp [Run.bind, he, hr, hb]
      | ok bytes => simp [Run.bind, he, hr, hb]
    · cases hb : Bytes c (subnet.Status.Validated reason "") with
      | error e => simp [Run.bind, he, hr, hb]
      | ok bytes => simp [Run.bind, he, hr, hb]

/-- The run of `calcSubnetStatusIP` under another `Patch` that answers its call the same. -/
theorem calcSubnetStatusIP_patch (c : Controller)
    (patch : String → SubnetStatus → Result Subnet) (subnet : Subnet)
    (h : ∀ name doc, Call.subnetsPatch name doc ∈ (calcSubnetStatusIP c subnet).calls →
      patch name doc = c.subnetsPatch name doc) :
    calcSubnetStatusIP { c with subnetsPatch := patch } subnet =
      calcSubnetStatusIP c subnet := by
  unfold calcSubnetStatusIP at h ⊢
  dsimp only at h ⊢
  cases hp : c.ParseCIDR subnet.Spec.CIDRBlock with
  | error e => rfl
  | ok cidr =>
    simp only [hp] at h ⊢
    refine Run.bind_congr _ _ _ _ rfl (fun ips hips => ?_)
    have hB : ∀ m, Bytes { c with subnetsPatch := patch } m = Bytes c m := fun _ => rfl
    simp only [hB]
    cases hb : Bytes c { subnet.Status with
        AvailableIPs := subFloat64 (toFloat64 (c.AddressCount cidr))
          (toFloat64 ((UniqString (c.ExpandExcludeIPs subnet.Spec.ExcludeIps
            subnet.Spec.CIDRBlock ++ ips.map (fun podUsedIP => podUsedIP.Spec.IPAddress))).length
              : Int)),
        UsingIPs := toFloat64 (ips.length : Int) } with
    | error e => rfl
    | ok bytes =>
      simp only [hb] at h ⊢
      have hp2 := h subnet.Name bytes (by
        apply Run.mem_bind_right _ _ ips _ hips
        simp only [hb]
        apply Run.mem_bind_left
        simp [Run.call])
      rw [hp2]

/-- The run of the distributed branch under another `Patch` that answers its call the
same. -/
theorem reconcileDistributedGateway_patch (c : Controller)
    (patch : String → SubnetStatus → Result Subnet) (subnet : Subnet) (ips : List IP)
    (h : ∀ name doc,
      Call.subnetsPatch name doc ∈ (reconcileDistributedGateway c subnet ips).calls →
      patch name doc = c.subnetsPatch name doc) :
    reconcileDistributedGateway { c with subnetsPatch := patch } subnet ips =
      reconcileDistributedGateway c subnet ips := by
  unfold reconcileDistributedGateway at h ⊢
  by_cases ha : subnet.Status.ActivateGateway = ""
  · simp only [if_pos ha]
  · simp only [if_neg ha] at h ⊢
    have hB : ∀ m, Bytes { c with subnetsPatch := patch } m = Bytes c m := fun _ => rfl
    simp only [hB]
    cases hb : Bytes c { subnet.Status with ActivateGateway := "" } with
    | error e => rfl
    | ok bytes =>
      simp only [hb] at h ⊢
      have hp2 := h subnet.Name bytes (by
        apply Run.mem_bind_left
        simp [Run.call])
      rw [hp2]
      rfl

theorem ite_congr_right {α : Type} (p : Prop) [Decidable p] (a b b2 : α)
    (h : ¬ p → b2 = b) : (if p then a else b2) = (if p then a else b) := by
  by_cases hp : p
  · simp only [if_pos hp]
  · simp only [if_neg hp, h hp]

/-- The run of the centralized search under another `Patch` that answers its call the
same. -/
theorem activateNewGateway_patch (c : Controller)
    (patch : String → SubnetStatus → Result Subnet) (subnet : Subnet) (ips : List IP)
    (h : ∀ name doc,
      Call.subnetsPatch name doc ∈ (activateNewGateway c subnet ips).calls →
      patch name doc = c.subnetsPatch name doc) :
    activateNewGateway { c with subnetsPatch := patch } subnet ips =
      activateNewGateway c subnet ips := by
  have hF : ∀ l, findActivateNode { c with subnetsPatch := patch } l = findActivateNode c l := by
    intro l
    induction l with
    | nil => rfl
    | cons gw rest ih =>
      simp only [findActivateNode]
      rw [ih]
  have hB : ∀ m, Bytes { c with subnetsPatch := patch } m = Bytes c m := fun _ => rfl
  have hD : deletePodRoutes { c with subnetsPatch := patch } ips = deletePodRoutes c ips := rfl
  unfold activateNewGateway at h ⊢
  simp only [hF, hB, hD]
  cases hf : findActivateNode c (Split subnet.Spec.GatewayNode ',') with
  | error e => rfl
  | ok found =>
    obtain ⟨newActivateNode, nodeTunlIPAddr⟩ := found
    simp only [hf] at h ⊢
    by_cases hn : newActivateNode = ""
    · simp only [if_pos hn] at h ⊢
      cases hb : Bytes c ({ subnet.Status with ActivateGateway := newActivateNode }.NotReady
          "NoReadyGateway" "") with
      | error e => rfl
      | ok bytes =>
        simp only [hb] at h ⊢
        have hp2 := h subnet.Name bytes (by
          apply Run.mem_bind_left
          simp [Run.call])
        rw [hp2]
    · simp only [if_neg hn] at h ⊢
      refine Run.andThen_congr _ _ _ _ rfl ?_
      cases hr : (Run.call (Call.AddStaticRoute PolicySrcIP subnet.Spec.CIDRBlock nodeTunlIPAddr
          c.config.ClusterRouter)
        (ofErr (c.AddStaticRoute PolicySrcIP subnet.Spec.CIDRBlock nodeTunlIPAddr
          c.config.ClusterRouter))).res with
      | error e => rfl
      | ok u =>
        simp only [Run.andThen_calls, hr] at h
        refine Run.bind_congr _ _ _ _ rfl (fun _ hdel => ?_)
        cases hb : Bytes c { subnet.Status with ActivateGateway := newActivateNode } with
        | error e => rfl
        | ok bytes =>
          simp only [hb] at h ⊢
          have hp2 := h subnet.Name bytes (by
            apply List.mem_append_right
            apply Run.mem_bind_right _ _ _ _ hdel
            apply Run.mem_bind_left
            simp [Run.call])
          rw [hp2]

/-- The run of `reconcileGateway` under another `Patch` that answers its call the same. -/
theorem reconcileGateway_patch (c : Controller)
    (patch : String → SubnetStatus → Result Subnet) (subnet : Subnet)
    (h : ∀ name doc, Call.subnetsPatch name doc ∈ (reconcileGateway c subnet).calls →
      patch name doc = c.subnetsPatch name doc) :
    reconcileGateway { c with subnetsPatch := patch } subnet = reconcileGateway c subnet := by
  unfold reconcileGateway at h ⊢
  refine Run.bind_congr _ _ _ _ rfl (fun ips hips => ?_)
  have h2 : ∀ name doc, Call.subnetsPatch name doc ∈
      (if subnet.Spec.GatewayType = GWDistributedType then
        reconcileDistributedGateway c subnet ips
      else
        let keep : Bool :=
          if subnet.Status.ActivateGateway ≠ "" then
            match c.nodesGet subnet.Status.ActivateGateway with
            | .ok node => nodeReady node
            | .error _ => false
          else false
        if keep then Run.ret subnet else activateNewGateway c subnet ips).calls →
      patch name doc = c.subnetsPatch name doc :=
    fun name doc hm => h name doc (Run.mem_bind_right _ _ ips _ hips hm)
  by_cases hd : subnet.Spec.GatewayType = GWDistributedType
  · simp only [if_pos hd] at h2 ⊢
    exact reconcileDistributedGateway_patch c patch subnet ips h2
  · simp only [if_neg hd] at h2 ⊢
    refine ite_congr_right _ _ _ _ (fun hk => ?_)
    simp only [if_neg hk] at h2
    exact activateNewGateway_patch c patch subnet ips h2

/-- The run of `reconcileSubnet` under another `Patch` for which `reconcileGateway`
runs the same. -/
theorem reconcileSubnet_patch (c : Controller)
    (patch : String → SubnetStatus → Result Subnet) (subnet : Subnet)
    (h : reconcileGateway { c with subnetsPatch := patch } subnet = reconcileGateway c subnet) :
    reconcileSubnet { c with subnetsPatch := patch } subnet = reconcileSubnet c subnet := by
  have hU : ∀ nm l s, unbindNamespaces { c with subnetsPatch := patch } nm l s =
      unbindNamespaces c nm l s := by
    intro nm l
    induction l with
    | nil => intro s; rfl
    | cons sub rest ih => intro s; simp only [unbindNamespaces, ih]
  have hE : ∀ nm s, enqueueNamespaces { c with subnetsPatch := patch } nm s =
      enqueueNamespaces c nm s := fun _ _ => rfl
  have hN : reconcileNamespaces { c with subnetsPatch := patch } subnet =
      reconcileNamespaces c subnet := by
    unfold reconcileNamespaces
    simp only [hU, hE]
  have hV : ∀ s, reconcileVlan { c with subnetsPatch := patch } s = reconcileVlan c s :=
    fun _ => rfl
  unfold reconcileSubnet
  simp only [hN, hV, h]

theorem Run.andThen_congr_all {α β : Type} (m m2 : Run α) (f g : Result α → Run β)
    (hm : m2 = m) (hf : ∀ r, g r = f r) : m2.andThen g = m.andThen f := by
  subst hm
  simp only [Run.andThen, hf]

theorem patchSubnetStatus_bind_fail (c : Controller) (subnet : Subnet) (reason errStr : String)
    (err : Err) (s : Subnet) :
    ((patchSubnetStatus c subnet reason errStr).bind fun _ =>
      (Run.fail err : Run Subnet)).res ≠ .ok s := by
  rw [Run.bind_ok _ _ _ (patchSubnetStatus_res c subnet reason errStr)]
  simp [Run.fail]

/-- The run of the logical-switch step under another `Patch` for which
`reconcileGateway` runs the same on the subnet as the step hands it on. -/
theorem reconcileLogicalSwitch_patch (c : Controller)
    (patch : String → SubnetStatus → Result Subnet) (subnet : Subnet)
    (h : ∀ s, (s = subnet ∨
        s = { subnet with Status := c.EnsureStandardConditions subnet.Status }) →
      reconcileGateway { c with subnetsPatch := patch } s = reconcileGateway c s) :
    reconcileLogicalSwitch { c with subnetsPatch := patch } subnet =
      reconcileLogicalSwitch c subnet := by
  have hP := patchSubnetStatus_patch c patch
  unfold reconcileLogicalSwitch
  simp only [hP]
  refine Run.andThen_congr_all _ _ _ _ rfl (fun r => ?_)
  cases r with
  | error err => rfl
  | ok exist =>
    simp only []
    refine Run.bind_congr _ _ _ _ rfl (fun s hs => ?_)
    have hs2 : s = subnet ∨
        s = { subnet with Status := c.EnsureStandardConditions subnet.Status } := by
      cases exist with
      | false =>
        right
        cases hc : c.CreateLogicalSwitch subnet.Name subnet.Spec.Protocol subnet.Spec.CIDRBlock
            subnet.Spec.Gateway subnet.Spec.ExcludeIps subnet.Spec.UnderlayGateway with
        | some err =>
          simp only [Bool.not_false, if_true, Run.andThen_res, Run.call, hc, ofErr] at hs
          exact absurd hs (patchSubnetStatus_bind_fail c _ _ _ err s)
        | none =>
          simp only [Bool.not_false, if_true, Run.andThen_res, Run.call, hc, ofErr, Run.ret,
            Result.ok.injEq] at hs
          exact hs.symm
      | true =>
        left
        cases hc : c.SetLogicalSwitchConfig subnet.Name subnet.Spec.Protocol
            subnet.Spec.CIDRBlock subnet.Spec.Gateway subnet.Spec.ExcludeIps with
        | some err =>
          simp only [Bool.not_true, Bool.false_eq_true, if_false, Run.andThen_res, Run.call, hc,
            ofErr] at hs
          exact absurd hs (patchSubnetStatus_bind_fail c _ _ _ err s)
        | none =>
          simp only [Bool.not_true, Bool.false_eq_true, if_false, Run.andThen_res, Run.call, hc,
            ofErr, Run.ret, Result.ok.injEq] at hs
          exact hs.symm
    rw [reconcileSubnet_patch c patch s (h s hs2)]

/-- The run of the validation step and what follows under another `Patch` for which
`reconcileGateway` runs the same on the validated subnet. -/
theorem validateAndReconcile_patch (c : Controller)
    (patch : String → SubnetStatus → Result Subnet) (subnet : Subnet)
    (h : ∀ s,
      (s = { subnet with
          Status := statusAfterPatch subnet.Status "ValidateLogicalSwitchSuccess" "" } ∨
        s = { subnet with
          Status := c.EnsureStandardConditions
            (statusAfterPatch subnet.Status "ValidateLogicalSwitchSuccess" "") }) →
      reconcileGateway { c with subnetsPatch := patch } s = reconcileGateway c s) :
    validateAndReconcile { c with subnetsPatch := patch } subnet =
      validateAndReconcile c subnet := by
  have hR := reconcileLogicalSwitch_patch c patch
    { subnet with Status := statusAfterPatch subnet.Status "ValidateLogicalSwitchSuccess" "" } h
  have hP := patchSubnetStatus_patch c patch
  have hCS : ∀ s l, conflictSubnet { c with subnetsPatch := patch } s l = conflictSubnet c s l :=
    fun _ _ => rfl
  have hCN : ∀ s l, conflictNode { c with subnetsPatch := patch } s l = conflictNode c s l :=
    fun _ _ => rfl
  have hV : ({ c with subnetsPatch := patch } : Controller).ValidateSubnet = c.ValidateSubnet :=
    rfl
  have hL : ({ c with subnetsPatch := patch } : Controller).subnetsList = c.subnetsList := rfl
  have hN : ({ c with subnetsPatch := patch } : Controller).nodesList = c.nodesList := rfl
  generalize { c with subnetsPatch := patch } = c2 at hR hP hCS hCN hV hL hN ⊢
  unfold validateAndReconcile
  simp only [hP, hCS, hCN, hV, hL, hN]
  cases hv : c.ValidateSubnet subnet with
  | some err => rfl
  | none =>
    simp only []
    refine Run.bind_congr _ _ _ _ rfl (fun s hs => ?_)
    rw [patchSubnetStatus_res] at hs
    simp only [Result.ok.injEq] at hs
    subst hs
    cases hl : c.subnetsList with
    | error err => rfl
    | ok subnetList =>
      simp only []
      cases hcs : conflictSubnet c { subnet with
          Status := statusAfterPatch subnet.Status "ValidateLogicalSwitchSuccess" "" }
          subnetList with
      | some sub => rfl
      | none =>
        simp only []
        cases hn : c.nodesList with
        | error err => rfl
        | ok nodes =>
          simp only []
          cases hcn : conflictNode c { subnet with
              Status := statusAfterPatch subnet.Status "ValidateLogicalSwitchSuccess" "" }
              nodes with
          | some found => rfl
          | none =>
            simp only []
            exact hR

theorem rpe_ret {α : Type} (c : Controller) (a : α) : ReturnsPatchError c (Run.ret a) := by
  intro name doc e hk
  simp [Run.ret] at hk

theorem rpe_fail {α : Type} (c : Controller) (e : Err) :
    ReturnsPatchError c (Run.fail e : Run α) := by
  intro name doc e2 hk
  simp [Run.fail] at hk

theorem rpe_call {α : Type} (c : Controller) (k : Call) (r : Result α)
    (h : ∀ name doc, k ≠ .subnetsPatch name doc) : ReturnsPatchError c (Run.call k r) := by
  intro name doc e hk
  simp only [Run.call, List.mem_singleton] at hk
  exact absurd hk.symm (h name doc)

theorem rpe_patch (c : Controller) (name : String) (doc : SubnetStatus) :
    ReturnsPatchError c (Run.call (.subnetsPatch name doc) (c.subnetsPatch name doc)) := by
  intro name2 doc2 e hk he
  simp only [Run.call, List.mem_singleton, Call.subnetsPatch.injEq] at hk
  obtain ⟨h1, h2⟩ := hk
  subst h1
  subst h2
  exact he

theorem rpe_bind {α β : Type} (c : Controller) (m : Run α) (f : α → Run β)
    (hm : ReturnsPatchError c m) (hf : ∀ a, ReturnsPatchError c (f a)) :
    ReturnsPatchError c (m.bind f) := by
  intro name doc e hk he
  cases hr : m.res with
  | error e2 =>
    rw [Run.bind_error _ _ e2 hr] at hk ⊢
    have := hm name doc e hk he
    rw [hr] at this
    simp only [Result.error.injEq] at this
    rw [this]
  | ok a =>
    rw [Run.bind_ok _ _ a hr] at hk ⊢
    simp only [List.mem_append] at hk
    rcases hk with hk | hk
    · have := hm name doc e hk he
      rw [hr] at this
      cases this
    · exact hf a name doc e hk he

theorem rpe_andThen {α β : Type} (c : Controller) (m : Run α) (f : Result α → Run β)
    (hm : ∀ name doc, Call.subnetsPatch name doc ∉ m.calls)
    (hf : ∀ r, ReturnsPatchError c (f r)) : ReturnsPatchError c (m.andThen f) := by
  intro name doc e hk he
  simp only [Run.andThen_calls, List.mem_append, Run.andThen_res] at hk ⊢
  rcases hk with hk | hk
  · exact absurd hk (hm name doc)
  · exact hf _ name doc e hk he

theorem rpe_forEach {α : Type} (c : Controller) (f : α → Run Unit) (l : List α)
    (hf : ∀ x, ReturnsPatchError c (f x)) : ReturnsPatchError c (forEach f l) := by
  induction l with
  | nil => exact rpe_ret c ()
  | cons x rest ih => exact rpe_bind c _ _ (hf x) (fun _ => ih)

theorem rpe_ite {α : Type} (c : Controller) (p : Prop) [Decidable p] (x y : Run α)
    (hx : ReturnsPatchError c x) (hy : ReturnsPatchError c y) :
    ReturnsPatchError c (if p then x else y) := by
  split
  · exact hx
  · exact hy

theorem rpe_addPodRoutes (c : Controller) (ips : List IP) :
    ReturnsPatchError c (addPodRoutes c ips) := by
  unfold addPodRoutes
  refine rpe_forEach c _ _ (fun ip => ?_)
  split
  · split
    · exact rpe_ret c _
    · exact rpe_fail c _
  · split
    · exact rpe_fail c _
    · refine rpe_andThen c _ _ (fun name doc hk => by simp [Run.call] at hk) (fun r => ?_)
      split
      · exact rpe_fail c _
      · exact rpe_ret c _

theorem rpe_deletePodRoutes (c : Controller) (ips : List IP) :
    ReturnsPatchError c (deletePodRoutes c ips) := by
  unfold deletePodRoutes
  exact rpe_forEach c _ _ (fun ip => rpe_call c _ _ (fun _ _ h => by cases h))

theorem rpe_reconcileDistributedGateway (c : Controller) (subnet : Subnet) (ips : List IP) :
    ReturnsPatchError c (reconcileDistributedGateway c subnet ips) := by
  unfold reconcileDistributedGateway
  split
  · exact rpe_ret c _
  · simp only
    split
    · exact rpe_fail c _
    · refine rpe_bind c _ _ (rpe_patch c _ _) (fun _ => ?_)
      refine rpe_bind c _ _ (rpe_addPodRoutes c ips) (fun _ => ?_)
      exact rpe_bind c _ _ (rpe_call c _ _ (fun _ _ h => by cases h)) (fun _ => rpe_ret c _)

theorem rpe_activateNewGateway (c : Controller) (subnet : Subnet) (ips : List IP) :
    ReturnsPatchError c (activateNewGateway c subnet ips) := by
  unfold activateNewGateway
  split
  · exact rpe_fail c _
  · split
    · simp only
      split
      · exact rpe_fail c _
      · exact rpe_bind c _ _ (rpe_patch c _ _) (fun _ => rpe_ret c _)
    · refine rpe_andThen c _ _ (fun name doc hk => by simp [Run.call] at hk) (fun r => ?_)
      split
      · exact rpe_fail c _
      · refine rpe_bind c _ _ (rpe_deletePodRoutes c ips) (fun _ => ?_)
        simp only
        split
        · exact rpe_fail c _
        · exact rpe_bind c _ _ (rpe_patch c _ _) (fun _ => rpe_ret c _)

/-- The run of `reconcileGateway` returns the error of its `Patch` call. -/
theorem rpe_reconcileGateway (c : Controller) (subnet : Subnet) :
    ReturnsPatchError c (reconcileGateway c subnet) := by
  unfold reconcileGateway
  refine rpe_bind c _ _ (rpe_call c _ _ (fun _ _ h => by cases h)) (fun ips => ?_)
  split
  · exact rpe_reconcileDistributedGateway c subnet ips
  · exact rpe_ite c _ _ _ (rpe_ret c _) (rpe_activateNewGateway c subnet ips)

/-- No step of `formatSubnet` makes a `Patch` call. -/
theorem formatSubnet_patch (c : Controller)
    (patch : String → SubnetStatus → Result Subnet) (subnet : Subnet) :
    formatSubnet { c with subnetsPatch := patch } subnet = formatSubnet c subnet := by
  have h1 : ∀ p, fmtProtocol { c with subnetsPatch := patch } p = fmtProtocol c p :=
    fun _ => rfl
  have h2 : ∀ p, fmtDefault { c with subnetsPatch := patch } p = fmtDefault c p :=
    fun _ => rfl
  have h3 : ∀ p, fmtGateway { c with subnetsPatch := patch } p = fmtGateway c p :=
    fun _ => rfl
  have h4 : ∀ p, fmtExcludeIps { c with subnetsPatch := patch } p = fmtExcludeIps c p :=
    fun _ => rfl
  have h5 : ∀ p, fmtVlanDefault { c with subnetsPatch := patch } p = fmtVlanDefault c p :=
    fun _ => rfl
  have h6 : ∀ p, fmtVlanLookup { c with subnetsPatch := patch } p = fmtVlanLookup c p :=
    fun _ => rfl
  have hf : formatSubnetFields { c with subnetsPatch := patch } subnet =
      formatSubnetFields c subnet := by
    unfold formatSubnetFields
    simp only [h1, h2, h3, h4, h5, h6]
  unfold formatSubnet
  simp only [hf]

/-- The steps after the finalizer under another `Patch` that answers the calls of
`calcSubnetStatusIP` and `reconcileGateway` the same. -/
theorem afterFinalizer_patch (c : Controller)
    (patch : String → SubnetStatus → Result Subnet) (subnet : Subnet)
    (hcalc : ∀ s2 name doc, (formatSubnet c subnet).res = .ok s2 →
      Call.subnetsPatch name doc ∈ (calcSubnetStatusIP c s2).calls →
      patch name doc = c.subnetsPatch name doc)
    (hgw : ∀ s2 s3 s name doc, (formatSubnet c subnet).res = .ok s2 →
      (calcSubnetStatusIP c s2).res = .ok s3 →
      (s = { s3 with
          Status := statusAfterPatch s3.Status "ValidateLogicalSwitchSuccess" "" } ∨
        s = { s3 with
          Status := c.EnsureStandardConditions
            (statusAfterPatch s3.Status "ValidateLogicalSwitchSuccess" "") }) →
      Call.subnetsPatch name doc ∈ (reconcileGateway c s).calls →
      patch name doc = c.subnetsPatch name doc) :
    afterFinalizer { c with subnetsPatch := patch } subnet = afterFinalizer c subnet := by
  have hF := formatSubnet_patch c patch subnet
  unfold afterFinalizer
  refine Run.bind_congr _ _ _ _ hF (fun s2 hs2 => ?_)
  refine Run.bind_congr _ _ _ _
    (calcSubnetStatusIP_patch c patch s2 (fun name doc hm => hcalc s2 name doc hs2 hm))
    (fun s3 hs3 => ?_)
  refine Run.bind_congr _ _ _ _ rfl (fun _ _ => ?_)
  refine ite_congr_right _ _ _ _ (fun _ => ?_)
  exact validateAndReconcile_patch c patch s3 (fun s hs =>
    reconcileGateway_patch c patch s (fun name doc hm => hgw s2 s3 s name doc hs2 hs3 hs hm))

/-- The run of `handleAddOrUpdateSubnet` under another `Patch` that answers the calls of
`calcSubnetStatusIP` and `reconcileGateway` the same. -/
theorem handleAddOrUpdateSubnet_patch (c : Controller)
    (patch : String → SubnetStatus → Result Subnet) (key : String)
    (hcalc : ∀ s0 s1 s2 name doc, c.subnetsGet key = .ok s0 →
      (handleSubnetFinalizer c s0).res = .ok (s1, false) →
      (formatSubnet c s1).res = .ok s2 →
      Call.subnetsPatch name doc ∈ (calcSubnetStatusIP c s2).calls →
      patch name doc = c.subnetsPatch name doc)
    (hgw : ∀ s0 s1 s2 s3 s name doc, c.subnetsGet key = .ok s0 →
      (handleSubnetFinalizer c s0).res = .ok (s1, false) →
      (formatSubnet c s1).res = .ok s2 →
      (calcSubnetStatusIP c s2).res = .ok s3 →
      (s = { s3 with
          Status := statusAfterPatch s3.Status "ValidateLogicalSwitchSuccess" "" } ∨
        s = { s3 with
          Status := c.EnsureStandardConditions
            (statusAfterPatch s3.Status "ValidateLogicalSwitchSuccess" "") }) →
      Call.subnetsPatch name doc ∈ (reconcileGateway c s).calls →
      patch name doc = c.subnetsPatch name doc) :
    handleAddOrUpdateSubnet { c with subnetsPatch := patch } key =
      handleAddOrUpdateSubnet c key := by
  have hFin : ∀ s, handleSubnetFinalizer { c with subnetsPatch := patch } s =
      handleSubnetFinalizer c s := fun _ => rfl
  unfold handleAddOrUpdateSubnet
  simp only [hFin]
  cases hg : c.subnetsGet key with
  | error err => rfl
  | ok s0 =>
    simp only []
    refine Run.bind_congr _ _ _ _ rfl (fun r hr => ?_)
    obtain ⟨s1, deleted⟩ := r
    cases deleted with
    | true => simp only [if_true]
    | false =>
      simp only [Bool.false_eq_true, if_false]
      exact afterFinalizer_patch c patch s1 (fun s2 name doc => hcalc s0 s1 s2 name doc hg hr)
        (fun s2 s3 s name doc => hgw s0 s1 s2 s3 s name doc hg hr)

/-- The distributed branch makes no `Patch` call while no gateway is recorded. -/
theorem reconcileGateway_distributed_idle (c : Controller) (subnet : Subnet)
    (hd : subnet.Spec.GatewayType = GWDistributedType)
    (ha : subnet.Status.ActivateGateway = "") :
    (reconcileGateway c subnet).calls = [.ipsList (SubnetNameLabel ++ "=" ++ subnet.Name)] := by
  unfold reconcileGateway reconcileDistributedGateway
  simp only [if_pos hd, if_pos ha]
  cases hl : c.ipsList (SubnetNameLabel ++ "=" ++ subnet.Name) with
  | error e => simp [Run.bind, Run.call, hl]
  | ok ips => simp [Run.bind, Run.call, hl, Run.ret]

/-- C21, as the code has it.  The `Patch` calls of `patchSubnetStatus` are best-effort:
`patchSubnetStatus` answers no error and hands on the subnet with the conditions it
set, its run is the same whatever the `Patch` call answers, and so is the whole run of
`handleAddOrUpdateSubnet`, result included, under any other answers of the `Patch` calls
as long as the `Patch` calls of `calcSubnetStatusIP` and `reconcileGateway` are answered
the same.  The other status patches are not best-effort: when the counter `Patch` of
`calcSubnetStatusIP` fails, `handleUpdateSubnetStatus` returns that error, and so does
`handleAddOrUpdateSubnet`, which returns every error of `calcSubnetStatusIP`; and
`reconcileGateway` returns the error of the `Patch` call it makes. -/
theorem patchSubnetStatus_best_effort (c : Controller)
    (patch : String → SubnetStatus → Result Subnet) (key : String) :
    (∀ subnet reason errStr,
      (patchSubnetStatus c subnet reason errStr).res =
        .ok { subnet with Status := statusAfterPatch subnet.Status reason errStr } ∧
      patchSubnetStatus { c with subnetsPatch := patch } subnet reason errStr =
        patchSubnetStatus c subnet reason errStr) ∧
    ((∀ s0 s1 s2 name doc, c.subnetsGet key = .ok s0 →
        (handleSubnetFinalizer c s0).res = .ok (s1, false) →
        (formatSubnet c s1).res = .ok s2 →
        Call.subnetsPatch name doc ∈ (calcSubnetStatusIP c s2).calls →
        patch name doc = c.subnetsPatch name doc) →
      (∀ s0 s1 s2 s3 s name doc, c.subnetsGet key = .ok s0 →
        (handleSubnetFinalizer c s0).res = .ok (s1, false) →
        (formatSubnet c s1).res = .ok s2 →
        (calcSubnetStatusIP c s2).res = .ok s3 →
        (s = { s3 with
            Status := statusAfterPatch s3.Status "ValidateLogicalSwitchSuccess" "" } ∨
          s = { s3 with
            Status := c.EnsureStandardConditions
              (statusAfterPatch s3.Status "ValidateLogicalSwitchSuccess" "") }) →
        Call.subnetsPatch name doc ∈ (reconcileGateway c s).calls →
        patch name doc = c.subnetsPatch name doc) →
      handleAddOrUpdateSubnet { c with subnetsPatch := patch } key =
        handleAddOrUpdateSubnet c key) ∧
    (∀ subnet cidr ips e, c.ParseCIDR subnet.Spec.CIDRBlock = .ok cidr →
      c.ipsList (subnet.Name ++ "=") = .ok ips →
      c.marshalErr (countedStatus c subnet cidr ips) = none →
      c.subnetsPatch subnet.Name (countedStatus c subnet cidr ips) = .error e →
      (calcSubnetStatusIP c subnet).res = .error e ∧
      (c.subnetsGet key = .ok subnet → (handleUpdateSubnetStatus c key).res = .error e)) ∧
    (∀ s0 s1 s2 e, c.subnetsGet key = .ok s0 →
      (handleSubnetFinalizer c s0).res = .ok (s1, false) →
      (formatSubnet c s1).res = .ok s2 →
      (calcSubnetStatusIP c s2).res = .error e →
      (handleAddOrUpdateSubnet c key).res = .error e) ∧
    (∀ subnet name doc e, Call.subnetsPatch name doc ∈ (reconcileGateway c subnet).calls →
      c.subnetsPatch name doc = .error e → (reconcileGateway c subnet).res = .error e) := by
  refine ⟨fun subnet reason errStr => ⟨patchSubnetStatus_res c subnet reason errStr,
    patchSubnetStatus_patch c patch subnet reason errStr⟩,
    handleAddOrUpdateSubnet_patch c patch key, ?_, ?_,
    fun subnet => rpe_reconcileGateway c subnet⟩
  · intro subnet cidr ips e hparse hlist hm hp
    have hcalc : (calcSubnetStatusIP c subnet).res = .error e := by
      rw [calcSubnetStatusIP_eq c subnet cidr ips hparse hlist, hm]
      simp only [hp]
    refine ⟨hcalc, fun hget => ?_⟩
    unfold handleUpdateSubnetStatus
    rw [hget]
    simp only [Run.bind_error _ _ e hcalc]
  · intro s0 s1 s2 e hget hfin hfmt hcalc
    unfold handleAddOrUpdateSubnet
    rw [hget]
    simp only [Run.bind_ok _ _ (s1, false) hfin]
    unfold afterFinalizer
    simp only [Run.bind_ok _ _ s2 hfmt, Run.bind_error _ _ e hcalc]
    simp

/-- The claim C21 on the sample clusters.  With a `Patch` that fails on every document
that carries a condition, the counter patch of the sample subnet succeeds, every patch
of `patchSubnetStatus` fails, and `handleAddOrUpdateSubnet` runs as it does when every
`Patch` succeeds, returning success.  With a `Patch` that fails on every document,
`handleUpdateSubnetStatus` returns the failure of the counter patch.  On the cluster
without gateway nodes `reconcileGateway` returns the failure of the patch that carries
`NotReady(NoReadyGateway)`. -/
theorem patchSubnetStatus_best_effort_witness :
    handleAddOrUpdateSubnet conditionPatchFailController "s1" =
      handleAddOrUpdateSubnet sampleController "s1" ∧
    (handleAddOrUpdateSubnet sampleController "s1").res = .ok () ∧
    patchedStatuses (handleAddOrUpdateSubnet sampleController "s1").calls =
      [countedSample.Status,
       statusAfterPatch countedSample.Status "ValidateLogicalSwitchSuccess" "",
       statusAfterPatch (statusAfterPatch countedSample.Status
         "ValidateLogicalSwitchSuccess" "") "ResetLogicalSwitchAclSuccess" ""] ∧
    conditionPatchFailController.subnetsPatch "s1"
        (statusAfterPatch countedSample.Status "ValidateLogicalSwitchSuccess" "") =
      .error (.failed "patch failed") ∧
    (handleUpdateSubnetStatus patchFailController "s1").res =
      .error (.failed "patch failed") ∧
    (reconcileGateway nodelessPatchFailController centralSubnet).res =
      .error (.failed "patch failed") :=
  ⟨(patchSubnetStatus_best_effort sampleController
      (fun _ doc =>
        if doc.Conditions = [] then .ok sampleSubnet else .error (.failed "patch failed"))
      "s1").2.1
      (fun s0 s1 s2 name doc h0 h1 h2 hm => by
        rw [show sampleController.subnetsGet "s1" = .ok sampleSubnet from by decide] at h0
        cases h0
        rw [show (handleSubnetFinalizer sampleController sampleSubnet).res =
          .ok (sampleSubnet, false) from by decide] at h1
        cases h1
        rw [show (formatSubnet sampleController sampleSubnet).res = .ok sampleFormatted
          from by decide] at h2
        cases h2
        rw [show (calcSubnetStatusIP sampleController sampleFormatted).calls =
          [.ipsList "s1=", .subnetsPatch "s1" countedSample.Status] from by decide] at hm
        simp only [List.mem_cons, Call.subnetsPatch.injEq, List.mem_singleton,
          List.not_mem_nil, or_false, false_or, reduceCtorEq] at hm
        obtain ⟨rfl, rfl⟩ := hm
        decide)
      (fun s0 s1 s2 s3 s name doc h0 h1 h2 h3 hs hm => by
        rw [show sampleController.subnetsGet "s1" = .ok sampleSubnet from by decide] at h0
        cases h0
        rw [show (handleSubnetFinalizer sampleController sampleSubnet).res =
          .ok (sampleSubnet, false) from by decide] at h1
        cases h1
        rw [show (formatSubnet sampleController sampleSubnet).res = .ok sampleFormatted
          from by decide] at h2
        cases h2
        rw [show (calcSubnetStatusIP sampleController sampleFormatted).res =
          .ok countedSample from by decide] at h3
        cases h3
        rcases hs with rfl | rfl
        · rw [reconcileGateway_distributed_idle _ _ (by decide) (by decide)] at hm
          simp at hm
        · rw [reconcileGateway_distributed_idle _ _ (by decide) (by decide)] at hm
          simp at hm),
   by decide, by decide, by decide,
   ((patchSubnetStatus_best_effort patchFailController (fun _ _ => .ok sampleSubnet)
      "s1").2.2.1 sampleSubnet "10.16.0.0/16" [] (.failed "patch failed") (by decide)
      (by decide) (by decide) (by decide)).2 (by decide),
   (patchSubnetStatus_best_effort nodelessPatchFailController (fun _ _ => .ok sampleSubnet)
      "g").2.2.2.2 centralSubnet "g" (noGatewayStatus centralSubnet.Status)
      (.failed "patch failed") (by decide) (by decide)⟩

/-- C21 fails as stated: on the sample cluster `handleUpdateSubnetStatus("s1")` and
`handleAddOrUpdateSubnet("s1")` return success when the status `Patch` calls succeed, and
return the error of the counter patch of `calcSubnetStatusIP` when the status `Patch`
calls fail; nothing else differs between the two clusters.  A patch that carries a
condition is returned as well: on the cluster without gateway nodes
`handleAddOrUpdateSubnet("g")` returns success when the `Patch` calls succeed, and the
error of the `NotReady(NoReadyGateway)` patch of `reconcileGateway` when only the
documents that carry a condition fail. -/
theorem handlers_return_counter_patch_failure :
    (handleUpdateSubnetStatus sampleController "s1").res = .ok () ∧
    (handleUpdateSubnetStatus patchFailController "s1").res =
      .error (.failed "patch failed") ∧
    (handleAddOrUpdateSubnet sampleController "s1").res = .ok () ∧
    (handleAddOrUpdateSubnet patchFailController "s1").res =
      .error (.failed "patch failed") ∧
    (handleUpdateSubnetStatus patchFailController "s1").calls =
      [.ipsList "s1=",
       .subnetsPatch "s1"
         { Conditions := [], AvailableIPs := 65534, UsingIPs := 0, ActivateGateway := "" }] ∧
    (handleAddOrUpdateSubnet nodelessController "g").res = .ok () ∧
    (handleAddOrUpdateSubnet nodelessPatchFailController "g").res =
      .error (.failed "patch failed") ∧
    (handleAddOrUpdateSubnet nodelessPatchFailController "g").calls.getLast? =
      some (.subnetsPatch "g" (noGatewayStatus
        (statusAfterPatch centralSubnet.Status "ValidateLogicalSwitchSuccess" ""))) := by
  decide

/-! ## `generateNicName` -/

/-- What `takeBytes` answers is a prefix of the text, `n` bytes long. -/
theorem takeBytes_some : ∀ (l : List Char) (n : Nat) (p : List Char),
    takeBytes l n = some p → p <+: l ∧ String.utf8Len p = n := by
  intro l
  induction l with
  | nil =>
    intro n p h
    cases n with
    | zero =>
      simp only [takeBytes, Option.some.injEq] at h
      subst h
      exact ⟨List.nil_prefix, rfl⟩
    | succ n => simp [takeBytes] at h
  | cons ch rest ih =>
    intro n p h
    cases n with
    | zero =>
      simp only [takeBytes, Option.some.injEq] at h
      subst h
      exact ⟨List.nil_prefix, rfl⟩
    | succ n =>
      simp only [takeBytes] at h
      split at h
      · rename_i hle
        cases hr : takeBytes rest (n + 1 - ch.utf8Size) with
        | none => simp [hr] at h
        | some q =>
          simp only [hr, Option.map_some', Option.some.injEq] at h
          subst h
          obtain ⟨hq, hlen⟩ := ih _ _ hr
          refine ⟨(List.prefix_cons_inj ch).mpr hq, ?_⟩
          simp only [String.utf8Len_cons, hlen]
          omega
      · cases h

/-- On a text whose first `n` characters are ASCII, `takeBytes` answers these characters. -/
theorem takeBytes_ascii : ∀ (l : List Char) (n : Nat), n ≤ l.length →
    (∀ ch ∈ l.take n, ch.toNat < 128) → takeBytes l n = some (l.take n) := by
  intro l
  induction l with
  | nil =>
    intro n hn _
    have : n = 0 := by simpa using hn
    subst this
    rfl
  | cons ch rest ih =>
    intro n hn hascii
    cases n with
    | zero => rfl
    | succ n =>
      have hch : ch.toNat < 128 := hascii ch (by simp)
      have hsize : ch.utf8Size = 1 := by
        unfold Char.utf8Size
        have : ch.val ≤ 127 := by
          have h2 : ch.val.toNat < 128 := hch
          exact UInt32.le_def.mpr (by
            show ch.val.toNat ≤ 127
            omega)
        simp [this]
      simp only [takeBytes, hsize]
      have hrest := ih n (by simpa using hn)
        (fun c hc => hascii c (by simp [List.take_succ_cons, hc]))
      rw [if_pos (by omega)]
      simp [hrest]

theorem only_bind_res {α β : Type} (P : Call → Prop) (m : Run α) (f : α → Run β)
    (hm : Only P m) (hf : ∀ a, m.res = .ok a → Only P (f a)) : Only P (m.bind f) := by
  intro k hk
  unfold Run.bind at hk
  split at hk
  · exact hm k hk
  · rename_i a ha
    simp only [List.mem_append] at hk
    rcases hk with hk | hk
    · exact hm k hk
    · exact hf a ha k hk

/-- The veth pair is named by `generateNicName`, and setting it up does not call OVS. -/
theorem setupVethPair_names (csh : cniServerHandler) (containerID : String) (mtu : Nat) :
    Only (fun k => isOvsExec k = false) (setupVethPair csh containerID mtu) ∧
    ∀ names, (setupVethPair csh containerID mtu).res = .ok (some names) →
      generateNicName containerID = some names := by
  unfold setupVethPair
  cases hg : generateNicName containerID with
  | none => exact ⟨only_ret _ _, fun names h => by simp at h⟩
  | some names =>
    obtain ⟨h, c⟩ := names
    simp only []
    cases hadd : csh.LinkAdd h c mtu with
    | none =>
      refine ⟨?_, fun names hres => ?_⟩
      · intro k hk
        simp [Run.andThen, Run.call, Run.ret, hadd, ofErr] at hk
        subst hk
        rfl
      · simp [Run.andThen, Run.call, Run.ret, hadd, ofErr] at hres
        rw [← hres]
    | some e =>
      refine ⟨?_, fun names hres => ?_⟩
      · refine only_andThen _ _ _ (only_call _ _ _ rfl) (fun r => ?_)
        cases r with
        | ok u => exact only_ret _ _
        | error e2 =>
          exact only_bind _ _ _ (only_call _ _ _ rfl) (fun _ => only_fail _ _)
      · cases hdel : csh.LinkDel h <;>
          simp [Run.andThen, Run.call, Run.bind, Run.fail, hadd, hdel, ofErr] at hres

theorem renameLink_only (csh : cniServerHandler) (curName newName : String) :
    Only (fun k => isOvsExec k = false) (renameLink csh curName newName) := by
  unfold renameLink
  exact only_bind _ _ _ (only_call _ _ _ rfl) fun _ =>
    only_bind _ _ _ (only_call _ _ _ rfl) fun _ =>
    only_bind _ _ _ (only_call _ _ _ rfl) fun _ => only_call _ _ _ rfl

/-- The host representor is renamed to the host name of `generateNicName`, and setting
it up does not call OVS. -/
theorem setupSriovInterface_names (csh : cniServerHandler) (containerID deviceID : String)
    (mtu : Nat) :
    Only (fun k => isOvsExec k = false) (setupSriovInterface csh containerID deviceID mtu) ∧
    ∀ names, (setupSriovInterface csh containerID deviceID mtu).res = .ok (some names) →
      ∃ c, generateNicName containerID = some (names.1, c) := by
  unfold setupSriovInterface
  constructor
  · refine only_bind _ _ _ (only_call _ _ _ rfl) (fun d => ?_)
    split
    · refine only_bind _ _ _ (only_call _ _ _ rfl) fun uplink =>
        only_bind _ _ _ (only_call _ _ _ rfl) fun vfIndex =>
        only_bind _ _ _ (only_call _ _ _ rfl) fun rep => ?_
      split
      · exact only_ret _ _
      · refine only_andThen _ _ _ (renameLink_only _ _ _) (fun r => ?_)
        split
        · exact only_fail _ _
        · refine only_bind _ _ _ (only_call _ _ _ rfl) fun link =>
            only_andThen _ _ _ (only_call _ _ _ rfl) (fun r => ?_)
          split
          · exact only_fail _ _
          · exact only_ret _ _
    · exact only_fail _ _
  · intro names hres
    cases hdev : csh.GetNetDevicesFromPci deviceID with
    | error e => simp [Run.bind, Run.call, hdev] at hres
    | ok devs =>
      simp only [Run.bind, Run.call_res, hdev, Run.call_calls] at hres
      split at hres
      · rename_i vf
        cases hup : csh.GetUplinkRepresentor deviceID with
        | error e => simp [hup] at hres
        | ok uplink =>
          cases hidx : csh.GetVfIndexByPciAddress deviceID with
          | error e => simp [hup, hidx] at hres
          | ok vfIndex =>
            cases hrep : csh.GetVfRepresentor uplink vfIndex with
            | error e => simp [hup, hidx, hrep] at hres
            | ok rep =>
              simp only [hup, hidx, hrep] at hres
              cases hg : generateNicName containerID with
              | none => simp [hg] at hres
              | some gen =>
                obtain ⟨h, c⟩ := gen
                simp only [hg, Run.andThen_res] at hres
                cases hren : (renameLink csh rep h).res with
                | error e => simp [hren] at hres
                | ok u =>
                  simp only [hren, Run.call_res] at hres
                  cases hl : (csh.LinkByName h).result with
                  | error e => simp [hl] at hres
                  | ok link =>
                    simp only [hl] at hres
                    cases hm : csh.LinkSetMTU link mtu with
                    | some e => simp [hm, ofErr] at hres
                    | none =>
                      simp [hm, ofErr] at hres
                      exact ⟨c, by rw [← hres]⟩
      · simp at hres

theorem only_mono {α : Type} (P Q : Call → Prop) (r : Run α) (h : ∀ k, P k → Q k)
    (hr : Only P r) : Only Q r :=
  fun k hk => h k (hr k hk)

theorem configureHostNic_only (csh : cniServerHandler) (nicName vlanID : String) :
    Only (fun k => isOvsExec k = false) (configureHostNic csh nicName vlanID) := by
  unfold configureHostNic
  refine only_andThen _ _ _ (only_call _ _ _ rfl) (fun r => ?_)
  split
  · exact only_fail _ _
  · refine only_bind _ _ _ ?_ (fun _ => only_andThen _ _ _ (only_call _ _ _ rfl) (fun r => ?_))
    · refine only_ite _ _ _ _ (only_ret _ _)
        (only_andThen _ _ _ (only_call _ _ _ rfl) (fun r => ?_))
      split
      · exact only_fail _ _
      · exact only_ret _ _
    · split
      · exact only_fail _ _
      · refine only_ite _ _ _ _
          (only_andThen _ _ _ (only_call _ _ _ rfl) (fun r => ?_)) (only_ret _ _)
        split
        · exact only_fail _ _
        · exact only_ret _ _

/-- Every `ovs.Exec` of `configureNic` is the `add-port` of the host name that
`generateNicName` derives from the container ID. -/
theorem configureNic_port (csh : cniServerHandler) (podName podNamespace netns containerID
    ifName mac ip gateway ingress egress vlanID DeviceID : String) (h c : String)
    (hg : generateNicName containerID = some (h, c)) :
    Only (fun k => ∀ args, k = .ovsExec args →
        args = addPortArgs h (podName ++ "." ++ podNamespace) podName podNamespace
          (csh.GetIpWithoutMask ip))
      (configureNic csh podName podNamespace netns containerID ifName mac ip gateway ingress
        egress vlanID DeviceID) := by
  have hweak : ∀ k, isOvsExec k = false → ∀ args, k = .ovsExec args →
      args = addPortArgs h (podName ++ "." ++ podNamespace) podName podNamespace
        (csh.GetIpWithoutMask ip) := by
    intro k hk args heq
    subst heq
    simp [isOvsExec] at hk
  have hsetup : Only (fun k => isOvsExec k = false)
      (if DeviceID = "" then setupVethPair csh containerID csh.MTU
       else setupSriovInterface csh containerID DeviceID csh.MTU) :=
    only_ite _ _ _ _ (setupVethPair_names csh containerID csh.MTU).1
      (setupSriovInterface_names csh containerID DeviceID csh.MTU).1
  have hnames : ∀ names,
      (if DeviceID = "" then setupVethPair csh containerID csh.MTU
       else setupSriovInterface csh containerID DeviceID csh.MTU).res = .ok (some names) →
      names.1 = h := by
    intro names hres
    by_cases hd : DeviceID = ""
    · rw [if_pos hd] at hres
      have := (setupVethPair_names csh containerID csh.MTU).2 names hres
      rw [hg] at this
      cases this
      rfl
    · rw [if_neg hd] at hres
      obtain ⟨c2, hc2⟩ := (setupSriovInterface_names csh containerID DeviceID csh.MTU).2
        names hres
      rw [hg] at hc2
      cases hc2
      rfl
  unfold configureNic
  refine only_bind_res _ _ _ (only_mono _ _ _ hweak hsetup) (fun names hres => ?_)
  cases names with
  | none => exact only_ret _ _
  | some names =>
    obtain ⟨h2, c2⟩ := names
    have hh : h2 = h := hnames (h2, c2) hres
    subst hh
    simp only []
    refine only_bind _ _ _ (only_emit _ _ (fun args heq => by cases heq)) (fun _ => ?_)
    refine only_andThen _ _ _
      (only_call _ _ _ (fun args heq => by cases heq; rfl)) (fun r => ?_)
    split
    · exact only_fail _ _
    · split
      · exact only_fail _ _
      · refine only_bind _ _ _ (only_mono _ _ _ hweak (configureHostNic_only _ _ _)) fun _ =>
          only_bind _ _ _ (only_call _ _ _ (fun args heq => by cases heq)) fun _ =>
          only_andThen _ _ _ (only_call _ _ _ (fun args heq => by cases heq)) (fun r => ?_)
        split
        · exact only_fail _ _
        · exact only_bind _ _ _ (only_call _ _ _ (fun args heq => by cases heq))
            (fun _ => only_ret _ _)

/-- Every `ovs.Exec` of `deleteNic` is the `del-port` of the host name that
`generateNicName` derives from the container ID. -/
theorem deleteNic_port (csh : cniServerHandler) (podName podNamespace containerID
    deviceID : String) (h c : String) (hg : generateNicName containerID = some (h, c)) :
    Only (fun k => ∀ args, k = .ovsExec args →
        args = [IfExists, "--with-iface", "del-port", "br-int", h])
      (deleteNic csh podName podNamespace containerID deviceID) := by
  unfold deleteNic
  rw [hg]
  simp only []
  refine only_andThen _ _ _ (only_call _ _ _ (fun args heq => by cases heq; rfl)) (fun r => ?_)
  split
  · exact only_fail _ _
  · refine only_bind _ _ _ (only_call _ _ _ (fun args heq => by cases heq)) (fun _ => ?_)
    refine only_ite _ _ _ _ ?_ (only_ret _ _)
    refine only_bind _ _ _ (only_emit _ _ (fun args heq => by cases heq)) (fun _ => ?_)
    split
    · exact only_ret _ _
    · exact only_fail _ _
    · refine only_andThen _ _ _ (only_call _ _ _ (fun args heq => by cases heq)) (fun r => ?_)
      split
      · exact only_fail _ _
      · exact only_ret _ _

/-- C23: for a container ID of at least 12 bytes whose first 12 bytes `p` are a text of
their own (as in every ID that starts with 12 ASCII characters), `generateNicName` answers
`(p ++ "_h", p ++ "_c")`: `p` is a prefix of the ID and 12 bytes long, the two names
differ, each is 14 bytes long, and every ID with the same first 12 bytes gets the same
names.  So `deleteNic` and `configureNic` for the same container ID address the same host
NIC: every `ovs.Exec` of `deleteNic` is the `del-port` of `p ++ "_h"`, and every
`ovs.Exec` of `configureNic` is the `add-port` of `p ++ "_h"`.  An ID shorter than 12
bytes has no names (the slice expression panics). -/
theorem generateNicName_names (containerID : String) :
    (12 ≤ containerID.length → (∀ ch ∈ containerID.data.take 12, ch.toNat < 128) →
      takeBytes containerID.data 12 = some (containerID.data.take 12)) ∧
    (containerID.utf8ByteSize < 12 → generateNicName containerID = none) ∧
    (∀ p, takeBytes containerID.data 12 = some p →
      p <+: containerID.data ∧ (String.mk p).utf8ByteSize = 12 ∧
      12 ≤ containerID.utf8ByteSize ∧
      generateNicName containerID = some (String.mk p ++ "_h", String.mk p ++ "_c") ∧
      String.mk p ++ "_h" ≠ String.mk p ++ "_c" ∧
      (String.mk p ++ "_h").utf8ByteSize = 14 ∧
      (String.mk p ++ "_c").utf8ByteSize = 14 ∧
      (∀ other : String, takeBytes other.data 12 = some p →
        generateNicName other = generateNicName containerID) ∧
      (∀ (csh : cniServerHandler) (podName podNamespace deviceID : String)
          (args : List String),
        Call.ovsExec args ∈
            (deleteNic csh podName podNamespace containerID deviceID).calls →
          args = [IfExists, "--with-iface", "del-port", "br-int", String.mk p ++ "_h"]) ∧
      (∀ (csh : cniServerHandler) (podName podNamespace netns ifName mac ip gateway ingress
          egress vlanID DeviceID : String) (args : List String),
        Call.ovsExec args ∈
            (configureNic csh podName podNamespace netns containerID ifName mac ip gateway
              ingress egress vlanID DeviceID).calls →
          args = addPortArgs (String.mk p ++ "_h") (podName ++ "." ++ podNamespace) podName
            podNamespace (csh.GetIpWithoutMask ip))) := by
  refine ⟨fun hlen hascii => takeBytes_ascii _ _ hlen hascii, fun hshort => ?_,
    fun p hp => ?_⟩
  · unfold generateNicName
    cases ht : takeBytes containerID.data 12 with
    | none => rfl
    | some p =>
      obtain ⟨hpre, hsize⟩ := takeBytes_some _ _ _ ht
      have hle := String.utf8Len_le_of_prefix hpre
      have hb : containerID.utf8ByteSize = String.utf8Len containerID.data := rfl
      omega
  · obtain ⟨hpre, hsize⟩ := takeBytes_some _ _ _ hp
    have hgen : generateNicName containerID =
        some (String.mk p ++ "_h", String.mk p ++ "_c") := by
      unfold generateNicName
      rw [hp]
      rfl
    have hb : containerID.utf8ByteSize = String.utf8Len containerID.data := rfl
    have hle := String.utf8Len_le_of_prefix hpre
    refine ⟨hpre, hsize, by omega, hgen, ?_, ?_, ?_, ?_, ?_, ?_⟩
    · intro heq
      have hd := congrArg String.data heq
      simp only [String.data_append] at hd
      have hd2 := List.append_cancel_left hd
      exact absurd hd2 (by decide)
    · have : (String.mk p ++ "_h").utf8ByteSize =
          String.utf8Len p + String.utf8Len "_h".data := by
        show String.utf8Len (String.mk p ++ "_h").data = _
        rw [String.data_append, String.utf8Len_append]
      rw [this, hsize]
      rfl
    · have : (String.mk p ++ "_c").utf8ByteSize =
          String.utf8Len p + String.utf8Len "_c".data := by
        show String.utf8Len (String.mk p ++ "_c").data = _
        rw [String.data_append, String.utf8Len_append]
      rw [this, hsize]
      rfl
    · intro other ho
      rw [hgen]
      unfold generateNicName
      rw [ho]
      rfl
    · intro csh podName podNamespace deviceID args hmem
      exact deleteNic_port csh podName podNamespace containerID deviceID _ _ hgen _ hmem
        args rfl
    · intro csh podName podNamespace netns ifName mac ip gateway ingress egress vlanID
        DeviceID args hmem
      exact configureNic_port csh podName podNamespace netns containerID ifName mac ip
        gateway ingress egress vlanID DeviceID _ _ hgen _ hmem args rfl

/-- The claim C23 at the container ID `0123456789abcdef`: the names are `0123456789ab_h`
and `0123456789ab_c`, the ID `0123456789abXYZ` gets the same names, and ADD (over a veth
pair and over an SR-IOV device) and DEL put into OVS and take out of OVS the same port
`0123456789ab_h`. -/
theorem generateNicName_names_witness :
    generateNicName "0123456789abcdef" = some ("0123456789ab_h", "0123456789ab_c") ∧
    generateNicName "0123456789abXYZ" = generateNicName "0123456789abcdef" ∧
    (configureNic attachedHandler "web" "default" "/proc/7/ns/net" "0123456789abcdef" "eth0"
        "00:00:00:aa:bb:01" "10.16.0.5/16" "10.16.0.1" "" "" "" "").calls.filter isOvsExec =
      [.ovsExec (addPortArgs "0123456789ab_h" "web.default" "web" "default"
        "10.16.0.5/16")] ∧
    (configureNic sriovHandler "web" "default" "/proc/7/ns/net" "0123456789abcdef" "eth0"
        "00:00:00:aa:bb:01" "10.16.0.5/16" "10.16.0.1" "" "" "" "0000:03:00.1").calls.filter
        isOvsExec =
      [.ovsExec (addPortArgs "0123456789ab_h" "web.default" "web" "default"
        "10.16.0.5/16")] ∧
    (deleteNic attachedHandler "web" "default" "0123456789abcdef" "").calls.filter
        isOvsExec =
      [.ovsExec ["--if-exists", "--with-iface", "del-port", "br-int", "0123456789ab_h"]] := by
  have hp : takeBytes "0123456789abcdef".data 12 = some "0123456789ab".data :=
    (generateNicName_names "0123456789abcdef").1 (by decide) (by decide)
  obtain ⟨_, _, _, hgen, _, _, _, hsame, _, _⟩ :=
    (generateNicName_names "0123456789abcdef").2.2 _ hp
  exact ⟨hgen, hsame "0123456789abXYZ" (by decide), by decide, by decide, by decide⟩

end KubeOvn
